import Mathlib

/-!
# RuangHijau admin dashboard: embedding of the client-side scripts

A shallow embedding of `static/js/admin.js` and `static/js/feedback_dashboard.js`.

* JavaScript values received from the backend are modelled by `JVal`
  (the values `JSON.parse` can produce, plus `undefined`).
* A JavaScript string is a sequence of UTF-16 code units; it is represented
  by a Lean `String`, one character per code unit (exact for text of the
  Basic Multilingual Plane).
* A JavaScript number is an IEEE-754 double; `JSNum` keeps NaN, the two
  infinities and finite values as exact decimals `mant / 10 ^ scale`.
  The range of a double is modelled (overflow to infinity, underflow to
  zero), the rounding of the 53-bit mantissa is not.
* Browser built-ins whose result depends on the locale data of the browser
  (`toLocaleDateString`, `Intl.NumberFormat`, `toFixed`, the printing of
  non-integral numbers) are fields of `Host`.
-/

namespace RuangHijau

/-! ## Numbers -/

/-- JavaScript number: NaN, an infinity, or the finite decimal `mant / 10 ^ scale`. -/
inductive JSNum where
  | nan
  | inf (neg : Bool)
  | fin (mant : Int) (scale : Nat)
deriving DecidableEq, Repr

namespace JSNum

/-- Canonical form of `m / 10 ^ k`: trailing decimal zeros are removed. -/
def normalize (m : Int) : Nat → JSNum
  | 0 => fin m 0
  | k + 1 => if m % 10 = 0 then normalize (m / 10) k else fin m (k + 1)

/-- The number `n`. -/
def ofInt (n : Int) : JSNum := fin n 0

/-- Largest magnitude that does not round to infinity is below `2^1024 - 2^970`. -/
def overflowBound : Nat := (1 <<< 1024) - (1 <<< 970)

/-- The double nearest to `(-1)^neg * m * 10^e / 10^k` as far as its range goes:
magnitudes of at least `2^1024 - 2^970` become an infinity, magnitudes of at most
`2^-1075` become zero. -/
def ofDecimal (neg : Bool) (m : Nat) (e k : Nat) : JSNum :=
  if overflowBound * 10 ^ k ≤ m * 10 ^ e then inf neg
  else if (m * 10 ^ e) <<< 1075 ≤ 10 ^ k then fin 0 0
  else normalize ((if neg then -1 else 1) * (m * 10 ^ e : Nat)) k

/-- The comparison `x < 0`. -/
def isNegative : JSNum → Bool
  | nan => false
  | inf neg => neg
  | fin m _ => decide (m < 0)

/-- The test `Number.isNaN(x)`. -/
def isNaN : JSNum → Bool
  | nan => true
  | _ => false

/-- The comparison `x < y` on numbers (false when either side is NaN). -/
def lt : JSNum → JSNum → Bool
  | nan, _ => false
  | _, nan => false
  | inf a, inf b => a && !b
  | inf a, fin _ _ => a
  | fin _ _, inf b => !b
  | fin m k, fin n l => decide (m * 10 ^ l < n * 10 ^ k)

/-- The difference `x - y`. -/
def sub : JSNum → JSNum → JSNum
  | nan, _ => nan
  | _, nan => nan
  | inf a, inf b => if a = b then nan else inf a
  | inf a, fin _ _ => inf a
  | fin _ _, inf b => inf (!b)
  | fin m k, fin n l => normalize (m * 10 ^ l - n * 10 ^ k) (k + l)

/-- The product `x * y` (the sign of an infinite or zero result is not tracked
beyond what the operands give). -/
def mul : JSNum → JSNum → JSNum
  | nan, _ => nan
  | _, nan => nan
  | inf a, inf b => inf (a != b)
  | inf a, fin n _ => if n = 0 then nan else inf (a != decide (n < 0))
  | fin m _, inf b => if m = 0 then nan else inf (decide (m < 0) != b)
  | fin m k, fin n l => normalize (m * n) (k + l)

/-- The abstract operation ToIntegerOrInfinity: NaN gives 0, a finite number is
truncated towards zero; `none` stands for an infinity. -/
def toIntegerOrInfinity : JSNum → Option Int
  | nan => some 0
  | inf _ => none
  | fin m k => some (Int.tdiv m (10 ^ k))

/-- Truthiness of a number: false for `0` and NaN. -/
def truthy : JSNum → Bool
  | nan => false
  | inf _ => true
  | fin m _ => decide (m ≠ 0)

/-- The operator `x || 0` on a number. -/
def orZero (x : JSNum) : JSNum := if x.truthy then x else fin 0 0

end JSNum

/-! ## Values -/

/-- JavaScript value: what `JSON.parse` can return, and `undefined`. An object is
the list of its own properties, each key bound once. -/
inductive JVal where
  | undefined
  | null
  | bool (b : Bool)
  | num (n : JSNum)
  | str (s : String)
  | arr (items : List JVal)
  | obj (fields : List (String × JVal))

/-- Browser built-ins that are not modelled: their results depend on the locale
data of the browser or on the binary expansion of a double. -/
structure Host where
  /-- Number to string, for numbers that are not integers below `10^21`. -/
  numberToString : JSNum → String
  /-- The method `Number.prototype.toFixed`. -/
  toFixed : JSNum → Nat → String
  /-- The call `new Date(x).toLocaleDateString(...)` with the options of `formatDate`. -/
  toLocaleDateString : JVal → String
  /-- The call `new Intl.NumberFormat(...).format(x)` with the options of `formatCurrency`. -/
  intlFormat : JVal → String
  /-- The call `new Date(x).toLocaleDateString(...)` with the day and month options of
  the trend chart. -/
  toLocaleDayMonth : JVal → String
  /-- The method `String.prototype.toUpperCase`. -/
  toUpperCase : String → String
  /-- The text of `Object.prototype[key]` for a key every object inherits
  (`constructor`, `toString`, ...), and `none` for any other key. -/
  inherited : String → Option String

namespace JSNum

/-- Number to string: integers below `10^21` print in decimal. -/
def toStr (h : Host) : JSNum → String
  | nan => "NaN"
  | inf neg => if neg then "-Infinity" else "Infinity"
  | fin m 0 => if m.natAbs < 10 ^ 21 then toString m else h.numberToString (fin m 0)
  | fin m (k + 1) => h.numberToString (fin m (k + 1))

end JSNum

/-! ### String to number (the function `Number` applied to a string) -/

/-- White space and line terminators that `Number` strips from both ends. -/
def isStrWhiteSpaceChar (c : Char) : Bool :=
  let n := c.toNat
  n = 9 || n = 10 || n = 11 || n = 12 || n = 13 || n = 32 || n = 0xA0 || n = 0x1680
    || (0x2000 ≤ n && n ≤ 0x200A) || n = 0x2028 || n = 0x2029 || n = 0x202F
    || n = 0x205F || n = 0x3000 || n = 0xFEFF

/-- Value of a digit in a base up to 16, if it is one. -/
def digitValue (base : Nat) (c : Char) : Option Nat :=
  let n := c.toNat
  let v := if 48 ≤ n && n ≤ 57 then some (n - 48)
    else if 97 ≤ n && n ≤ 102 then some (n - 87)
    else if 65 ≤ n && n ≤ 70 then some (n - 55)
    else none
  v.bind fun d => if d < base then some d else none

/-- Value of a non-empty digit string in the given base. -/
def digitsValue (base : Nat) (l : List Char) : Option Nat :=
  if l = [] then none
  else l.foldl (fun acc c => acc.bind fun a => (digitValue base c).map fun d => a * base + d) (some 0)

/-- Value of a possibly empty string of decimal digits. -/
def decimalDigits (l : List Char) : Nat :=
  l.foldl (fun acc c => acc * 10 + (c.toNat - 48)) 0

/-- The exponent after `e`: an optional sign and at least one digit. -/
def parseSignedInteger (l : List Char) : Option Int :=
  let (neg, ds) := match l with
    | '+' :: r => (false, r)
    | '-' :: r => (true, r)
    | r => (false, r)
  if ds ≠ [] ∧ ds.all Char.isDigit then
    some (if neg then -(decimalDigits ds : Int) else (decimalDigits ds : Int))
  else none

/-- An unsigned decimal literal: `Infinity`, or digits with an optional fraction
and an optional exponent. -/
def parseUnsignedDecimal (neg : Bool) (l : List Char) : JSNum :=
  if l = "Infinity".toList then JSNum.inf neg
  else
    let ip := l.takeWhile Char.isDigit
    let r1 := l.dropWhile Char.isDigit
    let (fp, r2) := match r1 with
      | '.' :: t => (t.takeWhile Char.isDigit, t.dropWhile Char.isDigit)
      | _ => ([], r1)
    if ip = [] ∧ fp = [] then JSNum.nan
    else
      let m := decimalDigits (ip ++ fp)
      match r2 with
      | [] => JSNum.ofDecimal neg m 0 fp.length
      | c :: t =>
        if c = 'e' ∨ c = 'E' then
          match parseSignedInteger t with
          | some x =>
            if 0 ≤ x then JSNum.ofDecimal neg m x.toNat fp.length
            else JSNum.ofDecimal neg m 0 (fp.length + (-x).toNat)
          | none => JSNum.nan
        else JSNum.nan

/-- A numeric literal between the stripped white space. -/
def parseNumericLiteral (l : List Char) : JSNum :=
  match l with
  | [] => JSNum.fin 0 0
  | '0' :: p :: r =>
    let base : Option Nat :=
      if p = 'x' ∨ p = 'X' then some 16
      else if p = 'o' ∨ p = 'O' then some 8
      else if p = 'b' ∨ p = 'B' then some 2
      else none
    match base with
    | some b =>
      match digitsValue b r with
      | some v => JSNum.ofDecimal false v 0 0
      | none => JSNum.nan
    | none => parseUnsignedDecimal false l
  | '+' :: r => parseUnsignedDecimal false r
  | '-' :: r => parseUnsignedDecimal true r
  | _ => parseUnsignedDecimal false l

/-- The function `Number` applied to a string. -/
def stringToNumber (s : String) : JSNum :=
  parseNumericLiteral
    (((s.toList.dropWhile isStrWhiteSpaceChar).reverse.dropWhile isStrWhiteSpaceChar).reverse)

/-! ### Strings as sequences of UTF-16 code units

A JavaScript string is a sequence of UTF-16 code units: `length`, `substring` and
indexing count a character outside the Basic Multilingual Plane twice. -/

/-- Number of UTF-16 code units of a character. -/
def utf16Size (c : Char) : Nat := if c.toNat < 0x10000 then 1 else 2

/-- The property `length` of a string. -/
def utf16Length (s : String) : Nat := (s.data.map utf16Size).sum

/-- What is written for one half of a surrogate pair whose other half has been cut
off: such a code unit is no character, and browsers display it as U+FFFD. -/
def unpairedSurrogate : Char := Char.ofNat 0xFFFD

/-- The characters after the first `n` code units. -/
def dropUnits : Nat → List Char → List Char
  | 0, l => l
  | _ + 1, [] => []
  | n + 1, c :: cs =>
    if c.toNat < 0x10000 then dropUnits n cs
    else
      match n with
      | 0 => unpairedSurrogate :: cs
      | m + 1 => dropUnits m cs

/-- The characters of the first `n` code units. -/
def takeUnits : Nat → List Char → List Char
  | 0, _ => []
  | _ + 1, [] => []
  | n + 1, c :: cs =>
    if c.toNat < 0x10000 then c :: takeUnits n cs
    else
      match n with
      | 0 => [unpairedSurrogate]
      | m + 1 => c :: takeUnits m cs

/-- The method `String.prototype.substring` for `0 <= a <= b`, by code units. -/
def substring (s : String) (a b : Nat) : String := ⟨takeUnits (b - a) (dropUnits a s.data)⟩

/-! ### Conversions and operators -/

namespace JVal

/-- Truthiness: `undefined`, `null`, `false`, `0`, NaN and the empty string are falsy. -/
def truthy : JVal → Bool
  | undefined => false
  | null => false
  | bool b => b
  | num n => n.truthy
  | str s => decide (s ≠ "")
  | arr _ => true
  | obj _ => true

mutual
/-- The conversion to a string used by template literals and by `String(x)`. -/
def toStr (h : Host) : JVal → String
  | undefined => "undefined"
  | null => "null"
  | bool b => if b then "true" else "false"
  | num n => n.toStr h
  | str s => s
  | arr items => joinStr h items
  | obj _ => "[object Object]"
/-- The method `Array.prototype.join` with the separator `,`: `null` and `undefined`
elements print as the empty string. -/
def joinStr (h : Host) : List JVal → String
  | [] => ""
  | [x] => elemStr h x
  | x :: y :: r => elemStr h x ++ "," ++ joinStr h (y :: r)
/-- One element of a joined array. -/
def elemStr (h : Host) : JVal → String
  | undefined => ""
  | null => ""
  | bool b => if b then "true" else "false"
  | num n => n.toStr h
  | str s => s
  | arr items => joinStr h items
  | obj _ => "[object Object]"
end

/-- The conversion to a number used by arithmetic and by comparisons with a number. -/
def toNumber (h : Host) : JVal → JSNum
  | undefined => JSNum.nan
  | null => JSNum.fin 0 0
  | bool b => if b then JSNum.fin 1 0 else JSNum.fin 0 0
  | num n => n
  | str s => stringToNumber s
  | arr items => stringToNumber (joinStr h items)
  | obj _ => JSNum.nan

/-- The index a property key denotes, when it is the decimal form of a number. -/
def indexOfKey (key : String) : Option Nat :=
  match key.toNat? with
  | some n => if toString n = key then some n else none
  | none => none

/-- Property read `v.key` or `v[key]` for the keys the scripts use. Reading a property
of `undefined` or `null` throws (`none`); a string has its code units, an array its
elements, and both a `length`; an object has its own properties; everything else reads as
`undefined`. -/
def get (v : JVal) (key : String) : Option JVal :=
  match v with
  | undefined => none
  | null => none
  | bool _ => some undefined
  | num _ => some undefined
  | str s =>
    some (if key = "length" then num (JSNum.ofInt (utf16Length s))
      else match indexOfKey key with
        | some i => if i < utf16Length s then str (substring s i (i + 1)) else undefined
        | none => undefined)
  | arr items =>
    some (if key = "length" then num (JSNum.ofInt items.length)
      else match indexOfKey key with
        | some i => (items.get? i).getD undefined
        | none => undefined)
  | obj fields => some ((fields.lookup key).getD undefined)

/-- Optional chaining `v?.key`: `undefined` when `v` is `undefined` or `null`. -/
def getOpt (v : JVal) (key : String) : JVal := (v.get key).getD undefined

/-- The operator `a || b`. -/
def or (a b : JVal) : JVal := if a.truthy then a else b

/-- The operator `a ?? b`. -/
def nullish (a b : JVal) : JVal :=
  match a with
  | undefined => b
  | null => b
  | _ => a

/-- The comparison `v === s` with a string literal `s`. -/
def isStr (v : JVal) (s : String) : Bool :=
  match v with
  | str t => decide (t = s)
  | _ => false

/-- The test `typeof v === 'number'`. -/
def isNumber : JVal → Bool
  | num _ => true
  | _ => false

/-- The comparison `v === n` with an integer literal `n`. -/
def isNum (v : JVal) (n : Int) : Bool :=
  match v with
  | num (JSNum.fin m k) => decide (m = n * 10 ^ k)
  | _ => false

/-- The comparison `v > n` with a number `n`. -/
def gt (h : Host) (v : JVal) (n : Int) : Bool := JSNum.lt (JSNum.ofInt n) (v.toNumber h)

/-- The comparison `v < n` with a number `n`. -/
def lt (h : Host) (v : JVal) (n : Int) : Bool := JSNum.lt (v.toNumber h) (JSNum.ofInt n)

/-- The comparison `v >= n` with a number `n` (false when `v` converts to NaN). -/
def ge (h : Host) (v : JVal) (n : Int) : Bool :=
  !(v.toNumber h).isNaN && !JSNum.lt (v.toNumber h) (JSNum.ofInt n)

end JVal

/-- The method `Array.prototype.map` with a callback that can throw: the items are
visited in order and the first exception ends the call. -/
def mapThrowing {α β : Type} (f : α → Option β) : List α → Option (List β)
  | [] => some []
  | x :: xs =>
    match f x with
    | none => none
    | some y =>
      match mapThrowing f xs with
      | none => none
      | some ys => some (y :: ys)

/-- The method `String.prototype.repeat`: the count is converted to an integer, and a
negative or infinite count throws a RangeError. -/
def jsRepeat (s : String) (count : JSNum) : Option String :=
  match count.toIntegerOrInfinity with
  | none => none
  | some n => if n < 0 then none else some (String.join (List.replicate n.toNat s))

/-- The call `s.replace(/c/g, r)`: every occurrence of the character `c` becomes `r`. -/
def replaceChar (s : String) (c : Char) (r : String) : String :=
  String.join (s.data.map fun x => if x = c then r else String.singleton x)

/-! ## The page and the network -/

/-- The elements of the page the scripts look up by id, each with its content
(`innerHTML` or `textContent`). -/
abbrev Dom := List (String × String)

namespace Dom

/-- The call `document.getElementById(id)`: the content of the element, if it exists. -/
def getElementById (d : Dom) (id : String) : Option String := d.lookup id

/-- The assignment `document.getElementById(id).innerHTML = v` (or `textContent`):
it throws (`none`) when the element does not exist. -/
def assign (d : Dom) (id v : String) : Option Dom :=
  match d.lookup id with
  | none => none
  | some _ => some (d.map fun p => if p.1 = id then (p.1, v) else p)

/-- The guarded assignment `if (el) el.textContent = v`. -/
def assignIfPresent (d : Dom) (id v : String) : Dom :=
  (d.assign id v).getD d

end Dom

/-- What a resolved `fetch` gives: the `ok` flag of the status line and the result of
`response.json()`, which rejects (`none`) when the body is not JSON. -/
structure Response where
  ok : Bool
  json : Option JVal

/-- Outcome of a `fetch` call: the promise rejects (transport failure) or resolves. -/
inductive FetchOutcome where
  | rejected
  | resolved (r : Response)

namespace FetchOutcome

/-- The two awaits `response = await fetch(url); data = await response.json()`;
`none` when either promise rejects. -/
def data : FetchOutcome → Option JVal
  | rejected => none
  | resolved r => r.json

end FetchOutcome

/-! ## Utility functions -/

/-- Lookup `table[key] || fallback` in an object literal whose own values are
non-empty strings: a key that is not an own property is looked up in
`Object.prototype`, whose members are all truthy. -/
def lookupOr (h : Host) (table : List (String × String)) (key : JVal) (fallback : String) : String :=
  match table.lookup (key.toStr h) with
  | some v => v
  | none => (h.inherited (key.toStr h)).getD fallback

/-- The function `formatDate` (both scripts define it alike). -/
def formatDate (h : Host) (dateString : JVal) : String :=
  if !dateString.truthy then "-" else h.toLocaleDateString dateString

/-- The function `formatCurrency`. -/
def formatCurrency (h : Host) (amount : JVal) : String := h.intlFormat amount

/-- The function `getStatusBadge`. -/
def getStatusBadge (h : Host) (status : JVal) : String :=
  lookupOr h
    [("active", "success"), ("completed", "success"), ("pending", "warning"),
     ("cancelled", "danger"), ("rejected", "danger"), ("failed", "danger"),
     ("refunded", "warning"), ("applied", "warning"), ("accepted", "success"),
     ("upcoming", "info"), ("ongoing", "warning")]
    status "info"

/-- The function `getSentimentBadge`. -/
def getSentimentBadge (h : Host) (sentiment : JVal) : String :=
  lookupOr h
    [("positive", "<span class=\"badge badge-success\">😊 Positif</span>"),
     ("negative", "<span class=\"badge badge-danger\">😟 Negatif</span>"),
     ("neutral", "<span class=\"badge\" style=\"background: #e5e7eb; color: #4b5563;\">😐 Netral</span>")]
    sentiment "<span class=\"badge\" style=\"background: #e5e7eb; color: #4b5563;\">😐 Netral</span>"

/-- The function `truncateText`: the length is compared and the text is cut in
UTF-16 code units. It throws (`none`) when the length exceeds the limit and the
value is not a string, as only a string has `substring`. -/
def truncateText (h : Host) (text : JVal) (maxLength : Nat) : Option JVal :=
  if !text.truthy then some (.str "-")
  else
    match text.get "length" with
    | none => none
    | some len =>
      if len.gt h maxLength then
        match text with
        | .str s => some (.str (substring s 0 maxLength ++ "..."))
        | _ => none
      else some text

/-- Serialisation of a text node by the browser: `&`, `<`, `>` and the no-break
space are written as character references. -/
def escapeText (s : String) : String :=
  String.join (s.data.map fun c =>
    if c = '&' then "&amp;"
    else if c = '<' then "&lt;"
    else if c = '>' then "&gt;"
    else if c.toNat = 0xA0 then "&nbsp;"
    else String.singleton c)

/-- The function `escapeHtml`: the text is stored in a fresh `div` and read back
as markup. -/
def escapeHtml (h : Host) (text : JVal) : String :=
  if !text.truthy then "" else escapeText (text.toStr h)

/-- The call `s.replace(/'/g, "\\'")` of the row templates. -/
def escapeQuote (s : String) : String := replaceChar s (Char.ofNat 39) "\\'"

/-- The call `x.toFixed(digits)`: only a number has the method. -/
def toFixed (h : Host) (x : JVal) (digits : Nat) : Option String :=
  match x with
  | .num n => some (h.toFixed n digits)
  | _ => none

/-! ## Row templates -/

/-- One row of the table of `loadUsers`: the template literal of its `map` callback. -/
def userRow (h : Host) (user : JVal) : Option String := do
  let id ← user.get "id"
  let name ← user.get "name"
  let email ← user.get "email"
  let role ← user.get "role"
  let created_at ← user.get "created_at"
  pure ("\n                <tr>\n                    <td>"
    ++ JVal.toStr h id
    ++ "</td>\n                    <td>"
    ++ JVal.toStr h name
    ++ "</td>\n                    <td>"
    ++ JVal.toStr h email
    ++ "</td>\n                    <td><span class=\"badge "
    ++ (if role.isStr "admin" then "badge-admin" else "badge-user")
    ++ "\">"
    ++ JVal.toStr h role
    ++ "</span></td>\n                    <td>"
    ++ formatDate h created_at
    ++ "</td>\n                    <td>\n                        <button class=\"btn btn-sm btn-secondary\" onclick=\"updateUserRole("
    ++ JVal.toStr h id
    ++ ", '"
    ++ escapeQuote (JVal.toStr h (role.or (.str "user")))
    ++ "')\">Ubah Role</button>\n                        <button class=\"btn btn-sm btn-danger\" onclick=\"deleteUser("
    ++ JVal.toStr h id
    ++ ")\">Hapus</button>\n                    </td>\n                </tr>\n            ")

/-- One row of the table of `loadPosts`: the template literal of its `map` callback. -/
def postRow (h : Host) (post : JVal) : Option String := do
  let id ← post.get "id"
  let user_name ← post.get "user_name"
  let text ← post.get "text"
  let likes ← post.get "likes"
  let created_at ← post.get "created_at"
  pure ("\n                <tr>\n                    <td>"
    ++ JVal.toStr h id
    ++ "</td>\n                    <td>"
    ++ JVal.toStr h (user_name.or (.str "Unknown"))
    ++ "</td>\n                    <td class=\"text-truncate\">"
    ++ JVal.toStr h (text.or (.str "-"))
    ++ "</td>\n                    <td>"
    ++ JVal.toStr h (likes.or (.num (.fin 0 0)))
    ++ "</td>\n                    <td>"
    ++ formatDate h created_at
    ++ "</td>\n                    <td>\n                        <button class=\"btn btn-sm btn-secondary\" onclick=\"viewPost("
    ++ JVal.toStr h id
    ++ ")\">Lihat</button>\n                        <button class=\"btn btn-sm btn-danger\" onclick=\"deletePost("
    ++ JVal.toStr h id
    ++ ")\">Hapus</button>\n                    </td>\n                </tr>\n            ")

/-- One row of the table of `loadCampaigns`: the template literal of its `map` callback. -/
def campaignRow (h : Host) (campaign : JVal) : Option String := do
  let id ← campaign.get "id"
  let title ← campaign.get "title"
  let category ← campaign.get "category"
  let target_amount ← campaign.get "target_amount"
  let current_amount ← campaign.get "current_amount"
  let campaign_status ← campaign.get "campaign_status"
  pure ("\n                <tr>\n                    <td>"
    ++ JVal.toStr h id
    ++ "</td>\n                    <td>"
    ++ JVal.toStr h title
    ++ "</td>\n                    <td>"
    ++ JVal.toStr h (category.or (.str "-"))
    ++ "</td>\n                    <td>"
    ++ formatCurrency h (target_amount.or (.num (.fin 0 0)))
    ++ "</td>\n                    <td>"
    ++ formatCurrency h (current_amount.or (.num (.fin 0 0)))
    ++ "</td>\n                    <td><span class=\"badge badge-"
    ++ getStatusBadge h campaign_status
    ++ "\">"
    ++ JVal.toStr h (campaign_status.or (.str "active"))
    ++ "</span></td>\n                    <td>\n                        <button class=\"btn btn-sm btn-secondary\" onclick=\"updateCampaignStatus("
    ++ JVal.toStr h id
    ++ ", '"
    ++ escapeQuote (JVal.toStr h (campaign_status.or (.str "active")))
    ++ "')\">Update Status</button>\n                    </td>\n                </tr>\n            ")

/-- One row of the table of `loadDonations`: the template literal of its `map` callback. -/
def donationRow (h : Host) (donation : JVal) : Option String := do
  let id ← donation.get "id"
  let user_name ← donation.get "user_name"
  let campaign_title ← donation.get "campaign_title"
  let amount ← donation.get "amount"
  let created_at ← donation.get "created_at"
  let status ← donation.get "status"
  pure ("\n                <tr>\n                    <td>"
    ++ JVal.toStr h id
    ++ "</td>\n                    <td>"
    ++ JVal.toStr h (user_name.or (.str "Unknown"))
    ++ "</td>\n                    <td>"
    ++ JVal.toStr h (campaign_title.or (.str "-"))
    ++ "</td>\n                    <td>"
    ++ formatCurrency h (amount.or (.num (.fin 0 0)))
    ++ "</td>\n                    <td>"
    ++ formatDate h created_at
    ++ "</td>\n                    <td><span class=\"badge badge-"
    ++ getStatusBadge h status
    ++ "\">"
    ++ JVal.toStr h (status.or (.str "pending"))
    ++ "</span></td>\n                    <td>\n                        <button class=\"btn btn-sm btn-secondary\" onclick=\"updateDonationStatus("
    ++ JVal.toStr h id
    ++ ", '"
    ++ escapeQuote (JVal.toStr h (status.or (.str "pending")))
    ++ "')\">Update Status</button>\n                    </td>\n                </tr>\n            ")

/-- One row of the table of `loadComments`: the template literal of its `map` callback. -/
def commentRow (h : Host) (comment : JVal) : Option String := do
  let id ← comment.get "id"
  let post_id ← comment.get "post_id"
  let user_name ← comment.get "user_name"
  let text ← comment.get "text"
  let created_at ← comment.get "created_at"
  pure ("\n                <tr>\n                    <td>"
    ++ JVal.toStr h id
    ++ "</td>\n                    <td>"
    ++ JVal.toStr h post_id
    ++ "</td>\n                    <td>"
    ++ JVal.toStr h (user_name.or (.str "Unknown"))
    ++ "</td>\n                    <td class=\"text-truncate\">"
    ++ JVal.toStr h (text.or (.str "-"))
    ++ "</td>\n                    <td>"
    ++ formatDate h created_at
    ++ "</td>\n                    <td>\n                        <button class=\"btn btn-sm btn-danger\" onclick=\"deleteComment("
    ++ JVal.toStr h id
    ++ ")\">Hapus</button>\n                    </td>\n                </tr>\n            ")

/-- One row of the table of `loadVolunteers`: the template literal of its `map` callback. -/
def volunteerRow (h : Host) (v : JVal) : Option String := do
  let id ← v.get "id"
  let campaign_title ← v.get "campaign_title"
  let user_name ← v.get "user_name"
  let volunteer_status ← v.get "volunteer_status"
  let hours_contributed ← v.get "hours_contributed"
  let created_at ← v.get "created_at"
  pure ("\n                <tr>\n                    <td>"
    ++ JVal.toStr h id
    ++ "</td>\n                    <td>"
    ++ JVal.toStr h (campaign_title.or (.str "-"))
    ++ "</td>\n                    <td>"
    ++ JVal.toStr h (user_name.or (.str "Unknown"))
    ++ "</td>\n                    <td><span class=\"badge badge-"
    ++ getStatusBadge h volunteer_status
    ++ "\">"
    ++ JVal.toStr h (volunteer_status.or (.str "applied"))
    ++ "</span></td>\n                    <td>"
    ++ JVal.toStr h (if hours_contributed.isNumber then hours_contributed else hours_contributed.or (.num (.fin 0 0)))
    ++ "</td>\n                    <td>"
    ++ formatDate h created_at
    ++ "</td>\n                    <td>\n                        <button class=\"btn btn-sm btn-secondary\" onclick=\"updateVolunteer("
    ++ JVal.toStr h id
    ++ ", '"
    ++ escapeQuote (JVal.toStr h (volunteer_status.or (.str "applied")))
    ++ "', "
    ++ JSNum.toStr h (JVal.toNumber h (hours_contributed.or (.num (.fin 0 0))))
    ++ ")\">Update</button>\n                    </td>\n                </tr>\n            ")

/-- One row of the table of `loadNotifications`: the template literal of its `map` callback. -/
def notificationRow (h : Host) (n : JVal) : Option String := do
  let id ← n.get "id"
  let user_name ← n.get "user_name"
  let title ← n.get "title"
  let notification_type ← n.get "notification_type"
  let is_read ← n.get "is_read"
  let created_at ← n.get "created_at"
  pure ("\n                <tr>\n                    <td>"
    ++ JVal.toStr h id
    ++ "</td>\n                    <td>"
    ++ JVal.toStr h (user_name.or (.str "Unknown"))
    ++ "</td>\n                    <td>"
    ++ JVal.toStr h (title.or (.str "-"))
    ++ "</td>\n                    <td>"
    ++ JVal.toStr h (notification_type.or (.str "-"))
    ++ "</td>\n                    <td><span class=\"badge "
    ++ (if is_read.truthy then "badge-success" else "badge-warning")
    ++ "\">"
    ++ (if is_read.truthy then "read" else "unread")
    ++ "</span></td>\n                    <td>"
    ++ formatDate h created_at
    ++ "</td>\n                    <td>\n                        <button class=\"btn btn-sm btn-danger\" onclick=\"deleteNotification("
    ++ JVal.toStr h id
    ++ ")\">Hapus</button>\n                    </td>\n                </tr>\n            ")

/-- One row of the table of `loadLikes`: the template literal of its `map` callback. -/
def likeRow (h : Host) (p : JVal) : Option String := do
  let post_id ← p.get "post_id"
  let user_name ← p.get "user_name"
  let text ← p.get "text"
  let likes_count ← p.get "likes_count"
  pure ("\n                <tr>\n                    <td>"
    ++ JVal.toStr h post_id
    ++ "</td>\n                    <td>"
    ++ JVal.toStr h (user_name.or (.str "Unknown"))
    ++ "</td>\n                    <td class=\"text-truncate\">"
    ++ JVal.toStr h (text.or (.str "-"))
    ++ "</td>\n                    <td>"
    ++ JVal.toStr h (likes_count.or (.num (.fin 0 0)))
    ++ "</td>\n                </tr>\n            ")

/-- The template literal of the feedback row, given the values it interpolates. -/
def feedbackRowTemplate (h : Host) (id user_name category message shown sentiment_score
    created_at : JVal) (ratingStars sentimentBadge fixed : String) : String :=
  "\n            <tr>\n                <td>"
    ++ JVal.toStr h id
    ++ "</td>\n                <td>"
    ++ JVal.toStr h (user_name.or (.str "Unknown"))
    ++ "</td>\n                <td><span class=\"badge badge-info\">"
    ++ JVal.toStr h (category.or (.str "-"))
    ++ "</span></td>\n                <td><span style=\"color: #f59e0b;\">"
    ++ ratingStars
    ++ "</span></td>\n                <td class=\"text-truncate\" title=\""
    ++ escapeHtml h message
    ++ "\">"
    ++ JVal.toStr h shown
    ++ "</td>\n                <td>"
    ++ sentimentBadge
    ++ "</td>\n                <td>\n                    <span class=\"badge "
    ++ (if sentiment_score.gt h 0 then "badge-success"
        else if sentiment_score.lt h 0 then "badge-danger" else "badge-info")
    ++ "\">\n                        "
    ++ (if sentiment_score.gt h 0 then "+" else "")
    ++ fixed
    ++ "\n                    </span>\n                </td>\n                <td>"
    ++ formatDate h created_at
    ++ "</td>\n            </tr>\n        "

/-- The constant `ratingStars` of the feedback row:
`'★'.repeat(fb.rating) + '☆'.repeat(5 - fb.rating)`. -/
def ratingStars (h : Host) (rating : JVal) : Option String := do
  let filled ← jsRepeat "★" (rating.toNumber h)
  let hollow ← jsRepeat "☆" (JSNum.sub (.fin 5 0) (rating.toNumber h))
  pure (filled ++ hollow)

/-- One row of the feedback table: the callback of `map` in `updateFeedbackTable`.
It throws (`none`) when `fb` is `null`, when a repeat count is negative or
infinite, when a long `message` is not a string, or when `sentiment_score` is not
a number. -/
def feedbackRow (h : Host) (fb : JVal) : Option String := do
  let sentiment ← fb.get "sentiment"
  let rating ← fb.get "rating"
  let stars ← ratingStars h rating
  let id ← fb.get "id"
  let user_name ← fb.get "user_name"
  let category ← fb.get "category"
  let message ← fb.get "message"
  let shown ← truncateText h message 50
  let sentiment_score ← fb.get "sentiment_score"
  let fixed ← toFixed h sentiment_score 2
  let created_at ← fb.get "created_at"
  pure (feedbackRowTemplate h id user_name category message shown sentiment_score
    created_at stars (getSentimentBadge h sentiment) fixed)

/-! ## Loaders -/

/-- The `try` block of a table loader after the two awaits: the list is read from
the field `field` of the response, and the markup to assign is the joined rows, or
the placeholder row when the list is falsy or its length is not above zero. It
throws (`none`) when `data` is `null`, when the list has no `map` method (it is
not an array), or when a row throws. -/
def tableMarkup (h : Host) (field : String) (row : JVal → Option String)
    (emptyRow : String) (data : JVal) : Option String :=
  match data.get field with
  | none => none
  | some list =>
    if !list.truthy then some emptyRow
    else
      match list.get "length" with
      | none => none
      | some len =>
        if len.gt h 0 then
          match list with
          | .arr items => (mapThrowing row items).map String.join
          | _ => none
        else some emptyRow

/-- The common body of the eight loaders of `admin.js`: fetch, parse, render into
the table body; any exception is caught and the error row is assigned instead.
The result is `none` when the assignment in the `catch` block throws as well. -/
def loadTable (h : Host) (tbodyId field : String) (row : JVal → Option String)
    (emptyRow errorRow : String) (r : FetchOutcome) (dom : Dom) : Option Dom :=
  let attempt : Option Dom := do
    let data ← r.data
    let html ← tableMarkup h field row emptyRow data
    dom.assign tbodyId html
  match attempt with
  | some dom1 => some dom1
  | none => dom.assign tbodyId errorRow

/-- The function `loadUsers`. -/
def loadUsers (h : Host) (r : FetchOutcome) (dom : Dom) : Option Dom :=
  loadTable h "usersTableBody" "users" (userRow h)
    "<tr><td colspan=\"6\" class=\"loading\">Tidak ada data pengguna</td></tr>"
    "<tr><td colspan=\"6\" class=\"loading\" style=\"color: var(--danger);\">Gagal memuat data</td></tr>"
    r dom

/-- The function `loadPosts`. -/
def loadPosts (h : Host) (r : FetchOutcome) (dom : Dom) : Option Dom :=
  loadTable h "postsTableBody" "posts" (postRow h)
    "<tr><td colspan=\"6\" class=\"loading\">Tidak ada data postingan</td></tr>"
    "<tr><td colspan=\"6\" class=\"loading\" style=\"color: var(--danger);\">Gagal memuat data</td></tr>"
    r dom

/-- The function `loadCampaigns`. -/
def loadCampaigns (h : Host) (r : FetchOutcome) (dom : Dom) : Option Dom :=
  loadTable h "campaignsTableBody" "campaigns" (campaignRow h)
    "<tr><td colspan=\"7\" class=\"loading\">Tidak ada data kampanye</td></tr>"
    "<tr><td colspan=\"7\" class=\"loading\" style=\"color: var(--danger);\">Gagal memuat data</td></tr>"
    r dom

/-- The function `loadDonations`. -/
def loadDonations (h : Host) (r : FetchOutcome) (dom : Dom) : Option Dom :=
  loadTable h "donationsTableBody" "donations" (donationRow h)
    "<tr><td colspan=\"7\" class=\"loading\">Tidak ada data donasi</td></tr>"
    "<tr><td colspan=\"7\" class=\"loading\" style=\"color: var(--danger);\">Gagal memuat data</td></tr>"
    r dom

/-- The function `loadComments`. -/
def loadComments (h : Host) (r : FetchOutcome) (dom : Dom) : Option Dom :=
  loadTable h "commentsTableBody" "comments" (commentRow h)
    "<tr><td colspan=\"6\" class=\"loading\">Tidak ada data komentar</td></tr>"
    "<tr><td colspan=\"6\" class=\"loading\" style=\"color: var(--danger);\">Gagal memuat data</td></tr>"
    r dom

/-- The function `loadVolunteers`. -/
def loadVolunteers (h : Host) (r : FetchOutcome) (dom : Dom) : Option Dom :=
  loadTable h "volunteersTableBody" "volunteers" (volunteerRow h)
    "<tr><td colspan=\"7\" class=\"loading\">Tidak ada data relawan</td></tr>"
    "<tr><td colspan=\"7\" class=\"loading\" style=\"color: var(--danger);\">Gagal memuat data</td></tr>"
    r dom

/-- The function `loadNotifications`. -/
def loadNotifications (h : Host) (r : FetchOutcome) (dom : Dom) : Option Dom :=
  loadTable h "notificationsTableBody" "notifications" (notificationRow h)
    "<tr><td colspan=\"7\" class=\"loading\">Tidak ada data notifikasi</td></tr>"
    "<tr><td colspan=\"7\" class=\"loading\" style=\"color: var(--danger);\">Gagal memuat data</td></tr>"
    r dom

/-- The function `loadLikes`. -/
def loadLikes (h : Host) (r : FetchOutcome) (dom : Dom) : Option Dom :=
  loadTable h "likesTableBody" "posts" (likeRow h)
    "<tr><td colspan=\"4\" class=\"loading\">Tidak ada data</td></tr>"
    "<tr><td colspan=\"4\" class=\"loading\" style=\"color: var(--danger);\">Gagal memuat data</td></tr>"
    r dom

/-- The function `updateFeedbackTable`. It returns the page unchanged when the table
body is absent, and throws (`none`) when `feedbacks` has no `map` method or a row
throws; its caller `loadFeedbackData` catches the exception. -/
def updateFeedbackTable (h : Host) (feedbacks : JVal) (dom : Dom) : Option Dom :=
  match dom.getElementById "feedbackTableBody" with
  | none => some dom
  | some _ =>
    if !feedbacks.truthy then
      dom.assign "feedbackTableBody"
        "<tr><td colspan=\"8\" class=\"loading\">Tidak ada data feedback</td></tr>"
    else
      match feedbacks.get "length" with
      | none => none
      | some len =>
        if len.isNum 0 then
          dom.assign "feedbackTableBody"
            "<tr><td colspan=\"8\" class=\"loading\">Tidak ada data feedback</td></tr>"
        else
          match feedbacks with
          | .arr items =>
            (mapThrowing (feedbackRow h) items).bind fun rows =>
              dom.assign "feedbackTableBody" (String.join rows)
          | _ => none

/-! ## Statements that can throw -/

/-- A statement over a state: the state it leaves and whether it completed
(`false`: it threw; what it changed before stays changed). -/
abbrev Stmt (σ : Type) := σ → σ × Bool

namespace Stmt

/-- A statement that changes nothing when it throws. -/
def ofOption {σ : Type} (f : σ → Option σ) : Stmt σ := fun s =>
  match f s with
  | some t => (t, true)
  | none => (s, false)

/-- Statements in sequence: the first one that throws ends the sequence. -/
def seq {σ : Type} : List (Stmt σ) → Stmt σ
  | [], s => (s, true)
  | st :: rest, s =>
    match st s with
    | (t, true) => seq rest t
    | (t, false) => (t, false)

end Stmt

/-- What a script does that is visible outside the page, in order. -/
inductive Effect where
  /-- A call of `prompt` with its message and default value. -/
  | prompt (message : String) (defaultValue : JVal)
  /-- A call of `confirm`. -/
  | confirm (message : String)
  /-- A call of `alert`. -/
  | alert (message : String)
  /-- A call of `fetch`; `body` is the value given to `JSON.stringify`. -/
  | fetch (url method : String) (body : Option JVal)
  /-- A call of another function of the scripts, by name. -/
  | call (fn : String)
  /-- A call of `console.error`. -/
  | consoleError
  /-- An assignment to `window.location.href`. -/
  | navigate (url : String)

namespace Effect

/-- Whether the effect is a network request. -/
def isFetch : Effect → Bool
  | fetch _ _ _ => true
  | _ => false

/-- Whether the effect is an alert. -/
def isAlert : Effect → Bool
  | alert _ => true
  | _ => false

/-- Whether the effect is a call of the function `fn`. -/
def isCall (fn : String) : Effect → Bool
  | call g => decide (g = fn)
  | _ => false

/-- Whether the effect is a call of any function of the scripts. -/
def isAnyCall : Effect → Bool
  | call _ => true
  | _ => false

/-- Whether the effect is a navigation to another page. -/
def isNavigate : Effect → Bool
  | navigate _ => true
  | _ => false

end Effect

/-- The call `Promise.all` over fetches followed by `json()` on each response in
order: `none` when a fetch rejects or a body is not JSON. -/
def awaitAll : List FetchOutcome → Option (List JVal)
  | [] => some []
  | r :: rest =>
    match r.data, awaitAll rest with
    | some v, some vs => some (v :: vs)
    | _, _ => none

/-- A request `fetch(url)` as an effect. -/
def getRequest (url : String) : Effect := Effect.fetch url "GET" none

/-! ## Feedback dashboard -/

/-- A chart of the charting library as far as the script uses it: its type, the
labels and data series last given to it, and how often `update()` was called. -/
structure Chart where
  kind : String
  labels : List JVal
  series : List (String × List JVal)
  updates : Nat

/-- The state of the dashboard page: the elements, the four chart handles of
`feedback_dashboard.js`, and the canvases on which `new Chart` was called, oldest
first. -/
structure Page where
  dom : Dom
  sentimentChart : Option Chart
  ratingChart : Option Chart
  sentimentTrendChart : Option Chart
  categorySentimentChart : Option Chart
  constructed : List String

namespace Page

/-- The statement `if (el) el.textContent = v` on the page. -/
def assignIfPresent (p : Page) (id v : String) : Page :=
  { p with dom := p.dom.assignIfPresent id v }

end Page

/-- The tail of each chart function: replace the data and call `update()` when the
handle is set, else construct the chart. -/
def drawChart (handle : Option Chart) (kind : String) (labels : List JVal)
    (series : List (String × List JVal)) : Chart :=
  match handle with
  | some c => { c with labels := labels, series := series, updates := c.updates + 1 }
  | none => { kind := kind, labels := labels, series := series, updates := 0 }

/-- The canvases constructed so far, after the tail of a chart function. -/
def noteConstructed (handle : Option Chart) (canvas : String) (constructed : List String) :
    List String :=
  match handle with
  | some _ => constructed
  | none => constructed ++ [canvas]

/-- The function `updateStatsCards`. -/
def updateStatsCards (h : Host) (stats sentimentSummary : JVal) : Stmt Page :=
  Stmt.seq
    [ Stmt.ofOption fun p =>
        match p.dom.getElementById "totalFeedback" with
        | none => some p
        | some _ => (stats.get "total_feedback").map fun v =>
            p.assignIfPresent "totalFeedback" (JVal.toStr h (v.or (.num (.fin 0 0)))),
      Stmt.ofOption fun p =>
        match p.dom.getElementById "avgRating" with
        | none => some p
        | some _ => do
            let v ← stats.get "average_rating"
            let fixed ← toFixed h (v.or (.num (.fin 0 0))) 1
            pure (p.assignIfPresent "avgRating" (fixed ++ " ★")),
      Stmt.ofOption fun p =>
        if !sentimentSummary.truthy then some p
        else
          match p.dom.getElementById "positivePercent" with
          | none => some p
          | some _ => (sentimentSummary.get "positive_percentage").map fun v =>
              p.assignIfPresent "positivePercent"
                (JVal.toStr h (v.or (.num (.fin 0 0))) ++ "%"),
      Stmt.ofOption fun p =>
        if !sentimentSummary.truthy then some p
        else
          match p.dom.getElementById "negativePercent" with
          | none => some p
          | some _ => (sentimentSummary.get "negative_percentage").map fun v =>
              p.assignIfPresent "negativePercent"
                (JVal.toStr h (v.or (.num (.fin 0 0))) ++ "%") ]

/-- The result of `getHealthStatus` in `updateNLPSummary`. -/
structure Health where
  label : String
  color : String
  emoji : String

/-- The function `getHealthStatus` of `updateNLPSummary`. -/
def getHealthStatus (h : Host) (positivePercentage : JVal) : Health :=
  if positivePercentage.ge h 70 then ⟨"Sangat Baik", "#22c55e", "😊"⟩
  else if positivePercentage.ge h 50 then ⟨"Baik", "#84cc16", "🙂"⟩
  else if positivePercentage.ge h 30 then ⟨"Perlu Perhatian", "#f59e0b", "😐"⟩
  else ⟨"Perlu Perbaikan", "#ef4444", "😟"⟩

/-- The template literal of `updateNLPSummary`. -/
def nlpSummaryTemplate (h : Host) (health : Health) (dist confidence total : JVal) : String :=
  "\n        <div class=\"nlp-health-indicator\" style=\"text-align: center; margin-bottom: 20px;\">\n            <div style=\"font-size: 48px; margin-bottom: 8px;\">"
    ++ health.emoji
    ++ "</div>\n            <div style=\"font-size: 18px; font-weight: 600; color: "
    ++ health.color
    ++ ";\">"
    ++ health.label
    ++ "</div>\n            <div style=\"font-size: 12px; color: var(--gray);\">Kesehatan Sentimen</div>\n        </div>\n        \n        <div class=\"nlp-stats-grid\" style=\"display: grid; grid-template-columns: 1fr 1fr; gap: 12px;\">\n            <div class=\"nlp-stat-item\" style=\"background: #e8f9d8; padding: 12px; border-radius: 8px; text-align: center;\">\n                <div style=\"font-size: 24px; font-weight: 700; color: #2d6b2f;\">"
    ++ JVal.toStr h ((dist.getOpt "positive").or (.num (.fin 0 0)))
    ++ "</div>\n                <div style=\"font-size: 11px; color: #3f7218;\">Positif</div>\n            </div>\n            <div class=\"nlp-stat-item\" style=\"background: #fee2e2; padding: 12px; border-radius: 8px; text-align: center;\">\n                <div style=\"font-size: 24px; font-weight: 700; color: #991b1b;\">"
    ++ JVal.toStr h ((dist.getOpt "negative").or (.num (.fin 0 0)))
    ++ "</div>\n                <div style=\"font-size: 11px; color: #dc2626;\">Negatif</div>\n            </div>\n            <div class=\"nlp-stat-item\" style=\"background: #e5e7eb; padding: 12px; border-radius: 8px; text-align: center;\">\n                <div style=\"font-size: 24px; font-weight: 700; color: #4b5563;\">"
    ++ JVal.toStr h ((dist.getOpt "neutral").or (.num (.fin 0 0)))
    ++ "</div>\n                <div style=\"font-size: 11px; color: #6b7280;\">Netral</div>\n            </div>\n            <div class=\"nlp-stat-item\" style=\"background: #dbeafe; padding: 12px; border-radius: 8px; text-align: center;\">\n                <div style=\"font-size: 24px; font-weight: 700; color: #1e40af;\">"
    ++ h.toFixed (JSNum.orZero (JSNum.mul (confidence.toNumber h) (.fin 100 0))) 0
    ++ "%</div>\n                <div style=\"font-size: 11px; color: #3b82f6;\">Akurasi</div>\n            </div>\n        </div>\n        \n        <div style=\"margin-top: 16px; padding: 12px; background: var(--bg); border-radius: 8px;\">\n            <div style=\"font-size: 12px; color: var(--gray); margin-bottom: 4px;\">Total Dianalisis</div>\n            <div style=\"font-size: 18px; font-weight: 600;\">"
    ++ JVal.toStr h (total.or (.num (.fin 0 0)))
    ++ " feedback</div>\n        </div>\n    "

/-- The function `updateNLPSummary`. -/
def updateNLPSummary (h : Host) (summary : JVal) (p : Page) : Option Page :=
  match p.dom.getElementById "nlpSummary" with
  | none => some p
  | some _ =>
    if !summary.truthy then some p
    else do
      let pct ← summary.get "positive_percentage"
      let dist ← summary.get "sentiment_distribution"
      let confidence ← summary.get "average_confidence"
      let total ← summary.get "total_analyzed"
      pure (p.assignIfPresent "nlpSummary"
        (nlpSummaryTemplate h (getHealthStatus h (pct.or (.num (.fin 0 0)))) dist confidence total))

/-- The function `updateSentimentChart`. -/
def updateSentimentChart (summary : JVal) (p : Page) : Option Page :=
  match p.dom.getElementById "sentimentChart" with
  | none => some p
  | some _ => do
    let dist ← summary.get "sentiment_distribution"
    let values := [(dist.getOpt "positive").or (.num (.fin 0 0)),
      (dist.getOpt "negative").or (.num (.fin 0 0)),
      (dist.getOpt "neutral").or (.num (.fin 0 0))]
    pure { p with
      sentimentChart := some (drawChart p.sentimentChart "doughnut"
        [.str "Positif", .str "Negatif", .str "Netral"] [("", values)])
      constructed := noteConstructed p.sentimentChart "sentimentChart" p.constructed }

/-- The function `updateRatingChart`. -/
def updateRatingChart (ratingDistribution : JVal) (p : Page) : Option Page :=
  match p.dom.getElementById "ratingChart" with
  | none => some p
  | some _ => do
    let r1 ← ratingDistribution.get "1"
    let r2 ← ratingDistribution.get "2"
    let r3 ← ratingDistribution.get "3"
    let r4 ← ratingDistribution.get "4"
    let r5 ← ratingDistribution.get "5"
    let values := [r1.or (.num (.fin 0 0)), r2.or (.num (.fin 0 0)), r3.or (.num (.fin 0 0)),
      r4.or (.num (.fin 0 0)), r5.or (.num (.fin 0 0))]
    pure { p with
      ratingChart := some (drawChart p.ratingChart "bar"
        [.str "⭐ 1", .str "⭐ 2", .str "⭐ 3", .str "⭐ 4", .str "⭐ 5"]
        [("Jumlah Feedback", values)])
      constructed := noteConstructed p.ratingChart "ratingChart" p.constructed }

/-- The function `updateSentimentTrendChart`. It throws when `trendData` is not an
array or holds `null`. -/
def updateSentimentTrendChart (h : Host) (trendData : JVal) (p : Page) : Option Page :=
  match p.dom.getElementById "sentimentTrendChart" with
  | none => some p
  | some _ =>
    match trendData with
    | .arr items => do
      let labels ← mapThrowing
        (fun d => (d.get "date").map fun x => JVal.str (h.toLocaleDayMonth x)) items
      let positive ← mapThrowing (fun d => d.get "positive") items
      let negative ← mapThrowing (fun d => d.get "negative") items
      let neutral ← mapThrowing (fun d => d.get "neutral") items
      pure { p with
        sentimentTrendChart := some (drawChart p.sentimentTrendChart "line" labels
          [("Positif", positive), ("Negatif", negative), ("Netral", neutral)])
        constructed := noteConstructed p.sentimentTrendChart "sentimentTrendChart" p.constructed }
    | _ => none

/-- The function `updateCategorySentimentChart`. It throws when `categories` is not
an array or one of its first six items is `null`. -/
def updateCategorySentimentChart (categories : JVal) (p : Page) : Option Page :=
  match p.dom.getElementById "categorySentimentChart" with
  | none => some p
  | some _ =>
    match categories with
    | .arr items => do
      let topCategories := items.take 6
      let labels ← mapThrowing (fun c => c.get "category") topCategories
      let positive ← mapThrowing (fun c => c.get "positive") topCategories
      let negative ← mapThrowing (fun c => c.get "negative") topCategories
      let neutral ← mapThrowing (fun c => c.get "neutral") topCategories
      pure { p with
        categorySentimentChart := some (drawChart p.categorySentimentChart "bar" labels
          [("Positif", positive), ("Negatif", negative), ("Netral", neutral)])
        constructed :=
          noteConstructed p.categorySentimentChart "categorySentimentChart" p.constructed }
    | _ => none

/-- The five responses `loadFeedbackData` waits for. -/
structure FeedbackFetches where
  stats : FetchOutcome
  sentiment : FetchOutcome
  trend : FetchOutcome
  category : FetchOutcome
  recent : FetchOutcome

/-- The statement `if (data.status === 'success') body`; reading `status` of `null`
throws. -/
def whenSuccess (data : JVal) (body : Stmt Page) : Stmt Page := fun p =>
  match data.get "status" with
  | none => (p, false)
  | some st => if st.isStr "success" then body p else (p, true)

/-- A call whose argument is a property read that can throw. -/
def withArg (arg : Option JVal) (f : JVal → Stmt Page) : Stmt Page := fun p =>
  match arg with
  | none => (p, false)
  | some v => f v p

/-- The `try` block of `loadFeedbackData` after the awaits. -/
def applyFeedbackData (h : Host) (statsData sentimentData trendData categoryData
    recentData : JVal) : Stmt Page :=
  Stmt.seq
    [ whenSuccess statsData
        (withArg (statsData.get "stats") fun stats =>
          withArg (sentimentData.get "summary") fun summary =>
            updateStatsCards h stats summary),
      whenSuccess sentimentData
        (withArg (sentimentData.get "summary") fun summary =>
          Stmt.seq [Stmt.ofOption (updateSentimentChart summary),
            Stmt.ofOption (updateNLPSummary h summary)]),
      whenSuccess statsData
        (withArg ((statsData.get "stats").bind fun stats => stats.get "rating_distribution")
          fun dist => Stmt.ofOption (updateRatingChart dist)),
      whenSuccess trendData
        (withArg (trendData.get "trend") fun trend =>
          Stmt.ofOption (updateSentimentTrendChart h trend)),
      whenSuccess categoryData
        (withArg (categoryData.get "categories") fun categories =>
          Stmt.ofOption (updateCategorySentimentChart categories)),
      whenSuccess recentData
        (withArg (recentData.get "data") fun feedbacks =>
          Stmt.ofOption fun p =>
            (updateFeedbackTable h feedbacks p.dom).map fun d => { p with dom := d }) ]

/-- The function `loadFeedbackData`: five requests at once, then the gated updates;
any exception is caught and logged. -/
def loadFeedbackData (h : Host) (f : FeedbackFetches) (p : Page) : Page × List Effect :=
  let days : JVal :=
    match p.dom.getElementById "feedbackTimeRange" with
    | some v => (JVal.str v).or (.num (.fin 30 0))
    | none => .num (.fin 30 0)
  let requests :=
    [getRequest "/api/feedback/stats",
     getRequest "/api/feedback/sentiment/all?limit=100",
     getRequest ("/api/feedback/sentiment/trend?days=" ++ JVal.toStr h days),
     getRequest "/api/feedback/sentiment/by-category",
     getRequest "/api/feedback/recent?limit=20"]
  match awaitAll [f.stats, f.sentiment, f.trend, f.category, f.recent] with
  | some [statsData, sentimentData, trendData, categoryData, recentData] =>
    match applyFeedbackData h statsData sentimentData trendData categoryData recentData p with
    | (p1, true) => (p1, requests)
    | (p1, false) => (p1, requests ++ [Effect.consoleError])
  | _ => (p, requests ++ [Effect.consoleError])

/-! ## Dashboard statistics -/

/-- The seven responses `loadDashboard` waits for. -/
structure DashboardFetches where
  users : FetchOutcome
  posts : FetchOutcome
  campaigns : FetchOutcome
  donations : FetchOutcome
  comments : FetchOutcome
  volunteers : FetchOutcome
  notifUnread : FetchOutcome

/-- The statement `document.getElementById(id).textContent = data.key || 0`, the
value passed through `render`: it throws when `data` is `null` or the element is
missing. -/
def setCounter (id : String) (data : JVal) (key : String) (render : JVal → String) :
    Stmt Dom :=
  Stmt.ofOption fun d =>
    (data.get key).bind fun v => d.assign id (render (v.or (.num (.fin 0 0))))

/-- The statement `if (el) el.textContent = data.count || 0`: the value is read only
when the element exists. -/
def setCounterIfPresent (h : Host) (id : String) (data : JVal) : Stmt Dom :=
  Stmt.ofOption fun d =>
    match d.getElementById id with
    | none => some d
    | some _ => (data.get "count").bind fun v =>
        d.assign id (JVal.toStr h (v.or (.num (.fin 0 0))))

/-- The function `loadDashboard`: seven requests at once, then the seven counters,
then the two sub-widgets; any exception is caught and logged. -/
def loadDashboard (h : Host) (f : DashboardFetches) (dom : Dom) : Dom × List Effect :=
  let requests :=
    [getRequest "/admin/stats/users", getRequest "/admin/stats/posts",
     getRequest "/admin/stats/campaigns", getRequest "/admin/stats/donations",
     getRequest "/admin/stats/comments", getRequest "/admin/stats/volunteers",
     getRequest "/admin/stats/notifications-unread"]
  match awaitAll [f.users, f.posts, f.campaigns, f.donations, f.comments, f.volunteers,
      f.notifUnread] with
  | some [usersData, postsData, campaignsData, donationsData, commentsData, volunteersData,
      notifUnreadData] =>
    match Stmt.seq
        [ setCounter "totalUsers" usersData "count" (JVal.toStr h),
          setCounter "totalPosts" postsData "count" (JVal.toStr h),
          setCounter "totalCampaigns" campaignsData "count" (JVal.toStr h),
          setCounter "totalDonations" donationsData "total" (formatCurrency h),
          setCounterIfPresent h "totalComments" commentsData,
          setCounterIfPresent h "totalVolunteers" volunteersData,
          setCounterIfPresent h "unreadNotifications" notifUnreadData ] dom with
    | (d, true) =>
      (d, requests ++ [Effect.call "loadRecentActivity", Effect.call "loadMonthlyStats"])
    | (d, false) => (d, requests ++ [Effect.consoleError])
  | _ => (dom, requests ++ [Effect.consoleError])

/-! ## Action handlers

The answers of the user (`prompt` gives a string, or `none` on cancel; `confirm`
gives a boolean) and the outcome of the request are parameters; the result is the
list of effects in order. -/

/-- What follows a request in a handler: `response.json()`, then a reload of the list
when the response has status `success`, else an alert with the message of the
response or `failMessage`; an exception (rejected request, body that is not JSON,
`null` body) is logged and alerted. -/
def afterRequest (h : Host) (loader failMessage : String) (res : FetchOutcome) : List Effect :=
  match res.data with
  | none => [Effect.consoleError, Effect.alert "Terjadi kesalahan"]
  | some data =>
    match data.get "status", data.get "message" with
    | some st, some message =>
      if st.isStr "success" then [Effect.call loader]
      else [Effect.alert (JVal.toStr h (message.or (.str failMessage)))]
    | _, _ => [Effect.consoleError, Effect.alert "Terjadi kesalahan"]

/-- The `try`/`catch` shared by the four update handlers: the PATCH request and what
follows it. -/
def patchAndReload (h : Host) (url : String) (body : JVal) (loader failMessage : String)
    (res : FetchOutcome) : List Effect :=
  Effect.fetch url "PATCH" (some body) :: afterRequest h loader failMessage res

/-- The function `updateUserRole`. -/
def updateUserRole (h : Host) (id currentRole : JVal) (role : Option String)
    (confirmed : Bool) (res : FetchOutcome) : List Effect :=
  Effect.prompt "Role (user/admin):" currentRole ::
    match role with
    | none => []
    | some role =>
      if role = "" then []
      else if !(["user", "admin"].contains role) then [Effect.alert "Role tidak valid"]
      else
        Effect.confirm ("Yakin ubah role user #" ++ JVal.toStr h id ++ " menjadi " ++ role ++ "?") ::
          if !confirmed then []
          else patchAndReload h ("/admin/users/" ++ JVal.toStr h id)
            (.obj [("role", .str role)]) "loadUsers" "Gagal mengubah role" res

/-- The function `updateCampaignStatus`. -/
def updateCampaignStatus (h : Host) (id currentStatus : JVal) (status : Option String)
    (res : FetchOutcome) : List Effect :=
  Effect.prompt "Status kampanye (active/completed/cancelled):" currentStatus ::
    match status with
    | none => []
    | some status =>
      if status = "" then []
      else if !(["active", "completed", "cancelled"].contains status) then
        [Effect.alert "Status tidak valid"]
      else patchAndReload h ("/admin/campaigns/" ++ JVal.toStr h id)
        (.obj [("campaign_status", .str status)]) "loadCampaigns"
        "Gagal update status kampanye" res

/-- The function `updateDonationStatus`. -/
def updateDonationStatus (h : Host) (id currentStatus : JVal) (status : Option String)
    (res : FetchOutcome) : List Effect :=
  Effect.prompt "Status donasi (pending/completed/failed/refunded):" currentStatus ::
    match status with
    | none => []
    | some status =>
      if status = "" then []
      else if !(["pending", "completed", "failed", "refunded"].contains status) then
        [Effect.alert "Status tidak valid"]
      else patchAndReload h ("/admin/donations/" ++ JVal.toStr h id)
        (.obj [("donation_status", .str status)]) "loadDonations"
        "Gagal update status donasi" res

/-- The function `updateVolunteer`. -/
def updateVolunteer (h : Host) (id currentStatus currentHours : JVal)
    (status hoursStr : Option String) (res : FetchOutcome) : List Effect :=
  Effect.prompt "Update status relawan (applied/accepted/rejected/completed):" currentStatus ::
    match status with
    | none => []
    | some status =>
      if status = "" then []
      else
        Effect.prompt "Update jam kontribusi (angka):"
            (.str (JVal.toStr h (currentHours.nullish (.num (.fin 0 0))))) ::
          match hoursStr with
          | none => []
          | some hoursStr =>
            let hours := stringToNumber hoursStr
            if hours.isNaN || hours.isNegative then [Effect.alert "Jam kontribusi tidak valid"]
            else patchAndReload h ("/admin/volunteers/" ++ JVal.toStr h id)
              (.obj [("volunteer_status", .str status), ("hours_contributed", .num hours)])
              "loadVolunteers" "Gagal update relawan" res

/-! ## Sample inputs -/

/-- A host for evaluating the scripts on concrete inputs. -/
def sampleHost : Host where
  numberToString := fun _ => "12.5"
  toFixed := fun _ _ => "0.50"
  toLocaleDateString := fun _ => "5 Nov 2026"
  toLocaleDayMonth := fun _ => "5 Nov"
  intlFormat := fun _ => "Rp 0"
  toUpperCase := fun s => String.mk (s.data.map Char.toUpper)
  inherited := fun _ => none

/-! ## The loaders as a family -/

/-- The eight table loaders of `admin.js`. -/
inductive Loader where
  | users
  | posts
  | campaigns
  | donations
  | comments
  | volunteers
  | notifications
  | likes

namespace Loader

/-- The function of `admin.js` a loader stands for. -/
def run : Loader → Host → FetchOutcome → Dom → Option Dom
  | users => loadUsers
  | posts => loadPosts
  | campaigns => loadCampaigns
  | donations => loadDonations
  | comments => loadComments
  | volunteers => loadVolunteers
  | notifications => loadNotifications
  | likes => loadLikes

/-- The id of the table body the loader writes. -/
def tbodyId : Loader → String
  | users => "usersTableBody"
  | posts => "postsTableBody"
  | campaigns => "campaignsTableBody"
  | donations => "donationsTableBody"
  | comments => "commentsTableBody"
  | volunteers => "volunteersTableBody"
  | notifications => "notificationsTableBody"
  | likes => "likesTableBody"

/-- The field of the response that holds the list. -/
def field : Loader → String
  | users => "users"
  | posts => "posts"
  | campaigns => "campaigns"
  | donations => "donations"
  | comments => "comments"
  | volunteers => "volunteers"
  | notifications => "notifications"
  | likes => "posts"

/-- The row template of the loader. -/
def row : Loader → Host → JVal → Option String
  | users => userRow
  | posts => postRow
  | campaigns => campaignRow
  | donations => donationRow
  | comments => commentRow
  | volunteers => volunteerRow
  | notifications => notificationRow
  | likes => likeRow

/-- The number of columns of the table. -/
def colspan : Loader → Nat
  | users => 6
  | posts => 6
  | campaigns => 7
  | donations => 7
  | comments => 6
  | volunteers => 7
  | notifications => 7
  | likes => 4

/-- The text of the placeholder row shown for an empty list. -/
def emptyText : Loader → String
  | users => "Tidak ada data pengguna"
  | posts => "Tidak ada data postingan"
  | campaigns => "Tidak ada data kampanye"
  | donations => "Tidak ada data donasi"
  | comments => "Tidak ada data komentar"
  | volunteers => "Tidak ada data relawan"
  | notifications => "Tidak ada data notifikasi"
  | likes => "Tidak ada data"

end Loader

/-- The single placeholder row of a table with `colspan` columns. -/
def placeholderRow (colspan : Nat) (text : String) : String :=
  "<tr><td colspan=\"" ++ toString colspan ++ "\" class=\"loading\">" ++ text ++ "</td></tr>"

/-- The single error row of a table with `colspan` columns. -/
def errorRow (colspan : Nat) : String :=
  "<tr><td colspan=\"" ++ toString colspan
    ++ "\" class=\"loading\" style=\"color: var(--danger);\">Gagal memuat data</td></tr>"

/-- Whether a value is `undefined` or `null`. -/
def JVal.isNullish : JVal → Bool
  | .undefined => true
  | .null => true
  | _ => false

/-- A feedback record as the data model describes it: an object whose `rating` is
an integer from 0 to 5, whose `sentiment_score` is a number, and whose `message`,
when present, is a string or `null`. -/
def feedbackWellFormed (fb : JVal) : Bool :=
  match fb with
  | .obj fields =>
    (match fields.lookup "rating" with
      | some (.num (.fin r 0)) => decide (0 ≤ r) && decide (r ≤ 5)
      | _ => false)
    && (match fields.lookup "sentiment_score" with
      | some (.num _) => true
      | _ => false)
    && (match fields.lookup "message" with
      | none => true
      | some (.str _) => true
      | some .null => true
      | _ => false)
  | _ => false

/-- The places where a row template writes `field || fallback` with one of the
fallbacks `'Unknown'`, `'-'` and `0`: the template, the field and the fallback. -/
def defaultedFields : List ((Host → JVal → Option String) × String × JVal) :=
  [ (postRow, "user_name", .str "Unknown"), (postRow, "text", .str "-"),
    (postRow, "likes", .num (.fin 0 0)),
    (campaignRow, "category", .str "-"), (campaignRow, "target_amount", .num (.fin 0 0)),
    (campaignRow, "current_amount", .num (.fin 0 0)),
    (donationRow, "user_name", .str "Unknown"), (donationRow, "campaign_title", .str "-"),
    (donationRow, "amount", .num (.fin 0 0)),
    (commentRow, "user_name", .str "Unknown"), (commentRow, "text", .str "-"),
    (volunteerRow, "campaign_title", .str "-"), (volunteerRow, "user_name", .str "Unknown"),
    (volunteerRow, "hours_contributed", .num (.fin 0 0)),
    (notificationRow, "user_name", .str "Unknown"), (notificationRow, "title", .str "-"),
    (notificationRow, "notification_type", .str "-"),
    (likeRow, "user_name", .str "Unknown"), (likeRow, "text", .str "-"),
    (likeRow, "likes_count", .num (.fin 0 0)),
    (feedbackRow, "user_name", .str "Unknown"), (feedbackRow, "category", .str "-") ]

/-- A response with body `{status: 'success'}`. -/
def sampleSuccess : FetchOutcome :=
  .resolved ⟨true, some (.obj [("status", .str "success")])⟩

/-- A user record. -/
def sampleUser : JVal :=
  .obj [("id", .num (.fin 1 0)), ("name", .str "Sari"), ("email", .str "sari@example.org"),
    ("role", .str "user"), ("created_at", .str "2026-01-05")]

/-- A feedback record. -/
def sampleFeedback : JVal :=
  .obj [("id", .num (.fin 1 0)), ("user_name", .str "Sari"), ("category", .str "app"),
    ("rating", .num (.fin 4 0)), ("message", .str "bagus"), ("sentiment", .str "positive"),
    ("sentiment_score", .num (.fin 5 1)), ("created_at", .str "2026-01-05")]

/-- A page on which every chart handle is still `null`. -/
def samplePage (dom : Dom) : Page :=
  { dom := dom, sentimentChart := none, ratingChart := none, sentimentTrendChart := none,
    categorySentimentChart := none, constructed := [] }

/-- Seven responses of the statistics endpoints, each with body `{count: 3, total: 3}`. -/
def sampleStats : FetchOutcome :=
  .resolved ⟨true, some (.obj [("count", .num (.fin 3 0)), ("total", .num (.fin 3 0))])⟩

/-! ## Delete handlers -/

/-- What follows the request of `deletePost`: as `afterRequest`, but the alert for a
response without status `success` has a fixed text. -/
def afterDeletePost (res : FetchOutcome) : List Effect :=
  match res.data with
  | none => [Effect.consoleError, Effect.alert "Terjadi kesalahan"]
  | some data =>
    match data.get "status" with
    | some st =>
      if st.isStr "success" then [Effect.call "loadPosts"]
      else [Effect.alert "Gagal menghapus postingan"]
    | none => [Effect.consoleError, Effect.alert "Terjadi kesalahan"]

/-- The function `deletePost`. -/
def deletePost (h : Host) (id : JVal) (confirmed : Bool) (res : FetchOutcome) : List Effect :=
  Effect.confirm "Apakah Anda yakin ingin menghapus postingan ini?" ::
    if !confirmed then []
    else Effect.fetch ("/admin/posts/" ++ JVal.toStr h id) "DELETE" none :: afterDeletePost res

/-- The function `deleteUser`. -/
def deleteUser (h : Host) (id : JVal) (confirmed : Bool) (res : FetchOutcome) : List Effect :=
  Effect.confirm "Apakah Anda yakin ingin menghapus pengguna ini? Tindakan ini juga menghapus data terkait (posts/comments/volunteers)." ::
    if !confirmed then []
    else Effect.fetch ("/admin/users/" ++ JVal.toStr h id) "DELETE" none ::
      afterRequest h "loadUsers" "Gagal menghapus pengguna" res

/-- The function `deleteComment`. -/
def deleteComment (h : Host) (id : JVal) (confirmed : Bool) (res : FetchOutcome) : List Effect :=
  Effect.confirm "Apakah Anda yakin ingin menghapus komentar ini?" ::
    if !confirmed then []
    else Effect.fetch ("/admin/comments/" ++ JVal.toStr h id) "DELETE" none ::
      afterRequest h "loadComments" "Gagal menghapus komentar" res

/-- The function `deleteNotification`. -/
def deleteNotification (h : Host) (id : JVal) (confirmed : Bool) (res : FetchOutcome) :
    List Effect :=
  Effect.confirm "Apakah Anda yakin ingin menghapus notifikasi ini?" ::
    if !confirmed then []
    else Effect.fetch ("/admin/notifications/" ++ JVal.toStr h id) "DELETE" none ::
      afterRequest h "loadNotifications" "Gagal menghapus notifikasi" res

/-- The four delete handlers of `admin.js`. -/
inductive DeleteHandler where
  | post
  | user
  | comment
  | notification

namespace DeleteHandler

/-- The function of `admin.js` a delete handler stands for. -/
def run : DeleteHandler → Host → JVal → Bool → FetchOutcome → List Effect
  | post => deletePost
  | user => deleteUser
  | comment => deleteComment
  | notification => deleteNotification

/-- The path of the entity, to which the id is appended. -/
def path : DeleteHandler → String
  | post => "/admin/posts/"
  | user => "/admin/users/"
  | comment => "/admin/comments/"
  | notification => "/admin/notifications/"

/-- The loader called after a successful delete. -/
def loader : DeleteHandler → String
  | post => "loadPosts"
  | user => "loadUsers"
  | comment => "loadComments"
  | notification => "loadNotifications"

end DeleteHandler

/-- The answers of the user to the dialogs of a handler: the answers to its first and
second prompt, and the answer to its confirmation. -/
structure Answers where
  first : Option String
  second : Option String
  confirmed : Bool

/-- The eight handlers of `admin.js` that change data on the server. -/
inductive Mutation where
  | delete (d : DeleteHandler)
  | role
  | campaign
  | donation
  | volunteer

namespace Mutation

/-- The function of `admin.js` a mutation stands for; `current` and `hours` are the
values the row passes to an update handler. -/
def run (m : Mutation) (h : Host) (id current hours : JVal) (a : Answers)
    (res : FetchOutcome) : List Effect :=
  match m with
  | delete d => d.run h id a.confirmed res
  | role => updateUserRole h id current a.first a.confirmed res
  | campaign => updateCampaignStatus h id current a.first res
  | donation => updateDonationStatus h id current a.first res
  | volunteer => updateVolunteer h id current hours a.first a.second res

/-- The loader of the section the mutation belongs to. -/
def loader : Mutation → String
  | delete d => d.loader
  | role => "loadUsers"
  | campaign => "loadCampaigns"
  | donation => "loadDonations"
  | volunteer => "loadVolunteers"

end Mutation

/-- Whether the request resolved with a JSON body whose `status` is `'success'`. -/
def FetchOutcome.isSuccess (res : FetchOutcome) : Bool :=
  match res.data with
  | some data =>
    match data.get "status" with
    | some st => st.isStr "success"
    | none => false
  | none => false

/-! ## Section router -/

/-- An element of the dashboard page as the router sees it: its id, whether it has
the classes `nav-item`, `content-section` and `active`, its attribute
`data-section`, and its text. -/
structure Element where
  id : Option String
  isNavItem : Bool
  isContentSection : Bool
  dataSection : Option String
  active : Bool
  text : String
deriving DecidableEq

/-- The elements of the page, in document order. -/
abbrev Document := List Element

namespace Document

/-- The call `document.getElementById(id)`: the first element with the id. -/
def getElementById (doc : Document) (id : String) : Option Element :=
  doc.find? fun e => decide (e.id = some id)

/-- The first element with the id, changed by `f`. -/
def updateFirst (id : String) (f : Element → Element) : Document → Document
  | [] => []
  | e :: es => if e.id = some id then f e :: es else e :: updateFirst id f es

end Document

/-- The comparison `item.getAttribute('data-section') === section`: the attribute is a
string, or `null` when it is absent. -/
def attributeIs (attr : Option String) (key : JVal) : Bool :=
  match attr, key with
  | some a, .str s => decide (a = s)
  | none, .null => true
  | _, _ => false

/-- The constant `titles` of `switchSection`. -/
def titles : List (String × String) :=
  [("dashboard", "Dashboard"), ("users", "Manajemen Pengguna"),
   ("posts", "Manajemen Postingan"), ("campaigns", "Manajemen Kampanye"),
   ("donations", "Manajemen Donasi"), ("comments", "Manajemen Komentar"),
   ("volunteers", "Manajemen Relawan"), ("notifications", "Manajemen Notifikasi"),
   ("likes", "Analitik Likes"), ("feedback", "Kelola Feedback & Analisis Sentimen")]

/-- The cases of the `switch` of `loadSectionData` other than `'feedback'`: the key
and the loader it calls. -/
def sectionLoaders : List (String × String) :=
  [("dashboard", "loadDashboard"), ("users", "loadUsers"), ("posts", "loadPosts"),
   ("campaigns", "loadCampaigns"), ("donations", "loadDonations"),
   ("comments", "loadComments"), ("volunteers", "loadVolunteers"),
   ("notifications", "loadNotifications"), ("likes", "loadLikes")]

/-- The value of `window.loadSectionData`: the function of `admin.js`, or the
replacement installed by `feedback_dashboard.js` around the previous value
(`hookAlone` when there was none). -/
inductive LoadBinding where
  | admin
  | hook (original : LoadBinding)
  | hookAlone

/-- The value of `window.switchSection`: the function of `admin.js`, or the
replacement installed by `feedback_dashboard.js` around the previous value. -/
inductive SwitchBinding where
  | admin
  | hook (original : SwitchBinding)

/-- The global bindings the two scripts share. -/
structure Globals where
  switchSection : Option SwitchBinding
  loadSectionData : Option LoadBinding
  initFeedbackDashboard : Bool

/-- The globals before any script has run. -/
def Globals.initial : Globals :=
  { switchSection := none, loadSectionData := none, initFeedbackDashboard := false }

/-- Evaluation of `admin.js`: its function declarations become the global bindings. -/
def loadAdminScript (g : Globals) : Globals :=
  { g with switchSection := some .admin, loadSectionData := some .admin }

/-- Evaluation of `feedback_dashboard.js`: it declares `initFeedbackDashboard`,
replaces `window.switchSection` when it is defined, and always replaces
`window.loadSectionData`. -/
def loadFeedbackScript (g : Globals) : Globals :=
  { switchSection := g.switchSection.map SwitchBinding.hook
    loadSectionData :=
      some (match g.loadSectionData with
        | some original => .hook original
        | none => .hookAlone)
    initFeedbackDashboard := true }

/-- The function `loadSectionData` of `admin.js`. -/
def loadSectionData (g : Globals) (key : JVal) : List Effect :=
  match key with
  | .str s =>
    if s = "feedback" then
      if g.initFeedbackDashboard then [Effect.call "initFeedbackDashboard"] else []
    else
      match sectionLoaders.lookup s with
      | some loader => [Effect.call loader]
      | none => []
  | _ => []

/-- A call of `window.loadSectionData`. -/
def LoadBinding.call (g : Globals) : LoadBinding → JVal → List Effect
  | .admin, key => loadSectionData g key
  | .hook original, key =>
    if key.isStr "feedback" then [Effect.call "initFeedbackDashboard"]
    else original.call g key
  | .hookAlone, key =>
    if key.isStr "feedback" then [Effect.call "initFeedbackDashboard"] else []

/-- The two loops of `switchSection`: every navigation item is active exactly when
its `data-section` is the key, and no content section is active. -/
def clearActive (key : JVal) (doc : Document) : Document :=
  (doc.map fun e =>
      if e.isNavItem then { e with active := attributeIs e.dataSection key } else e).map
    fun e => if e.isContentSection then { e with active := false } else e

/-- The function `switchSection` of `admin.js`: the page it leaves, the loaders it
calls, and whether it completed. It throws when the target section exists and the
element `pageTitle` or the binding `loadSectionData` does not. -/
def switchSection (h : Host) (g : Globals) (key : JVal) (doc : Document) :
    (Document × List Effect) × Bool :=
  let doc1 := clearActive key doc
  let target := JVal.toStr h key ++ "-section"
  match doc1.getElementById target with
  | none => ((doc1, []), true)
  | some _ =>
    let doc2 := Document.updateFirst target (fun e => { e with active := true }) doc1
    match doc2.getElementById "pageTitle" with
    | none => ((doc2, []), false)
    | some _ =>
      let doc3 := Document.updateFirst "pageTitle"
        (fun e => { e with text := lookupOr h titles key "Dashboard" }) doc2
      match g.loadSectionData with
      | none => ((doc3, []), false)
      | some binding => ((doc3, binding.call g key), true)

/-- A call of `window.switchSection`. -/
def SwitchBinding.call (h : Host) (g : Globals) :
    SwitchBinding → JVal → Document → (Document × List Effect) × Bool
  | .admin, key, doc => switchSection h g key doc
  | .hook original, key, doc =>
    match original.call h g key doc with
    | ((doc1, effects), true) =>
      ((doc1, if key.isStr "feedback" then effects ++ [Effect.call "initFeedbackDashboard"]
        else effects), true)
    | r => r

/-- A click on a navigation item: the handler of `initializeNavigation` calls the
global `switchSection` with the item's `data-section`. Nothing happens to the page
when the call throws or the binding is missing. -/
def navigateTo (h : Host) (g : Globals) (key : JVal) (doc : Document) :
    Document × List Effect :=
  match g.switchSection with
  | none => (doc, [])
  | some binding => (binding.call h g key doc).1

/-- Section switches one after the other: the page at the end and all the loaders
called, in order. -/
def navigateAll (h : Host) (g : Globals) : List JVal → Document → Document × List Effect
  | [], doc => (doc, [])
  | key :: rest, doc =>
    let (doc1, effects) := navigateTo h g key doc
    let (doc2, later) := navigateAll h g rest doc1
    (doc2, effects ++ later)

/-! ## The chart functions as a family -/

/-- The four charts of the feedback dashboard. -/
inductive ChartId where
  | sentiment
  | rating
  | trend
  | category

namespace ChartId

/-- The id of the canvas, which is also the name of the handle. -/
def canvas : ChartId → String
  | sentiment => "sentimentChart"
  | rating => "ratingChart"
  | trend => "sentimentTrendChart"
  | category => "categorySentimentChart"

/-- The chart type given to the constructor. -/
def kind : ChartId → String
  | sentiment => "doughnut"
  | rating => "bar"
  | trend => "line"
  | category => "bar"

/-- The module-level handle of the chart. -/
def handle : ChartId → Page → Option Chart
  | sentiment, p => p.sentimentChart
  | rating, p => p.ratingChart
  | trend, p => p.sentimentTrendChart
  | category, p => p.categorySentimentChart

/-- The function of `feedback_dashboard.js` that draws the chart. -/
def update : ChartId → Host → JVal → Page → Option Page
  | sentiment, _, arg, p => updateSentimentChart arg p
  | rating, _, arg, p => updateRatingChart arg p
  | trend, h, arg, p => updateSentimentTrendChart h arg p
  | category, _, arg, p => updateCategorySentimentChart arg p

/-- Calls of one chart function one after the other, each inside the `try` of its
caller: a call that throws leaves the page as it was. -/
def updateAll (c : ChartId) (h : Host) : List JVal → Page → Page
  | [], p => p
  | arg :: rest, p => updateAll c h rest ((c.update h arg p).getD p)

end ChartId

/-! ## Authentication check -/

/-- The method call `x.charAt(0).toUpperCase()`: only a string has `charAt`, which
gives its first code unit. -/
def initialOf (h : Host) (x : JVal) : Option String :=
  match x with
  | .str s => some (h.toUpperCase (substring s 0 1))
  | _ => none

/-- The statement `if (el) el.textContent = value` for the element with the given
id: the value is computed only when the element exists, and computing it can throw
(`none`). -/
def guardedAssign (id : String) (value : Option String) : Stmt Dom :=
  Stmt.ofOption fun d =>
    match d.getElementById id with
    | none => some d
    | some _ => value.bind fun v => d.assign id v

/-- The function `updateUserInfo` of `admin.js`. -/
def updateUserInfo (h : Host) (user : JVal) : Stmt Dom :=
  Stmt.seq
    [ guardedAssign "userName"
        ((user.get "name").map fun name => JVal.toStr h (name.or (.str "Admin"))),
      guardedAssign "userEmail"
        ((user.get "email").map fun email => JVal.toStr h (email.or (.str ""))),
      guardedAssign "userInitial"
        ((user.get "name").bind fun name => initialOf h (name.or (.str "A"))) ]

/-- The function `checkAuth` of `admin.js`: the page it leaves and its effects. A
response that is not OK redirects at once; any exception (rejected request, body
that is not JSON, `null` body, exception of `updateUserInfo`) is logged and
redirects as well. -/
def checkAuth (h : Host) (r : FetchOutcome) (dom : Dom) : Dom × List Effect :=
  match r with
  | .rejected =>
    (dom, [getRequest "/admin/check-auth", Effect.consoleError,
      Effect.navigate "/admin/login"])
  | .resolved response =>
    if !response.ok then
      (dom, [getRequest "/admin/check-auth", Effect.navigate "/admin/login"])
    else
      match response.json.bind fun data => data.get "user" with
      | none =>
        (dom, [getRequest "/admin/check-auth", Effect.consoleError,
          Effect.navigate "/admin/login"])
      | some user =>
        if user.truthy then
          match updateUserInfo h user dom with
          | (dom1, true) =>
            (dom1, [getRequest "/admin/check-auth", Effect.call "updateUserInfo"])
          | (dom1, false) =>
            (dom1, [getRequest "/admin/check-auth", Effect.call "updateUserInfo",
              Effect.consoleError, Effect.navigate "/admin/login"])
        else (dom, [getRequest "/admin/check-auth"])

/-! ## Login page -/

/-- The state of the login page the submit handler changes: the text and the
visibility of the element `errorMessage`, and the loading state of the button
(`disabled`, with the loader shown instead of the text). -/
structure LoginPage where
  errorText : String
  errorVisible : Bool
  loading : Bool
deriving DecidableEq

/-- The function `setLoading`. -/
def setLoading (loading : Bool) (p : LoginPage) : LoginPage := { p with loading := loading }

/-- The function `showError`. -/
def showError (message : String) (p : LoginPage) : LoginPage :=
  { p with errorText := message, errorVisible := true }

/-- The function `hideError`. -/
def hideError (p : LoginPage) : LoginPage := { p with errorVisible := false }

/-- The method `String.prototype.trim`: white space and line terminators are removed
from both ends. -/
def jsTrim (s : String) : String :=
  String.mk
    (((s.data.dropWhile isStrWhiteSpaceChar).reverse.dropWhile isStrWhiteSpaceChar).reverse)

/-- The `catch` block of the submit handler. -/
def loginFailed (p : LoginPage) (request : Effect) : LoginPage × List Effect :=
  (setLoading false (showError "Terjadi kesalahan. Silakan coba lagi." p),
    [request, Effect.consoleError])

/-- The `else` branch of the submit handler: the message of the response, or the
default one, is shown; reading the message of a `null` body throws. -/
def loginRejected (h : Host) (data : JVal) (p : LoginPage) (request : Effect) :
    LoginPage × List Effect :=
  match data.get "message" with
  | none => loginFailed p request
  | some message =>
    (setLoading false
      (showError (JVal.toStr h (message.or (.str "Email atau password salah"))) p), [request])

/-- The submit handler of the login form, given the values of the two inputs and
the outcome of the request. -/
def submitLogin (h : Host) (emailValue passwordValue : String) (r : FetchOutcome)
    (p : LoginPage) : LoginPage × List Effect :=
  let email := jsTrim emailValue
  if email = "" ∨ passwordValue = "" then
    (showError "Email dan password harus diisi" p, [])
  else
    let p1 := hideError (setLoading true p)
    let request := Effect.fetch "/admin/login" "POST"
      (some (.obj [("email", .str email), ("password", .str passwordValue)]))
    match r with
    | .rejected => loginFailed p1 request
    | .resolved response =>
      match response.json with
      | none => loginFailed p1 request
      | some data =>
        if response.ok then
          match data.get "status" with
          | none => loginFailed p1 request
          | some st =>
            if st.isStr "success" then (p1, [request, Effect.navigate "/admin/dashboard"])
            else loginRejected h data p1 request
        else loginRejected h data p1 request

/-! ## More sample inputs -/

/-- A dashboard page with the items and sections of `dashboard` and `feedback`, the
dashboard being shown. -/
def sampleDocument : Document :=
  [ ⟨none, true, false, some "dashboard", true, "Dashboard"⟩,
    ⟨none, true, false, some "feedback", false, "Feedback"⟩,
    ⟨some "pageTitle", false, false, none, false, "Dashboard"⟩,
    ⟨some "dashboard-section", false, true, none, true, ""⟩,
    ⟨some "feedback-section", false, true, none, false, ""⟩ ]

/-- The globals after `admin.js` and then `feedback_dashboard.js` have run. -/
def sampleGlobals : Globals := loadFeedbackScript (loadAdminScript Globals.initial)

/-- A feedback record whose message is markup. -/
def sampleMarkupFeedback : JVal :=
  .obj [("id", .num (.fin 1 0)), ("user_name", .str "Sari"), ("category", .str "app"),
    ("rating", .num (.fin 4 0)), ("message", .str "<img src=x onerror=alert(1)>"),
    ("sentiment", .str "negative"), ("sentiment_score", .num (.fin 5 1)),
    ("created_at", .str "2026-01-05")]

/-- A response with body `{status: 'error'}`. -/
def sampleError : FetchOutcome :=
  .resolved ⟨true, some (.obj [("status", .str "error")])⟩

/-- Whether `user.name || 'A'` is a string, so that `charAt` can be called on it. -/
def hasTextualName (user : JVal) : Bool :=
  match (user.getOpt "name").or (.str "A") with
  | .str _ => true
  | _ => false

/-- Whether the login response is accepted: it is OK and its body has status
`'success'`. -/
def loginAccepted (r : FetchOutcome) : Bool :=
  match r with
  | .rejected => false
  | .resolved response => response.ok && r.isSuccess

/-- A dashboard page on which the users section is shown. -/
def sampleUsersDocument : Document :=
  [ ⟨none, true, false, some "dashboard", false, "Dashboard"⟩,
    ⟨none, true, false, some "users", true, "Pengguna"⟩,
    ⟨some "pageTitle", false, false, none, false, "Manajemen Pengguna"⟩,
    ⟨some "dashboard-section", false, true, none, false, ""⟩,
    ⟨some "users-section", false, true, none, true, ""⟩ ]

/-- The page `switchSection` leaves when the target section and the title element
exist: the loops have run, the first element with the id of the target is active,
and the title is the entry of `titles` or the default. -/
def switchedDocument (h : Host) (key : JVal) (doc : Document) : Document :=
  Document.updateFirst "pageTitle"
    (fun e => { e with text := lookupOr h titles key "Dashboard" })
    (Document.updateFirst (JVal.toStr h key ++ "-section") (fun e => { e with active := true })
      (clearActive key doc))

/-! ## Logout -/

/-- The click handler that `initializeLogout` puts on the button `logoutBtn`: the
answer to `confirm` and the outcome of the request are parameters. The response
is not read, so every resolved request takes the same path. -/
def logoutClick (confirmed : Bool) (r : FetchOutcome) : List Effect :=
  Effect.confirm "Apakah Anda yakin ingin keluar?" ::
    if !confirmed then []
    else
      Effect.fetch "/admin/logout" "POST" none ::
        match r with
        | .resolved _ => [Effect.navigate "/admin/login"]
        | .rejected => [Effect.consoleError, Effect.navigate "/admin/login"]

/-- The function `initializeLogout`: the handler is registered when the button
exists. -/
def initializeLogout (dom : Dom) : Option (Bool → FetchOutcome → List Effect) :=
  match dom.getElementById "logoutBtn" with
  | some _ => some logoutClick
  | none => none

/-! ## Monthly statistics -/

/-- The method `String.prototype.includes`: whether `pattern` occurs in `s`. -/
def jsIncludes (s pattern : String) : Bool :=
  s.data.tails.any fun t => pattern.data.isPrefixOf t

/-- The call `Object.entries(x)` for a truthy `x`: the own properties of an
object in enumeration order, the indexed elements of an array, the code units of
a string, and nothing for a number or a boolean. -/
def entries : JVal → List (String × JVal)
  | .obj fields => fields
  | .arr items => items.enum.map fun p => (toString p.1, p.2)
  | .str s =>
    (List.range (utf16Length s)).map fun i => (toString i, JVal.str (substring s i (i + 1)))
  | _ => []

/-- The template literal of `loadMonthlyStats` around a label and the text shown
for its value. -/
def monthlyStatTemplate (key shown : String) : String :=
  "\n                <div class=\"stat-row\">\n"
    ++ "                    <span class=\"stat-label\">" ++ key ++ "</span>\n"
    ++ "                    <span class=\"stat-value\">" ++ shown ++ "</span>\n"
    ++ "                </div>\n            "

/-- The callback of `map` in `loadMonthlyStats`, applied to one entry. -/
def monthlyStatRow (h : Host) (entry : String × JVal) : String :=
  monthlyStatTemplate entry.1
    (if entry.2.isNumber && jsIncludes entry.1 "Donasi" then formatCurrency h entry.2
      else entry.2.toStr h)

/-- The markup `loadMonthlyStats` assigns inside its `try` block; it throws
(`none`) when `data` is `null`. -/
def monthlyStatsMarkup (h : Host) (data : JVal) : Option String :=
  match data.get "stats" with
  | none => none
  | some stats =>
    if stats.truthy then some (String.join ((entries stats).map (monthlyStatRow h)))
    else some "<p style=\"color: var(--gray); text-align: center;\">Tidak ada data</p>"

/-- The function `loadMonthlyStats`: fetch, parse, render into `monthlyStats`; any
exception is caught and the error paragraph is assigned instead. The result is
`none` when the assignment in the `catch` block throws as well. -/
def loadMonthlyStats (h : Host) (r : FetchOutcome) (dom : Dom) : Option Dom :=
  let attempt : Option Dom := do
    let data ← r.data
    let html ← monthlyStatsMarkup h data
    dom.assign "monthlyStats" html
  match attempt with
  | some dom1 => some dom1
  | none => dom.assign "monthlyStats" "<p style=\"color: var(--danger);\">Gagal memuat statistik</p>"

/-! ## Sidebar component -/

namespace Sidebar

/-- The function `checkAuth` of `sidebar_component.js`: `token` is the result of
`localStorage.getItem('adminToken')` (`none` for `null`) and `currentPath` is
`window.location.pathname`; the result is the returned boolean and the
redirect, if any. -/
def checkAuth (token : Option String) (currentPath : String) : Bool × List Effect :=
  let tokenValue : JVal :=
    match token with
    | some t => .str t
    | none => .null
  if !tokenValue.truthy && decide (currentPath ≠ "/admin/login") then
    (false, [Effect.navigate "/admin/login"])
  else if tokenValue.truthy && decide (currentPath = "/admin/login") then
    (false, [Effect.navigate "/admin"])
  else (true, [])

end Sidebar

/-! ## Relative time -/

/-- The dates the scripts construct, as time values in milliseconds since the
epoch. -/
structure Clock where
  /-- The time value of `new Date()`. -/
  now : Int
  /-- The time value of `new Date(x)`; `none` stands for an invalid date, whose
  time value is NaN. -/
  timeValue : JVal → Option Int

/-- The function `formatTime` of `admin.js`. The difference of two time values and
its quotients are computed exactly; with an invalid date the difference is NaN
and every comparison is false. -/
def formatTime (h : Host) (c : Clock) (dateString : JVal) : String :=
  if !dateString.truthy then "-"
  else
    match c.timeValue dateString with
    | none => formatDate h dateString
    | some date =>
      let diff := c.now - date
      let minutes := Int.fdiv diff 60000
      let hours := Int.fdiv diff 3600000
      let days := Int.fdiv diff 86400000
      if minutes < 1 then "Baru saja"
      else if minutes < 60 then JSNum.toStr h (JSNum.ofInt minutes) ++ " menit yang lalu"
      else if hours < 24 then JSNum.toStr h (JSNum.ofInt hours) ++ " jam yang lalu"
      else if days < 7 then JSNum.toStr h (JSNum.ofInt days) ++ " hari yang lalu"
      else formatDate h dateString

/-! ## Listeners of the feedback dashboard -/

/-- An event listener as far as the scripts register them: the id of the element,
the event type, and the function its body calls. Every registration passes a new
function object, so no registration is ever discarded as a duplicate. -/
structure Listener where
  target : String
  event : String
  callee : String
deriving DecidableEq

/-- The function `initFeedbackDashboard`: it calls `loadFeedbackData` and, when
the time range selector exists, adds a `change` listener to it. The result is the
listeners of the page afterwards and the calls made. -/
def initFeedbackDashboard (dom : Dom) (listeners : List Listener) :
    List Listener × List Effect :=
  (match dom.getElementById "feedbackTimeRange" with
    | some _ => listeners ++ [⟨"feedbackTimeRange", "change", "loadFeedbackData"⟩]
    | none => listeners,
   [Effect.call "loadFeedbackData"])

/-- The listeners of the page after `k` calls of `initFeedbackDashboard`. -/
def initFeedbackDashboardTimes (dom : Dom) : Nat → List Listener → List Listener
  | 0, listeners => listeners
  | k + 1, listeners =>
    initFeedbackDashboardTimes dom k (initFeedbackDashboard dom listeners).1

/-- One event of type `event` on the element `target`: every listener registered
for it runs, in order of registration. -/
def dispatchEvent (target event : String) (listeners : List Listener) : List Effect :=
  (listeners.filter fun l => decide (l.target = target ∧ l.event = event)).map
    fun l => Effect.call l.callee

/-! ## Sample inputs for the remaining functions -/

/-- A clock at 2026-11-05T12:00:00Z on which every date string denotes the same
instant one hour and a half earlier. -/
def sampleClock : Clock :=
  { now := 1793880000000, timeValue := fun _ => some 1793874600000 }

/-- Six categories and a seventh. -/
def sampleCategories : List JVal :=
  (List.range 7).map fun i =>
    .obj [("category", .str ("c" ++ toString i)), ("positive", .num (.fin i 0)),
      ("negative", .num (.fin 1 0)), ("neutral", .num (.fin 0 0))]

/-! ## Visual state of the section router -/

/-- What the two loops of `switchSection` do to one element. -/
def clearElement (key : JVal) (e : Element) : Element :=
  let e1 := if e.isNavItem then { e with active := attributeIs e.dataSection key } else e
  if e1.isContentSection then { e1 with active := false } else e1

/-- The navigation items shown as active. -/
def activeNavItems (doc : Document) : List Element :=
  doc.filter fun e => e.isNavItem && e.active

/-- The content sections shown. -/
def activeSections (doc : Document) : List Element :=
  doc.filter fun e => e.isContentSection && e.active

/-! ## Classes of prompt answers -/

/-- Whether the character is a letter `A`..`Z` or `a`..`z`. -/
def isAsciiLetter (c : Char) : Bool :=
  (65 ≤ c.toNat && c.toNat ≤ 90) || (97 ≤ c.toNat && c.toNat ≤ 122)

/-- Whether the character is a digit `1`..`9`. -/
def isNonZeroDigit (c : Char) : Bool := 49 ≤ c.toNat && c.toNat ≤ 57

/-- The effects of `updateVolunteer` when the hours answer is refused: the two
prompts and the validation alert. -/
def refusedHoursTrace (h : Host) (currentStatus currentHours : JVal) : List Effect :=
  [Effect.prompt "Update status relawan (applied/accepted/rejected/completed):" currentStatus,
   Effect.prompt "Update jam kontribusi (angka):"
     (.str (JVal.toStr h (currentHours.nullish (.num (.fin 0 0))))),
   Effect.alert "Jam kontribusi tidak valid"]

/-! ## Lemmas -/

/-! ### Code units -/

/-- The first code units of a string that starts with a character of the Basic
Multilingual Plane. -/
theorem takeUnits_cons_bmp (n : Nat) (c : Char) (cs : List Char) (hc : c.toNat < 0x10000) :
    takeUnits (n + 1) (c :: cs) = c :: takeUnits n cs := by
  cases n <;> simp [takeUnits, hc]

/-- One code unit of a string that starts with a surrogate pair. -/
theorem takeUnits_one_pair (c : Char) (cs : List Char) (hc : ¬ c.toNat < 0x10000) :
    takeUnits 1 (c :: cs) = [unpairedSurrogate] := by
  rw [takeUnits]
  simp [hc]

/-- Two or more code units of a string that starts with a surrogate pair. -/
theorem takeUnits_cons_pair (m : Nat) (c : Char) (cs : List Char) (hc : ¬ c.toNat < 0x10000) :
    takeUnits (m + 2) (c :: cs) = c :: takeUnits m cs := by
  rw [takeUnits]
  simp [hc]

/-- A character has at least one code unit. -/
theorem utf16Size_pos (c : Char) : 1 ≤ utf16Size c := by
  unfold utf16Size
  split <;> omega

/-- The stand-in for half a surrogate pair is one code unit. -/
theorem utf16Size_unpairedSurrogate : utf16Size unpairedSurrogate = 1 := by
  decide

/-- Only the empty string has length zero. -/
theorem utf16Length_eq_zero_iff (s : String) : utf16Length s = 0 ↔ s = "" := by
  rcases s with ⟨l⟩
  cases l with
  | nil => exact ⟨fun _ => rfl, fun _ => rfl⟩
  | cons c cs =>
    constructor
    · intro h0
      have := utf16Size_pos c
      simp only [utf16Length, List.map_cons, List.sum_cons] at h0
      omega
    · intro h0
      have := congrArg String.data h0
      simp at this

/-- The length of a concatenation. -/
theorem utf16Length_append (s t : String) :
    utf16Length (s ++ t) = utf16Length s + utf16Length t := by
  simp [utf16Length, String.data_append]

/-- The first `n` code units are `n` code units, or all there are. -/
theorem takeUnits_units (n : Nat) (l : List Char) :
    ((takeUnits n l).map utf16Size).sum = min n ((l.map utf16Size).sum) := by
  induction l generalizing n with
  | nil => cases n <;> simp [takeUnits]
  | cons c cs ih =>
    cases n with
    | zero => simp [takeUnits]
    | succ n =>
      by_cases hc : c.toNat < 0x10000
      · have hs : utf16Size c = 1 := by simp [utf16Size, hc]
        simp only [takeUnits_cons_bmp n c cs hc, List.map_cons, List.sum_cons, hs, ih n]
        omega
      · have hs : utf16Size c = 2 := by simp [utf16Size, hc]
        cases n with
        | zero =>
          simp only [takeUnits_one_pair c cs hc, List.map_cons, List.sum_cons, hs, List.map_nil,
            List.sum_nil, utf16Size_unpairedSurrogate]
          omega
        | succ m =>
          simp only [takeUnits_cons_pair m c cs hc, List.map_cons, List.sum_cons, hs, ih m]
          omega

/-- The first `n` code units are characters from the start of the string, followed
by the stand-in when the cut falls inside a surrogate pair. -/
theorem takeUnits_prefix (n : Nat) (l : List Char) :
    ∃ pre, pre <+: l
      ∧ (takeUnits n l = pre ∨ takeUnits n l = pre ++ [unpairedSurrogate]) := by
  induction l generalizing n with
  | nil => exact ⟨[], List.prefix_refl _, Or.inl (by cases n <;> rfl)⟩
  | cons c cs ih =>
    cases n with
    | zero => exact ⟨[], List.nil_prefix, Or.inl rfl⟩
    | succ n =>
      by_cases hc : c.toNat < 0x10000
      · obtain ⟨pre, hpre, hcut⟩ := ih n
        refine ⟨c :: pre, (List.prefix_cons_inj c).mpr hpre, ?_⟩
        rcases hcut with hcut | hcut
        · exact Or.inl (by rw [takeUnits_cons_bmp n c cs hc, hcut])
        · exact Or.inr (by rw [takeUnits_cons_bmp n c cs hc, hcut, List.cons_append])
      · cases n with
        | zero =>
          exact ⟨[], List.nil_prefix, Or.inr (by rw [takeUnits_one_pair c cs hc,
            List.nil_append])⟩
        | succ m =>
          obtain ⟨pre, hpre, hcut⟩ := ih m
          refine ⟨c :: pre, (List.prefix_cons_inj c).mpr hpre, ?_⟩
          rcases hcut with hcut | hcut
          · exact Or.inl (by rw [takeUnits_cons_pair m c cs hc, hcut])
          · exact Or.inr (by rw [takeUnits_cons_pair m c cs hc, hcut, List.cons_append])

/-- In a string of characters of the Basic Multilingual Plane the code units are
the characters. -/
theorem takeUnits_of_bmp (n : Nat) (l : List Char) (hl : ∀ c ∈ l, c.toNat < 0x10000) :
    takeUnits n l = l.take n ∧ (l.map utf16Size).sum = l.length := by
  induction l generalizing n with
  | nil => cases n <;> simp [takeUnits]
  | cons c cs ih =>
    have hc := hl c (List.mem_cons_self _ _)
    have hcs := fun m => ih m fun d hd => hl d (List.mem_cons_of_mem _ hd)
    have hs : utf16Size c = 1 := by simp [utf16Size, hc]
    cases n with
    | zero =>
      refine ⟨rfl, ?_⟩
      simp only [List.map_cons, List.sum_cons, hs, (hcs 0).2, List.length_cons]
      omega
    | succ n =>
      refine ⟨by rw [takeUnits_cons_bmp n c cs hc, (hcs n).1, List.take_succ_cons], ?_⟩
      simp only [List.map_cons, List.sum_cons, hs, (hcs 0).2, List.length_cons]
      omega

@[simp] theorem Effect.isFetch_prompt (m : String) (d : JVal) :
    (Effect.prompt m d).isFetch = false := rfl

@[simp] theorem Effect.isFetch_confirm (m : String) : (Effect.confirm m).isFetch = false := rfl

@[simp] theorem Effect.isFetch_alert (m : String) : (Effect.alert m).isFetch = false := rfl

@[simp] theorem Effect.isFetch_fetch (u m : String) (b : Option JVal) :
    (Effect.fetch u m b).isFetch = true := rfl

@[simp] theorem Effect.isFetch_call (f : String) : (Effect.call f).isFetch = false := rfl

@[simp] theorem Effect.isFetch_consoleError : Effect.consoleError.isFetch = false := rfl

/-- Nothing after the request of a handler is itself a request. -/
@[simp] theorem afterRequest_no_fetch (h : Host) (loader failMessage : String)
    (res : FetchOutcome) :
    (afterRequest h loader failMessage res).filter Effect.isFetch = [] := by
  unfold afterRequest
  split
  · rfl
  · split
    · split <;> rfl
    · rfl

/-- An assignment that throws does so whatever the value. -/
theorem Dom.assign_eq_none (d : Dom) (id v w : String) (hn : d.assign id v = none) :
    d.assign id w = none := by
  unfold Dom.assign at hn ⊢
  cases hl : d.lookup id with
  | none => rfl
  | some c => simp [hl] at hn

/-- After an assignment the element holds the assigned value. -/
theorem Dom.getElementById_assign (d d1 : Dom) (id v : String)
    (ha : d.assign id v = some d1) : d1.getElementById id = some v := by
  unfold Dom.assign at ha
  cases hl : d.lookup id with
  | none => simp [hl] at ha
  | some c =>
    simp only [hl, Option.some.injEq] at ha
    subst ha
    unfold Dom.getElementById
    induction d with
    | nil => simp [List.lookup] at hl
    | cons p ps ih =>
      by_cases hp : p.1 = id
      · simp only [List.map_cons, if_pos hp]
        rw [List.lookup_cons, hp]
        simp
      · have hne : (id == p.1) = false := by
          simpa [beq_eq_false_iff_ne] using fun hh => hp hh.symm
        have hl1 : List.lookup id ps = some c := by
          rw [show p :: ps = (p.1, p.2) :: ps from rfl, List.lookup_cons, hne] at hl
          exact hl
        simp only [List.map_cons, if_neg hp]
        rw [show p :: List.map _ ps = (p.1, p.2) :: List.map _ ps from rfl, List.lookup_cons, hne]
        exact ih hl1

/-- Each loader is `loadTable` at its own constants. -/
theorem Loader.run_eq (L : Loader) (h : Host) :
    L.run h = loadTable h L.tbodyId L.field (L.row h)
      (placeholderRow L.colspan L.emptyText) (errorRow L.colspan) := by
  cases L <;> rfl

/-- When the callback succeeds on every item, `map` gives one result per item, in
order. -/
theorem mapThrowing_forall₂ {α β : Type} (f : α → Option β) (xs : List α)
    (hf : ∀ x ∈ xs, (f x).isSome = true) :
    ∃ ys, mapThrowing f xs = some ys ∧ List.Forall₂ (fun x y => f x = some y) xs ys := by
  induction xs with
  | nil => exact ⟨[], rfl, List.Forall₂.nil⟩
  | cons x xs ih =>
    obtain ⟨ys, hys, hall⟩ := ih (fun y hy => hf y (List.mem_cons_of_mem _ hy))
    obtain ⟨y, hy⟩ := Option.isSome_iff_exists.mp (hf x (List.mem_cons_self _ _))
    exact ⟨y :: ys, by simp [mapThrowing, hy, hys], List.Forall₂.cons hy hall⟩

/-- The markup of a non-empty list is the joined rows. -/
theorem tableMarkup_items (h : Host) (field : String) (row : JVal → Option String)
    (emptyRow : String) (fields : List (String × JVal)) (items : List JVal)
    (hf : fields.lookup field = some (.arr items)) (hne : items ≠ []) :
    tableMarkup h field row emptyRow (.obj fields) = (mapThrowing row items).map String.join := by
  have hlen : 0 < items.length := List.length_pos.mpr hne
  simp [tableMarkup, JVal.get, hf, JVal.truthy, JVal.gt, JVal.toNumber, JSNum.lt, JSNum.ofInt, hlen]

/-- The markup of an empty list is the placeholder row. -/
theorem tableMarkup_empty (h : Host) (field : String) (row : JVal → Option String)
    (emptyRow : String) (fields : List (String × JVal))
    (hf : fields.lookup field = some (.arr [])) :
    tableMarkup h field row emptyRow (.obj fields) = some emptyRow := by
  simp [tableMarkup, JVal.get, hf, JVal.truthy, JVal.gt, JVal.toNumber, JSNum.lt, JSNum.ofInt]

/-- A row template of `admin.js` throws only on `null` and `undefined`. -/
theorem Loader.row_isSome (L : Loader) (h : Host) (x : JVal) (hx : x.isNullish = false) :
    (L.row h x).isSome = true := by
  cases L <;> cases x <;>
    simp [JVal.isNullish] at hx <;>
    simp [Loader.row, userRow, postRow, campaignRow, donationRow, commentRow, volunteerRow,
      notificationRow, likeRow, JVal.get]

/-- The star string exists for an integer rating from 0 to 5. -/
theorem ratingStars_isSome (h : Host) (r : Int) (h0 : 0 ≤ r) (h5 : r ≤ 5) :
    (ratingStars h (.num (.fin r 0))).isSome = true := by
  have h1 : ¬ r < 0 := by omega
  have h2 : ¬ (5 - r) < 0 := by omega
  simp [ratingStars, jsRepeat, JVal.toNumber, JSNum.toIntegerOrInfinity, JSNum.sub,
    JSNum.normalize, h1, h2, Int.tdiv_one]

/-- The function `truncateText` does not throw on a string. -/
theorem truncateText_str_isSome (h : Host) (s : String) (n : Nat) :
    (truncateText h (.str s) n).isSome = true := by
  simp only [truncateText, JVal.get, if_true]
  split
  · rfl
  · split <;> rfl

/-- The feedback row renders for a well-formed record. -/
theorem feedbackRow_isSome (h : Host) (fb : JVal) (hw : feedbackWellFormed fb = true) :
    (feedbackRow h fb).isSome = true := by
  cases fb with
  | obj fields =>
    simp only [feedbackWellFormed, Bool.and_eq_true] at hw
    obtain ⟨⟨hr, hs⟩, hm⟩ := hw
    split at hr
    · rename_i r hrat
      simp only [Bool.and_eq_true, decide_eq_true_eq] at hr
      obtain ⟨ys, hys⟩ := Option.isSome_iff_exists.mp (ratingStars_isSome h r hr.1 hr.2)
      split at hs
      · rename_i n hsc
        split at hm
        · rename_i hmsg
          simp [feedbackRow, JVal.get, hrat, hsc, hmsg, hys, toFixed, truncateText, JVal.truthy]
        · rename_i s hmsg
          obtain ⟨t, ht⟩ := Option.isSome_iff_exists.mp (truncateText_str_isSome h s 50)
          simp [feedbackRow, JVal.get, hrat, hsc, hmsg, hys, toFixed, ht]
        · rename_i hmsg
          simp [feedbackRow, JVal.get, hrat, hsc, hmsg, hys, toFixed, truncateText, JVal.truthy]
        · simp at hm
      · simp at hs
    · simp at hr
  | _ => simp [feedbackWellFormed] at hw

/-- A loader whose `try` block produced markup assigns that markup. -/
theorem loadTable_of_markup (h : Host) (tbodyId field : String) (row : JVal → Option String)
    (emptyRow errorRow : String) (r : FetchOutcome) (dom : Dom) (data : JVal) (html : String)
    (hd : r.data = some data) (hm : tableMarkup h field row emptyRow data = some html) :
    loadTable h tbodyId field row emptyRow errorRow r dom = dom.assign tbodyId html := by
  cases ha : dom.assign tbodyId html with
  | none => simp [loadTable, hd, hm, ha, Dom.assign_eq_none dom tbodyId html errorRow ha]
  | some d => simp [loadTable, hd, hm, ha]

/-- A loader whose request, parse or rendering failed assigns the error row. -/
theorem loadTable_of_failure (h : Host) (tbodyId field : String) (row : JVal → Option String)
    (emptyRow errorRow : String) (r : FetchOutcome) (dom : Dom)
    (hd : r.data = none ∨
      ∃ data, r.data = some data ∧ tableMarkup h field row emptyRow data = none) :
    loadTable h tbodyId field row emptyRow errorRow r dom = dom.assign tbodyId errorRow := by
  rcases hd with hd | ⟨data, hd, hm⟩
  · simp [loadTable, hd]
  · simp [loadTable, hd, hm]

/-- The feedback table on a non-empty array. -/
theorem updateFeedbackTable_items (h : Host) (items : List JVal) (dom : Dom)
    (hne : items ≠ []) :
    updateFeedbackTable h (.arr items) dom =
      if (dom.getElementById "feedbackTableBody").isSome then
        (mapThrowing (feedbackRow h) items).bind fun rows =>
          dom.assign "feedbackTableBody" (String.join rows)
      else some dom := by
  have hlen : items.length ≠ 0 := fun h0 => hne (List.length_eq_zero.mp h0)
  cases hg : dom.getElementById "feedbackTableBody" <;>
    simp [updateFeedbackTable, hg, JVal.truthy, JVal.get, JVal.isNum, JSNum.ofInt, hlen]

/-- One failed request or parse makes the joint await fail. -/
theorem awaitAll_none_of_mem (rs : List FetchOutcome) (r : FetchOutcome) (hm : r ∈ rs)
    (hd : r.data = none) : awaitAll rs = none := by
  induction rs with
  | nil => cases hm
  | cons x xs ih =>
    rcases List.mem_cons.mp hm with rfl | hx
    · simp [awaitAll, hd]
    · have := ih hx
      unfold awaitAll
      rw [this]
      cases x.data <;> rfl

/-! ### Conversion of prompt answers to numbers -/

/-- A letter is distinct from the characters that can start a number. -/
theorem isAsciiLetter_facts (c : Char) (hc : isAsciiLetter c = true) :
    c ≠ '0' ∧ c ≠ '+' ∧ c ≠ '-' ∧ c ≠ '.' ∧ c.isDigit = false
      ∧ isStrWhiteSpaceChar c = false := by
  have hn : (65 ≤ c.toNat ∧ c.toNat ≤ 90) ∨ (97 ≤ c.toNat ∧ c.toNat ≤ 122) := by
    simpa [isAsciiLetter] using hc
  have hne : ∀ d : Char, d.toNat < 65 → c ≠ d := by
    intro d hd he
    subst he
    omega
  refine ⟨hne _ (by decide), hne _ (by decide), hne _ (by decide), hne _ (by decide), ?_, ?_⟩
  · have hv : c.val.toNat = c.toNat := rfl
    simp only [Char.isDigit, Bool.and_eq_false_iff, decide_eq_false_iff_not, ge_iff_le,
      UInt32.le_def, Fin.le_def]
    right
    show ¬ c.toNat ≤ 57
    omega
  · simp only [isStrWhiteSpaceChar, Bool.or_eq_false_iff, decide_eq_false_iff_not,
      Bool.and_eq_false_iff]
    omega

/-- Trimming keeps the first character when it is not white space. -/
theorem trim_cons (c : Char) (rest : List Char) (hc : isStrWhiteSpaceChar c = false) :
    ∃ t, (((c :: rest).dropWhile isStrWhiteSpaceChar).reverse.dropWhile
        isStrWhiteSpaceChar).reverse = c :: t ∧ t <+: rest := by
  have hd : (c :: rest).dropWhile isStrWhiteSpaceChar = c :: rest := by
    simp [List.dropWhile, hc]
  rw [hd]
  have hpre : List.rdropWhile isStrWhiteSpaceChar (c :: rest) <+: c :: rest :=
    List.rdropWhile_prefix _ _
  have hne : List.rdropWhile isStrWhiteSpaceChar (c :: rest) ≠ [] := by
    intro h0
    have := List.rdropWhile_eq_nil_iff.mp h0 c (List.mem_cons_self _ _)
    rw [hc] at this
    cases this
  change ∃ t, List.rdropWhile isStrWhiteSpaceChar (c :: rest) = c :: t ∧ t <+: rest
  cases hl : List.rdropWhile isStrWhiteSpaceChar (c :: rest) with
  | nil => exact absurd hl hne
  | cons a t =>
    rw [hl] at hpre
    obtain ⟨rfl, ht⟩ := List.cons_prefix_cons.mp hpre
    exact ⟨t, rfl, ht⟩

/-- A literal that starts with a letter other than `I` is no number. -/
theorem parseNumericLiteral_letter (c : Char) (t : List Char)
    (hc : isAsciiLetter c = true) (hI : c ≠ 'I') :
    parseNumericLiteral (c :: t) = JSNum.nan := by
  obtain ⟨h0, hplus, hminus, hdot, hdigit, -⟩ := isAsciiLetter_facts c hc
  have hinf : ¬ (c :: t = "Infinity".toList) := by
    intro he
    have : c = 'I' := (List.cons.inj he).1
    exact hI this
  have hparse : parseUnsignedDecimal false (c :: t) = JSNum.nan := by
    unfold parseUnsignedDecimal
    rw [if_neg hinf]
    simp only [List.takeWhile_cons, hdigit, Bool.false_eq_true, if_false, List.dropWhile_cons]
    split
    · rfl
    · rename_i hcond
      exfalso
      apply hcond
      refine ⟨trivial, ?_⟩
      split
      · rename_i r heq
        exact absurd (List.cons.inj heq).1 hdot
      · rfl
  unfold parseNumericLiteral
  split
  · rename_i heq
    cases heq
  · rename_i p r heq
    exact absurd (List.cons.inj heq).1 h0
  · rename_i r heq
    exact absurd (List.cons.inj heq).1 hplus
  · rename_i r heq
    exact absurd (List.cons.inj heq).1 hminus
  · exact hparse

/-- An answer that starts with a letter other than `I` converts to NaN. -/
theorem stringToNumber_letter (c : Char) (rest : List Char)
    (hc : isAsciiLetter c = true) (hI : c ≠ 'I') :
    stringToNumber (String.mk (c :: rest)) = JSNum.nan := by
  obtain ⟨t, ht, -⟩ := trim_cons c rest (isAsciiLetter_facts c hc).2.2.2.2.2
  unfold stringToNumber
  show parseNumericLiteral (((c :: rest).dropWhile isStrWhiteSpaceChar).reverse.dropWhile
    isStrWhiteSpaceChar).reverse = JSNum.nan
  rw [ht]
  exact parseNumericLiteral_letter c t hc hI

/-- A digit has a code from 48 to 57 and is not white space. -/
theorem isDigit_facts (c : Char) (hc : c.isDigit = true) :
    48 ≤ c.toNat ∧ c.toNat ≤ 57 ∧ isStrWhiteSpaceChar c = false := by
  have hb : 48 ≤ c.toNat ∧ c.toNat ≤ 57 := by
    simp only [Char.isDigit, Bool.and_eq_true, decide_eq_true_eq, ge_iff_le, UInt32.le_def,
      Fin.le_def] at hc
    exact hc
  refine ⟨hb.1, hb.2, ?_⟩
  simp only [isStrWhiteSpaceChar, Bool.or_eq_false_iff, decide_eq_false_iff_not,
    Bool.and_eq_false_iff]
  omega

/-- Digits that start with a digit other than `0` denote a positive number. -/
theorem decimalDigits_pos (d : Char) (ds : List Char) (hd : isNonZeroDigit d = true) :
    1 ≤ decimalDigits (d :: ds) := by
  have hd1 : 49 ≤ d.toNat := by
    simp only [isNonZeroDigit, Bool.and_eq_true, decide_eq_true_eq] at hd
    exact hd.1
  have hfold : ∀ (l : List Char) (acc : Nat), 1 ≤ acc →
      1 ≤ l.foldl (fun acc c => acc * 10 + (c.toNat - 48)) acc := by
    intro l
    induction l with
    | nil => intro acc h1; exact h1
    | cons c cs ih =>
      intro acc h1
      rw [List.foldl_cons]
      exact ih (acc * 10 + (c.toNat - 48)) (by omega)
  unfold decimalDigits
  rw [List.foldl_cons]
  exact hfold ds (0 * 10 + (d.toNat - 48)) (by omega)

/-- A positive number shifted left by at least one bit exceeds one. -/
theorem one_lt_shiftLeft (x n : Nat) (hx : 1 ≤ x) : 1 < x <<< (n + 1) := by
  rw [Nat.shiftLeft_eq]
  have h2 : 1 < 2 ^ (n + 1) := Nat.one_lt_two_pow (Nat.succ_ne_zero n)
  have h3 : 2 ^ (n + 1) ≤ x * 2 ^ (n + 1) := Nat.le_mul_of_pos_left _ hx
  omega

/-- The number read from a minus sign and a positive magnitude is negative. -/
theorem ofDecimal_negative (m : Nat) (hm : 1 ≤ m) :
    (JSNum.ofDecimal true m 0 0).isNegative = true := by
  unfold JSNum.ofDecimal
  split
  · rfl
  · split
    · rename_i hsmall
      exfalso
      have h2 := one_lt_shiftLeft (m * 10 ^ 0) 1074 (by simpa using hm)
      simp only [pow_zero] at hsmall h2
      omega
    · simp only [JSNum.normalize, JSNum.isNegative, if_true, pow_zero, mul_one,
        decide_eq_true_eq]
      omega

/-- A minus sign followed by digits, the first of them not `0`, converts to a
negative number. -/
theorem stringToNumber_minus_digits (d : Char) (ds : List Char)
    (hd : isNonZeroDigit d = true) (hds : ds.all Char.isDigit = true) :
    (stringToNumber (String.mk ('-' :: d :: ds))).isNegative = true := by
  have hdd : d.isDigit = true := by
    simp only [isNonZeroDigit, Bool.and_eq_true, decide_eq_true_eq] at hd
    simp only [Char.isDigit, Bool.and_eq_true, decide_eq_true_eq, ge_iff_le, UInt32.le_def,
      Fin.le_def]
    exact ⟨show 48 ≤ d.toNat by omega, hd.2⟩
  have hall : ∀ c ∈ d :: ds, c.isDigit = true := by
    intro c hc
    rcases List.mem_cons.mp hc with rfl | hmem
    · exact hdd
    · exact List.all_eq_true.mp hds c hmem
  have hlead : ('-' :: d :: ds).dropWhile isStrWhiteSpaceChar = '-' :: d :: ds := by
    rw [List.dropWhile_cons]
    rfl
  have htrail : List.rdropWhile isStrWhiteSpaceChar ('-' :: d :: ds) = '-' :: d :: ds := by
    rw [List.rdropWhile_eq_self_iff]
    intro hl
    have hmem : ('-' :: d :: ds).getLast hl ∈ d :: ds := by
      rw [List.getLast_cons (List.cons_ne_nil d ds)]
      exact List.getLast_mem _
    rw [(isDigit_facts _ (hall _ hmem)).2.2]
    exact Bool.false_ne_true
  have htrim : ((('-' :: d :: ds).dropWhile isStrWhiteSpaceChar).reverse.dropWhile
      isStrWhiteSpaceChar).reverse = '-' :: d :: ds := by
    rw [hlead]
    exact htrail
  have hinf : ¬ (d :: ds = "Infinity".toList) := by
    intro he
    have h1 : d = 'I' := (List.cons.inj he).1
    rw [h1] at hdd
    revert hdd
    decide
  have htake : (d :: ds).takeWhile Char.isDigit = d :: ds :=
    List.takeWhile_eq_self_iff.mpr hall
  have hdrop : (d :: ds).dropWhile Char.isDigit = [] :=
    List.dropWhile_eq_nil_iff.mpr hall
  have hparse : parseUnsignedDecimal true (d :: ds)
      = JSNum.ofDecimal true (decimalDigits (d :: ds)) 0 0 := by
    unfold parseUnsignedDecimal
    rw [if_neg hinf]
    simp only [htake, hdrop]
    simp
  have hlit : parseNumericLiteral ('-' :: d :: ds) = parseUnsignedDecimal true (d :: ds) := by
    unfold parseNumericLiteral
    split
    · rename_i heq
      cases heq
    · rename_i p r heq
      exact absurd (List.cons.inj heq).1 (by decide)
    · rename_i r heq
      exact absurd (List.cons.inj heq).1 (by decide)
    · rename_i r heq
      rw [← (List.cons.inj heq).2]
    · rename_i hn0 hnp hnm
      exact absurd rfl (hnm (d :: ds))
  unfold stringToNumber
  show (parseNumericLiteral ((('-' :: d :: ds).dropWhile isStrWhiteSpaceChar).reverse.dropWhile
    isStrWhiteSpaceChar).reverse).isNegative = true
  rw [htrim, hlit, hparse]
  exact ofDecimal_negative _ (decimalDigits_pos d ds hd)

/-! ## Claims -/

/-- C1 (amended): for each of the eight loaders of `admin.js` and every response
whose list field holds `N >= 1` items none of which is `null`, and for
`updateFeedbackTable` on `N >= 1` well-formed feedback records (integer rating from
0 to 5, numeric sentiment score, message a string when present), the markup assigned
to the table body is the concatenation of exactly `N` row fragments, one per item,
in the order of the items. -/
theorem loaders_render_one_row_per_item (h : Host) (dom : Dom) (items : List JVal)
    (hne : items ≠ []) :
    (∀ (L : Loader) (ok : Bool) (fields : List (String × JVal)),
        fields.lookup L.field = some (.arr items) →
        (∀ x ∈ items, x.isNullish = false) →
        ∃ rows, rows.length = items.length
          ∧ List.Forall₂ (fun x r => L.row h x = some r) items rows
          ∧ L.run h (.resolved ⟨ok, some (.obj fields)⟩) dom
              = dom.assign L.tbodyId (String.join rows))
    ∧ ((∀ x ∈ items, feedbackWellFormed x = true) →
        ∃ rows, rows.length = items.length
          ∧ List.Forall₂ (fun x r => feedbackRow h x = some r) items rows
          ∧ updateFeedbackTable h (.arr items) dom
              = if (dom.getElementById "feedbackTableBody").isSome then
                  dom.assign "feedbackTableBody" (String.join rows)
                else some dom) := by
  constructor
  · intro L ok fields hf hx
    obtain ⟨rows, hrows, hall⟩ :=
      mapThrowing_forall₂ (L.row h) items (fun x hxm => L.row_isSome h x (hx x hxm))
    refine ⟨rows, hall.length_eq.symm, hall, ?_⟩
    rw [Loader.run_eq]
    refine loadTable_of_markup h _ _ _ _ _ (.resolved ⟨ok, some (.obj fields)⟩) dom
      (.obj fields) _ rfl ?_
    rw [tableMarkup_items h _ _ _ fields items hf hne, hrows]
    rfl
  · intro hx
    obtain ⟨rows, hrows, hall⟩ :=
      mapThrowing_forall₂ (feedbackRow h) items (fun x hxm => feedbackRow_isSome h x (hx x hxm))
    refine ⟨rows, hall.length_eq.symm, hall, ?_⟩
    rw [updateFeedbackTable_items h items dom hne, hrows]
    rfl

/-- Witness of C1: one user through `loadUsers` and one feedback record through
`updateFeedbackTable`. -/
theorem loaders_render_one_row_per_item_witness :
    ([sampleUser] ≠ [] ∧ [sampleFeedback] ≠ [])
    ∧ (∃ rows, rows.length = [sampleUser].length
        ∧ List.Forall₂ (fun x r => userRow sampleHost x = some r) [sampleUser] rows
        ∧ loadUsers sampleHost (.resolved ⟨true, some (.obj [("users", .arr [sampleUser])])⟩)
              [("usersTableBody", "")]
            = Dom.assign [("usersTableBody", "")] "usersTableBody" (String.join rows))
    ∧ (∃ rows, rows.length = [sampleFeedback].length
        ∧ List.Forall₂ (fun x r => feedbackRow sampleHost x = some r) [sampleFeedback] rows
        ∧ updateFeedbackTable sampleHost (.arr [sampleFeedback]) [("feedbackTableBody", "")]
            = Dom.assign [("feedbackTableBody", "")] "feedbackTableBody" (String.join rows)) :=
  ⟨⟨List.cons_ne_nil _ _, List.cons_ne_nil _ _⟩,
    (loaders_render_one_row_per_item sampleHost [("usersTableBody", "")] [sampleUser]
      (List.cons_ne_nil _ _)).1 Loader.users true [("users", .arr [sampleUser])] rfl
      (by intro x hx; rw [List.mem_singleton] at hx; subst hx; rfl),
    (loaders_render_one_row_per_item sampleHost [("feedbackTableBody", "")] [sampleFeedback]
      (List.cons_ne_nil _ _)).2
      (by intro x hx; rw [List.mem_singleton] at hx; subst hx; rfl)⟩

/-- Counterexample to C1 as stated: a list of one feedback record whose rating is 6,
or whose sentiment score is missing, makes `updateFeedbackTable` throw, so no row is
assigned; a list holding `null` makes `loadUsers` show the error row. -/
theorem feedback_table_row_failure :
    updateFeedbackTable sampleHost
      (.arr [.obj [("id", .num (.fin 1 0)), ("rating", .num (.fin 6 0)),
        ("sentiment_score", .num (.fin 5 1)), ("message", .str "bagus")]])
      [("feedbackTableBody", "")] = none
    ∧ updateFeedbackTable sampleHost
      (.arr [.obj [("id", .num (.fin 1 0)), ("rating", .num (.fin 4 0)),
        ("message", .str "bagus")]])
      [("feedbackTableBody", "")] = none
    ∧ loadUsers sampleHost (.resolved ⟨true, some (.obj [("users", .arr [.null])])⟩)
        [("usersTableBody", "")]
      = some [("usersTableBody", errorRow 6)] := by
  refine ⟨rfl, rfl, rfl⟩

/-- C2 (amended): for each of the eight loaders of `admin.js`, an empty list sets the
table body to the single placeholder row and a failed request or parse sets it to
the single error row; `updateFeedbackTable` sets the placeholder row for an empty
list; when a request or parse of `loadFeedbackData` fails, the page, and with it the
feedback table body, is left unchanged. -/
theorem loaders_placeholder_and_error_row (h : Host) (dom : Dom) :
    (∀ (L : Loader) (ok : Bool) (fields : List (String × JVal)),
        fields.lookup L.field = some (.arr []) →
        L.run h (.resolved ⟨ok, some (.obj fields)⟩) dom
          = dom.assign L.tbodyId (placeholderRow L.colspan L.emptyText))
    ∧ (∀ (L : Loader) (r : FetchOutcome), r.data = none →
        L.run h r dom = dom.assign L.tbodyId (errorRow L.colspan))
    ∧ ((dom.getElementById "feedbackTableBody").isSome = true →
        updateFeedbackTable h (.arr []) dom
          = dom.assign "feedbackTableBody" (placeholderRow 8 "Tidak ada data feedback"))
    ∧ (∀ (f : FeedbackFetches) (p : Page),
        (f.stats.data = none ∨ f.sentiment.data = none ∨ f.trend.data = none
          ∨ f.category.data = none ∨ f.recent.data = none) →
        (loadFeedbackData h f p).1 = p) := by
  refine ⟨?_, ?_, ?_, ?_⟩
  · intro L ok fields hf
    rw [Loader.run_eq]
    exact loadTable_of_markup h _ _ _ _ _ _ dom (.obj fields) _ rfl
      (tableMarkup_empty h _ _ _ fields hf)
  · intro L r hr
    rw [Loader.run_eq]
    exact loadTable_of_failure h _ _ _ _ _ r dom (Or.inl hr)
  · intro hp
    obtain ⟨c, hc⟩ := Option.isSome_iff_exists.mp hp
    simp [updateFeedbackTable, hc, JVal.truthy, JVal.get, JVal.isNum, JSNum.ofInt]
    rfl
  · intro f p hfail
    have hnone : awaitAll [f.stats, f.sentiment, f.trend, f.category, f.recent] = none := by
      rcases hfail with h1 | h1 | h1 | h1 | h1
      · exact awaitAll_none_of_mem _ f.stats (by simp) h1
      · exact awaitAll_none_of_mem _ f.sentiment (by simp) h1
      · exact awaitAll_none_of_mem _ f.trend (by simp) h1
      · exact awaitAll_none_of_mem _ f.category (by simp) h1
      · exact awaitAll_none_of_mem _ f.recent (by simp) h1
    simp [loadFeedbackData, hnone]

/-- Witness of C2: `loadLikes` on an empty list and on a rejected request, the
feedback table on an empty list, and `loadFeedbackData` with a rejected request. -/
theorem loaders_placeholder_and_error_row_witness :
    loadLikes sampleHost (.resolved ⟨true, some (.obj [("posts", .arr [])])⟩)
        [("likesTableBody", "")]
      = some [("likesTableBody",
          "<tr><td colspan=\"4\" class=\"loading\">Tidak ada data</td></tr>")]
    ∧ loadLikes sampleHost .rejected [("likesTableBody", "")]
      = some [("likesTableBody",
          "<tr><td colspan=\"4\" class=\"loading\" style=\"color: var(--danger);\">Gagal memuat data</td></tr>")]
    ∧ updateFeedbackTable sampleHost (.arr []) [("feedbackTableBody", "")]
      = some [("feedbackTableBody",
          "<tr><td colspan=\"8\" class=\"loading\">Tidak ada data feedback</td></tr>")]
    ∧ (loadFeedbackData sampleHost
          ⟨sampleSuccess, sampleSuccess, sampleSuccess, sampleSuccess, .rejected⟩
          (samplePage [("feedbackTableBody", "")])).1
      = samplePage [("feedbackTableBody", "")] :=
  ⟨(loaders_placeholder_and_error_row sampleHost [("likesTableBody", "")]).1
      Loader.likes true [("posts", .arr [])] rfl,
    (loaders_placeholder_and_error_row sampleHost [("likesTableBody", "")]).2.1
      Loader.likes .rejected rfl,
    (loaders_placeholder_and_error_row sampleHost [("feedbackTableBody", "")]).2.2.1 rfl,
    (loaders_placeholder_and_error_row sampleHost []).2.2.2 _ _
      (Or.inr (Or.inr (Or.inr (Or.inr rfl))))⟩

/-- Counterexample to C2 as stated: when the request for the recent feedback rows is
rejected, the feedback table body keeps its previous content instead of showing
the error row. -/
theorem feedback_table_unchanged_on_fetch_failure :
    (loadFeedbackData sampleHost
        ⟨sampleSuccess, sampleSuccess, sampleSuccess, sampleSuccess, .rejected⟩
        (samplePage [("feedbackTableBody", "")])).1.dom.getElementById "feedbackTableBody"
      = some ""
    ∧ (loadFeedbackData sampleHost
        ⟨sampleSuccess, sampleSuccess, sampleSuccess, sampleSuccess,
          .resolved ⟨true, none⟩⟩
        (samplePage [("feedbackTableBody", "")])).1.dom.getElementById "feedbackTableBody"
      = some "" := by
  constructor <;> rfl

/-- C3 (amended): for every place where a row template writes `field || fallback`
with fallback `'Unknown'`, `'-'` or `0`, a record that lacks the field is rendered
exactly as if the field held the fallback; the row templates of the eight loaders
of `admin.js` never throw on a record; a missing date renders `-` through
`formatDate` and a missing message renders `-` through `truncateText`. Fields
written without a fallback are not covered. -/
theorem defaulted_fields_render_fallback (h : Host) (fields : List (String × JVal)) :
    (∀ e ∈ defaultedFields, fields.lookup e.2.1 = none →
        e.1 h (.obj fields) = e.1 h (.obj ((e.2.1, e.2.2) :: fields)))
    ∧ (∀ L : Loader, (L.row h (.obj fields)).isSome = true)
    ∧ formatDate h .undefined = "-"
    ∧ truncateText h .undefined 50 = some (.str "-") := by
  refine ⟨?_, ?_, rfl, rfl⟩
  · intro e he hf
    simp only [defaultedFields, List.mem_cons, List.mem_singleton, List.not_mem_nil, or_false] at he
    rcases he with rfl | rfl | rfl | rfl | rfl | rfl | rfl | rfl | rfl | rfl | rfl | rfl | rfl
      | rfl | rfl | rfl | rfl | rfl | rfl | rfl | rfl | rfl <;>
      simp only [] at hf <;>
      simp [postRow, campaignRow, donationRow, commentRow, volunteerRow, notificationRow,
        likeRow, feedbackRow, feedbackRowTemplate, JVal.get, List.lookup, hf, JVal.or,
        JVal.truthy, JSNum.truthy, JVal.isNumber, JVal.toNumber]
  · intro L
    exact L.row_isSome h _ rfl

/-- Witness of C3: a post without `user_name` renders as one whose `user_name` is
`'Unknown'`. -/
theorem defaulted_fields_render_fallback_witness :
    List.lookup "user_name" [("id", JVal.num (.fin 3 0))] = none
    ∧ postRow sampleHost (.obj [("id", .num (.fin 3 0))])
      = postRow sampleHost (.obj [("user_name", .str "Unknown"), ("id", .num (.fin 3 0))]) :=
  ⟨rfl, (defaulted_fields_render_fallback sampleHost [("id", .num (.fin 3 0))]).1
    (postRow, "user_name", .str "Unknown") (by simp [defaultedFields]) rfl⟩

set_option maxRecDepth 100000 in
/-- Counterexample to C3 as stated: a user record without `name`, `email` and `role`
renders the text `undefined` in the three cells. -/
theorem user_row_renders_undefined :
    userRow sampleHost (.obj [("id", .num (.fin 1 0))]) =
      some "\n                <tr>\n                    <td>1</td>\n                    <td>undefined</td>\n                    <td>undefined</td>\n                    <td><span class=\"badge badge-user\">undefined</span></td>\n                    <td>-</td>\n                    <td>\n                        <button class=\"btn btn-sm btn-secondary\" onclick=\"updateUserRole(1, 'user')\">Ubah Role</button>\n                        <button class=\"btn btn-sm btn-danger\" onclick=\"deleteUser(1)\">Hapus</button>\n                    </td>\n                </tr>\n            " := by
  rfl

/-- C4: `updateUserRole` with a prompted value that is neither `'user'` nor `'admin'`
(a cancelled prompt is `none`, an empty one is `""`) issues no request and calls
no loader, so the user list is not reloaded. -/
theorem updateUserRole_invalid_role_no_request (h : Host) (id currentRole : JVal)
    (role : Option String) (confirmed : Bool) (res : FetchOutcome)
    (hu : role ≠ some "user") (ha : role ≠ some "admin") :
    (updateUserRole h id currentRole role confirmed res).filter Effect.isFetch = []
      ∧ (updateUserRole h id currentRole role confirmed res).filter Effect.isAnyCall = [] := by
  cases role with
  | none => simp [updateUserRole, Effect.isAnyCall]
  | some r =>
    have h1 : r ≠ "user" := fun hr => hu (by rw [hr])
    have h2 : r ≠ "admin" := fun hr => ha (by rw [hr])
    by_cases he : r = ""
    · simp [updateUserRole, he, Effect.isAnyCall]
    · simp [updateUserRole, he, h1, h2, Effect.isAnyCall]

/-- Witness of C4: the prompted value `Admin`, then a cancelled prompt. -/
theorem updateUserRole_invalid_role_no_request_witness :
    ((some "Admin" ≠ some "user" ∧ some "Admin" ≠ some "admin")
      ∧ (updateUserRole sampleHost (.num (.fin 7 0)) (.str "user") (some "Admin") true
          sampleSuccess).filter Effect.isFetch = []
      ∧ (updateUserRole sampleHost (.num (.fin 7 0)) (.str "user") (some "Admin") true
          sampleSuccess).filter Effect.isAnyCall = [])
    ∧ ((updateUserRole sampleHost (.num (.fin 7 0)) (.str "user") none true
          sampleSuccess).filter Effect.isFetch = []
      ∧ (updateUserRole sampleHost (.num (.fin 7 0)) (.str "user") none true
          sampleSuccess).filter Effect.isAnyCall = []) :=
  ⟨⟨⟨by decide, by decide⟩,
      updateUserRole_invalid_role_no_request sampleHost (.num (.fin 7 0)) (.str "user")
        (some "Admin") true sampleSuccess (by decide) (by decide)⟩,
    updateUserRole_invalid_role_no_request sampleHost (.num (.fin 7 0)) (.str "user")
      none true sampleSuccess (by decide) (by decide)⟩

/-- C5 (amended): `updateUserRole` with current role `'user'`, prompted value
`'admin'` and a confirmed dialog sends exactly one request, a PATCH to
`/admin/users/{id}` with body `{role: 'admin'}`; when the response has status
`'success'`, `loadUsers` is called exactly once and no alert is shown; when the
user declines the dialog, nothing follows the dialog. -/
theorem updateUserRole_admin_confirmed (h : Host) (id : JVal) :
    (∀ res : FetchOutcome,
      (updateUserRole h id (.str "user") (some "admin") true res).filter Effect.isFetch =
        [Effect.fetch ("/admin/users/" ++ JVal.toStr h id) "PATCH"
          (some (.obj [("role", .str "admin")]))])
    ∧ (∀ (r : Response) (data : JVal), r.json = some data →
        data.get "status" = some (.str "success") →
        updateUserRole h id (.str "user") (some "admin") true (.resolved r) =
          [Effect.prompt "Role (user/admin):" (.str "user"),
           Effect.confirm ("Yakin ubah role user #" ++ JVal.toStr h id ++ " menjadi admin?"),
           Effect.fetch ("/admin/users/" ++ JVal.toStr h id) "PATCH"
             (some (.obj [("role", .str "admin")])),
           Effect.call "loadUsers"])
    ∧ (∀ res : FetchOutcome,
        updateUserRole h id (.str "user") (some "admin") false res =
          [Effect.prompt "Role (user/admin):" (.str "user"),
           Effect.confirm ("Yakin ubah role user #" ++ JVal.toStr h id ++ " menjadi admin?")]) := by
  have hq : "Yakin ubah role user #" ++ JVal.toStr h id ++ " menjadi " ++ "admin" ++ "?"
      = "Yakin ubah role user #" ++ JVal.toStr h id ++ " menjadi admin?" := by
    rw [String.append_assoc, String.append_assoc]
    rfl
  refine ⟨?_, ?_, ?_⟩
  · intro res
    simp [updateUserRole, patchAndReload, List.filter_cons]
  · intro r data hj hs
    have hm : ∃ m, data.get "message" = some m := by
      cases data <;> simp [JVal.get] at hs ⊢
    obtain ⟨m, hm⟩ := hm
    simp [updateUserRole, patchAndReload, afterRequest, FetchOutcome.data, hj, hs, hm,
      JVal.isStr, hq]
  · intro res
    simp [updateUserRole, hq]

/-- Witness of C5: user 7, a response `{status: 'success'}`. -/
theorem updateUserRole_admin_confirmed_witness :
    updateUserRole sampleHost (.num (.fin 7 0)) (.str "user") (some "admin") true sampleSuccess =
      [Effect.prompt "Role (user/admin):" (.str "user"),
       Effect.confirm "Yakin ubah role user #7 menjadi admin?",
       Effect.fetch "/admin/users/7" "PATCH" (some (.obj [("role", .str "admin")])),
       Effect.call "loadUsers"] :=
  (updateUserRole_admin_confirmed sampleHost (.num (.fin 7 0))).2.1
    ⟨true, some (.obj [("status", .str "success")])⟩ _ rfl rfl

/-- Counterexample to C5 as stated: with current role `'user'` and prompted value
`'admin'`, a user who declines the confirmation dialog causes no request. -/
theorem updateUserRole_declined_no_request :
    (updateUserRole sampleHost (.num (.fin 7 0)) (.str "user") (some "admin") false
      sampleSuccess).filter Effect.isFetch = [] := by
  rfl

/-- C6 (amended): `updateVolunteer` with a non-empty status answer and an hours
answer that `Number` converts to NaN or to a negative number: the effects are the
two prompts and the one alert `'Jam kontribusi tidak valid'`, so no PATCH is sent
and no list is reloaded. Every answer that starts with a letter other than `I`
(such as `"abc"`) is of the first kind, and every answer made of a minus sign and
digits, the first of them not `0` (such as `"-5"`), is of the second. -/
theorem updateVolunteer_invalid_hours (h : Host) (id currentStatus currentHours : JVal)
    (s : String) (res : FetchOutcome) (hs : s ≠ "") :
    (∀ t : String,
        (stringToNumber t).isNaN = true ∨ (stringToNumber t).isNegative = true →
        updateVolunteer h id currentStatus currentHours (some s) (some t) res
          = refusedHoursTrace h currentStatus currentHours)
    ∧ (∀ (c : Char) (rest : List Char), isAsciiLetter c = true → c ≠ 'I' →
        updateVolunteer h id currentStatus currentHours (some s)
            (some (String.mk (c :: rest))) res
          = refusedHoursTrace h currentStatus currentHours)
    ∧ (∀ (d : Char) (ds : List Char), isNonZeroDigit d = true →
        ds.all Char.isDigit = true →
        updateVolunteer h id currentStatus currentHours (some s)
            (some (String.mk ('-' :: d :: ds))) res
          = refusedHoursTrace h currentStatus currentHours)
    ∧ (refusedHoursTrace h currentStatus currentHours).filter Effect.isFetch = []
    ∧ (refusedHoursTrace h currentStatus currentHours).filter Effect.isAnyCall = []
    ∧ (refusedHoursTrace h currentStatus currentHours).filter Effect.isAlert
        = [Effect.alert "Jam kontribusi tidak valid"] := by
  have hguard : ∀ t : String,
      (stringToNumber t).isNaN = true ∨ (stringToNumber t).isNegative = true →
      updateVolunteer h id currentStatus currentHours (some s) (some t) res
        = refusedHoursTrace h currentStatus currentHours := by
    intro t ht
    have : ((stringToNumber t).isNaN || (stringToNumber t).isNegative) = true := by
      rcases ht with ht | ht <;> simp [ht]
    simp [updateVolunteer, refusedHoursTrace, hs, this]
  refine ⟨hguard, ?_, ?_, rfl, rfl, rfl⟩
  · intro c rest hc hI
    exact hguard _ (Or.inl (by rw [stringToNumber_letter c rest hc hI]; rfl))
  · intro d ds hd hds
    exact hguard _ (Or.inr (stringToNumber_minus_digits d ds hd hds))

/-- Witness of C6: the answers `"abc"` and `"-5"`. -/
theorem updateVolunteer_invalid_hours_witness :
    updateVolunteer sampleHost (.num (.fin 7 0)) (.str "applied") (.num (.fin 0 0))
        (some "accepted") (some "abc") sampleSuccess =
      [Effect.prompt "Update status relawan (applied/accepted/rejected/completed):"
         (.str "applied"),
       Effect.prompt "Update jam kontribusi (angka):" (.str "0"),
       Effect.alert "Jam kontribusi tidak valid"]
    ∧ updateVolunteer sampleHost (.num (.fin 7 0)) (.str "applied") (.num (.fin 0 0))
        (some "accepted") (some "-5") sampleSuccess =
      [Effect.prompt "Update status relawan (applied/accepted/rejected/completed):"
         (.str "applied"),
       Effect.prompt "Update jam kontribusi (angka):" (.str "0"),
       Effect.alert "Jam kontribusi tidak valid"] :=
  ⟨(updateVolunteer_invalid_hours sampleHost (.num (.fin 7 0)) (.str "applied")
      (.num (.fin 0 0)) "accepted" sampleSuccess (by decide)).2.1 'a' ['b', 'c']
      (by decide) (by decide),
    (updateVolunteer_invalid_hours sampleHost (.num (.fin 7 0)) (.str "applied")
      (.num (.fin 0 0)) "accepted" sampleSuccess (by decide)).2.2.1 '5' []
      (by decide) (by decide)⟩

/-- Counterexample to C6 as stated: the empty answer and a blank answer are not
numbers, yet `Number` converts them to 0, the check lets them through, and the
PATCH is sent with `hours_contributed: 0`. -/
theorem updateVolunteer_blank_hours_accepted :
    updateVolunteer sampleHost (.num (.fin 7 0)) (.str "applied") (.num (.fin 0 0))
        (some "accepted") (some "") sampleSuccess =
      [Effect.prompt "Update status relawan (applied/accepted/rejected/completed):"
         (.str "applied"),
       Effect.prompt "Update jam kontribusi (angka):" (.str "0"),
       Effect.fetch "/admin/volunteers/7" "PATCH"
         (some (.obj [("volunteer_status", .str "accepted"),
           ("hours_contributed", .num (.fin 0 0))])),
       Effect.call "loadVolunteers"]
    ∧ (updateVolunteer sampleHost (.num (.fin 7 0)) (.str "applied") (.num (.fin 0 0))
        (some "accepted") (some "   ") sampleSuccess).filter Effect.isFetch =
      [Effect.fetch "/admin/volunteers/7" "PATCH"
         (some (.obj [("volunteer_status", .str "accepted"),
           ("hours_contributed", .num (.fin 0 0))]))] := by
  constructor <;> rfl

/-- C7: `updateVolunteer` with a non-empty status answer `s` and an hours input whose
numeric value `Number(hoursStr)` is a number that is not negative sends exactly one
request, a PATCH to `/admin/volunteers/{id}` whose body is
`{volunteer_status: s, hours_contributed: h}` with `h` that numeric value. -/
theorem updateVolunteer_valid_hours_patch (h : Host) (id currentStatus currentHours : JVal)
    (s t : String) (res : FetchOutcome) (hs : s ≠ "")
    (hn : (stringToNumber t).isNaN = false) (hneg : (stringToNumber t).isNegative = false) :
    (updateVolunteer h id currentStatus currentHours (some s) (some t) res).filter
        Effect.isFetch =
      [Effect.fetch ("/admin/volunteers/" ++ JVal.toStr h id) "PATCH"
        (some (.obj [("volunteer_status", .str s),
          ("hours_contributed", .num (stringToNumber t))]))] := by
  simp [updateVolunteer, hs, hn, hneg, patchAndReload, List.filter_cons]

/-- Witness of C7: the input `"12.5"` gives `hours_contributed: 12.5`, that is
`125 / 10 ^ 1`. -/
theorem updateVolunteer_valid_hours_patch_witness :
    ("accepted" ≠ "" ∧ stringToNumber "12.5" = JSNum.fin 125 1)
    ∧ (updateVolunteer sampleHost (.num (.fin 7 0)) (.str "applied") (.num (.fin 0 0))
        (some "accepted") (some "12.5") sampleSuccess).filter Effect.isFetch =
      [Effect.fetch "/admin/volunteers/7" "PATCH"
        (some (.obj [("volunteer_status", .str "accepted"),
          ("hours_contributed", .num (.fin 125 1))]))] :=
  ⟨⟨by decide, by decide⟩,
    updateVolunteer_valid_hours_patch sampleHost (.num (.fin 7 0)) (.str "applied")
      (.num (.fin 0 0)) "accepted" "12.5" sampleSuccess (by decide) (by decide) (by decide)⟩

/-- C8 (code at the failing input): `updateVolunteer` with the status answer `bogus`,
which is outside `applied/accepted/rejected/completed`, and the hours input `3`
sends the PATCH with `volunteer_status: 'bogus'` and reloads the list, whereas
`updateCampaignStatus` answers the same value with the alert `'Status tidak valid'`
and no request. -/
theorem updateVolunteer_status_not_validated :
    updateVolunteer sampleHost (.num (.fin 7 0)) (.str "applied") (.num (.fin 0 0))
        (some "bogus") (some "3") sampleSuccess =
      [Effect.prompt "Update status relawan (applied/accepted/rejected/completed):"
         (.str "applied"),
       Effect.prompt "Update jam kontribusi (angka):" (.str "0"),
       Effect.fetch "/admin/volunteers/7" "PATCH"
         (some (.obj [("volunteer_status", .str "bogus"),
           ("hours_contributed", .num (.fin 3 0))])),
       Effect.call "loadVolunteers"]
    ∧ updateCampaignStatus sampleHost (.num (.fin 7 0)) (.str "active") (some "bogus")
        sampleSuccess =
      [Effect.prompt "Status kampanye (active/completed/cancelled):" (.str "active"),
       Effect.alert "Status tidak valid"] := by
  constructor <;> rfl

/-- C9: when any one of the seven statistics requests of `loadDashboard` is rejected,
the page is left as it was, so none of the seven counters is updated, and no other
function is called, neither `loadRecentActivity` nor `loadMonthlyStats`. -/
theorem loadDashboard_all_or_nothing (h : Host) (f : DashboardFetches) (dom : Dom)
    (hrej : f.users = .rejected ∨ f.posts = .rejected ∨ f.campaigns = .rejected ∨
      f.donations = .rejected ∨ f.comments = .rejected ∨ f.volunteers = .rejected ∨
      f.notifUnread = .rejected) :
    (loadDashboard h f dom).1 = dom
      ∧ (loadDashboard h f dom).2.filter Effect.isAnyCall = [] := by
  have hnone : awaitAll [f.users, f.posts, f.campaigns, f.donations, f.comments, f.volunteers,
      f.notifUnread] = none := by
    rcases hrej with h1 | h1 | h1 | h1 | h1 | h1 | h1
    · exact awaitAll_none_of_mem _ f.users (by simp) (by rw [h1]; rfl)
    · exact awaitAll_none_of_mem _ f.posts (by simp) (by rw [h1]; rfl)
    · exact awaitAll_none_of_mem _ f.campaigns (by simp) (by rw [h1]; rfl)
    · exact awaitAll_none_of_mem _ f.donations (by simp) (by rw [h1]; rfl)
    · exact awaitAll_none_of_mem _ f.comments (by simp) (by rw [h1]; rfl)
    · exact awaitAll_none_of_mem _ f.volunteers (by simp) (by rw [h1]; rfl)
    · exact awaitAll_none_of_mem _ f.notifUnread (by simp) (by rw [h1]; rfl)
  simp [loadDashboard, hnone, getRequest, Effect.isAnyCall]

/-- Witness of C9: six responses arrive and the request for the volunteer count is
rejected; the counters keep their content. -/
theorem loadDashboard_all_or_nothing_witness :
    (loadDashboard sampleHost
        ⟨sampleStats, sampleStats, sampleStats, sampleStats, sampleStats, .rejected, sampleStats⟩
        [("totalUsers", "-"), ("totalPosts", "-"), ("totalCampaigns", "-"),
          ("totalDonations", "-")]).1
      = [("totalUsers", "-"), ("totalPosts", "-"), ("totalCampaigns", "-"),
          ("totalDonations", "-")]
    ∧ (loadDashboard sampleHost
        ⟨sampleStats, sampleStats, sampleStats, sampleStats, sampleStats, .rejected, sampleStats⟩
        [("totalUsers", "-"), ("totalPosts", "-"), ("totalCampaigns", "-"),
          ("totalDonations", "-")]).2.filter Effect.isAnyCall = [] :=
  loadDashboard_all_or_nothing sampleHost _ _
    (Or.inr (Or.inr (Or.inr (Or.inr (Or.inr (Or.inl rfl))))))

/-- C10: `truncateText(text, 50)`, the characters of a message being counted as
`length` and `substring` count them, in UTF-16 code units: on a message longer
than 50 it gives the first 50 code units followed by `...`, of length 53 (these
are the characters from the start of the message, with the stand-in at the end
when the cut falls inside a surrogate pair); on a non-empty message of at most
50, so also of exactly 50, it gives the message unchanged. In a message of
characters of the Basic Multilingual Plane the code units are the characters. -/
theorem truncateText_fifty (h : Host) (s : String) :
    (50 < utf16Length s →
      truncateText h (.str s) 50 = some (.str (substring s 0 50 ++ "..."))
        ∧ utf16Length (substring s 0 50) = 50
        ∧ utf16Length (substring s 0 50 ++ "...") = 53
        ∧ ∃ pre, pre <+: s.data
            ∧ ((substring s 0 50).data = pre
              ∨ (substring s 0 50).data = pre ++ [unpairedSurrogate]))
    ∧ (s ≠ "" → utf16Length s ≤ 50 → truncateText h (.str s) 50 = some (.str s))
    ∧ ((∀ c ∈ s.data, c.toNat < 0x10000) →
        utf16Length s = s.length ∧ substring s 0 50 = String.mk (s.data.take 50)) := by
  have hsub : substring s 0 50 = String.mk (takeUnits 50 s.data) := rfl
  refine ⟨?_, ?_, ?_⟩
  · intro hlen
    have hne : s ≠ "" := by
      intro h0
      rw [(utf16Length_eq_zero_iff s).mpr h0] at hlen
      omega
    have h50 : utf16Length (substring s 0 50) = 50 := by
      rw [hsub]
      have := takeUnits_units 50 s.data
      have hl : 50 < (s.data.map utf16Size).sum := hlen
      simp only [utf16Length]
      omega
    refine ⟨?_, h50, ?_, ?_⟩
    · simp [truncateText, JVal.truthy, JVal.get, JVal.gt, JVal.toNumber, JSNum.lt, JSNum.ofInt,
        hne, hlen]
    · rw [utf16Length_append, h50]
      rfl
    · rw [hsub]
      exact takeUnits_prefix 50 s.data
  · intro hne hlen
    simp [truncateText, JVal.truthy, JVal.get, JVal.gt, JVal.toNumber, JSNum.lt, JSNum.ofInt, hne]
    intro h1
    omega
  · intro hbmp
    have := takeUnits_of_bmp 50 s.data hbmp
    exact ⟨this.2, by rw [hsub, this.1]⟩

/-- Witness of C10: a message of 51 characters, a message of exactly 50, and a
message of 26 emoji, which are 52 code units. -/
theorem truncateText_fifty_witness :
    (50 < utf16Length "Aplikasi ini sangat membantu kegiatan relawan kami!"
      ∧ utf16Length "Aplikasi ini sangat membantu kegiatan relawan kami" ≤ 50
      ∧ "Aplikasi ini sangat membantu kegiatan relawan kami" ≠ ""
      ∧ utf16Length "😀😀😀😀😀😀😀😀😀😀😀😀😀😀😀😀😀😀😀😀😀😀😀😀😀😀" = 52)
    ∧ truncateText sampleHost (.str "Aplikasi ini sangat membantu kegiatan relawan kami!") 50
      = some (.str "Aplikasi ini sangat membantu kegiatan relawan kami...")
    ∧ truncateText sampleHost (.str "Aplikasi ini sangat membantu kegiatan relawan kami") 50
      = some (.str "Aplikasi ini sangat membantu kegiatan relawan kami")
    ∧ truncateText sampleHost (.str "😀😀😀😀😀😀😀😀😀😀😀😀😀😀😀😀😀😀😀😀😀😀😀😀😀😀") 50
      = some (.str "😀😀😀😀😀😀😀😀😀😀😀😀😀😀😀😀😀😀😀😀😀😀😀😀😀...") :=
  ⟨⟨by decide, by decide, by decide, by decide⟩,
    ((truncateText_fifty sampleHost
      "Aplikasi ini sangat membantu kegiatan relawan kami!").1 (by decide)).1,
    (truncateText_fifty sampleHost
      "Aplikasi ini sangat membantu kegiatan relawan kami").2.1 (by decide) (by decide),
    ((truncateText_fifty sampleHost
      "😀😀😀😀😀😀😀😀😀😀😀😀😀😀😀😀😀😀😀😀😀😀😀😀😀😀").1 (by decide)).1⟩

/-! ## Lemmas on effects and handlers -/

@[simp] theorem Effect.isFetch_navigate (u : String) : (Effect.navigate u).isFetch = false := rfl

@[simp] theorem Effect.isAlert_prompt (m : String) (d : JVal) :
    (Effect.prompt m d).isAlert = false := rfl

@[simp] theorem Effect.isAlert_confirm (m : String) : (Effect.confirm m).isAlert = false := rfl

@[simp] theorem Effect.isAlert_alert (m : String) : (Effect.alert m).isAlert = true := rfl

@[simp] theorem Effect.isAlert_fetch (u m : String) (b : Option JVal) :
    (Effect.fetch u m b).isAlert = false := rfl

@[simp] theorem Effect.isAlert_call (f : String) : (Effect.call f).isAlert = false := rfl

@[simp] theorem Effect.isAlert_consoleError : Effect.consoleError.isAlert = false := rfl

@[simp] theorem Effect.isAlert_navigate (u : String) : (Effect.navigate u).isAlert = false := rfl

@[simp] theorem Effect.isAnyCall_prompt (m : String) (d : JVal) :
    (Effect.prompt m d).isAnyCall = false := rfl

@[simp] theorem Effect.isAnyCall_confirm (m : String) : (Effect.confirm m).isAnyCall = false := rfl

@[simp] theorem Effect.isAnyCall_alert (m : String) : (Effect.alert m).isAnyCall = false := rfl

@[simp] theorem Effect.isAnyCall_fetch (u m : String) (b : Option JVal) :
    (Effect.fetch u m b).isAnyCall = false := rfl

@[simp] theorem Effect.isAnyCall_call (f : String) : (Effect.call f).isAnyCall = true := rfl

@[simp] theorem Effect.isAnyCall_consoleError : Effect.consoleError.isAnyCall = false := rfl

@[simp] theorem Effect.isAnyCall_navigate (u : String) :
    (Effect.navigate u).isAnyCall = false := rfl

@[simp] theorem Effect.isNavigate_fetch (u m : String) (b : Option JVal) :
    (Effect.fetch u m b).isNavigate = false := rfl

@[simp] theorem Effect.isNavigate_call (f : String) : (Effect.call f).isNavigate = false := rfl

@[simp] theorem Effect.isNavigate_consoleError : Effect.consoleError.isNavigate = false := rfl

@[simp] theorem Effect.isNavigate_navigate (u : String) :
    (Effect.navigate u).isNavigate = true := rfl

/-- After a response with status `success` the loader is called and nothing else
happens. -/
theorem afterRequest_success (h : Host) (loader failMessage : String) (res : FetchOutcome)
    (hs : res.isSuccess = true) : afterRequest h loader failMessage res = [Effect.call loader] := by
  unfold FetchOutcome.isSuccess at hs
  unfold afterRequest
  cases hd : res.data with
  | none => simp [hd] at hs
  | some data =>
    simp only [hd] at hs ⊢
    cases hst : data.get "status" with
    | none => simp [hst] at hs
    | some st =>
      have hm : ∃ m, data.get "message" = some m := by
        cases data <;> simp [JVal.get] at hst ⊢
      obtain ⟨m, hm⟩ := hm
      simp only [hst] at hs
      simp [hm, hs]

/-- After any other outcome there is exactly one alert and no call. -/
theorem afterRequest_failure (h : Host) (loader failMessage : String) (res : FetchOutcome)
    (hs : res.isSuccess = false) :
    ((afterRequest h loader failMessage res).filter Effect.isAlert).length = 1
      ∧ (afterRequest h loader failMessage res).filter Effect.isAnyCall = [] := by
  unfold FetchOutcome.isSuccess at hs
  unfold afterRequest
  cases hd : res.data with
  | none => simp
  | some data =>
    simp only [hd] at hs ⊢
    cases hst : data.get "status" with
    | none => simp
    | some st =>
      simp only [hst] at hs
      cases hm : data.get "message" with
      | none => simp
      | some m => simp [hs]

/-- The success case of `deletePost`. -/
theorem afterDeletePost_success (res : FetchOutcome) (hs : res.isSuccess = true) :
    afterDeletePost res = [Effect.call "loadPosts"] := by
  unfold FetchOutcome.isSuccess at hs
  unfold afterDeletePost
  cases hd : res.data with
  | none => simp [hd] at hs
  | some data =>
    simp only [hd] at hs ⊢
    cases hst : data.get "status" with
    | none => simp [hst] at hs
    | some st =>
      simp only [hst] at hs
      simp [hs]

/-- The failure case of `deletePost`. -/
theorem afterDeletePost_failure (res : FetchOutcome) (hs : res.isSuccess = false) :
    ((afterDeletePost res).filter Effect.isAlert).length = 1
      ∧ (afterDeletePost res).filter Effect.isAnyCall = [] := by
  unfold FetchOutcome.isSuccess at hs
  unfold afterDeletePost
  cases hd : res.data with
  | none => simp
  | some data =>
    simp only [hd] at hs ⊢
    cases hst : data.get "status" with
    | none => simp
    | some st =>
      simp only [hst] at hs
      simp [hs]

/-- Nothing after the request of `deletePost` is itself a request. -/
@[simp] theorem afterDeletePost_no_fetch (res : FetchOutcome) :
    (afterDeletePost res).filter Effect.isFetch = [] := by
  unfold afterDeletePost
  split
  · rfl
  · split
    · split <;> rfl
    · rfl

/-! ## Lemmas on the section router -/

/-- Looking up an id after a change of every element that keeps the ids. -/
theorem Document.getElementById_map (f : Element → Element) (hf : ∀ e, (f e).id = e.id)
    (doc : Document) (id : String) :
    Document.getElementById (doc.map f) id = (doc.getElementById id).map f := by
  induction doc with
  | nil => rfl
  | cons e es ih =>
    unfold Document.getElementById at ih ⊢
    by_cases he : e.id = some id
    · simp [List.find?, hf, he]
    · simp [List.find?, hf, he, ih]

/-- Looking up an id after a change of the first element with some id that keeps
the ids: the element is there exactly when it was. -/
theorem Document.getElementById_updateFirst_isSome (target : String) (f : Element → Element)
    (hf : ∀ e, (f e).id = e.id) (doc : Document) (id : String) :
    (Document.getElementById (Document.updateFirst target f doc) id).isSome
      = (doc.getElementById id).isSome := by
  induction doc with
  | nil => rfl
  | cons e es ih =>
    unfold Document.getElementById at ih ⊢
    by_cases ht : e.id = some target
    · simp only [Document.updateFirst, if_pos ht, List.find?_cons, hf]
      cases decide (e.id = some id) <;> rfl
    · simp only [Document.updateFirst, if_neg ht, List.find?_cons]
      cases decide (e.id = some id)
      · exact ih
      · rfl

/-- The element found under the id whose first element was changed is the changed
one. -/
theorem Document.getElementById_updateFirst_self (target : String) (f : Element → Element)
    (hf : ∀ e, (f e).id = e.id) (doc : Document) :
    Document.getElementById (Document.updateFirst target f doc) target
      = (doc.getElementById target).map f := by
  induction doc with
  | nil => rfl
  | cons e es ih =>
    unfold Document.getElementById at ih ⊢
    by_cases ht : e.id = some target
    · have h1 : decide ((f e).id = some target) = true := by simp [hf, ht]
      have h2 : decide (e.id = some target) = true := by simp [ht]
      rw [Document.updateFirst, if_pos ht]
      simp only [List.find?_cons, h1, h2, Option.map_some']
    · have h2 : decide (e.id = some target) = false := by simp [ht]
      rw [Document.updateFirst, if_neg ht]
      simp only [List.find?_cons, h2]
      exact ih

/-- The two loops of `switchSection` keep every id. -/
theorem clearActive_getElementById_isSome (key : JVal) (doc : Document) (id : String) :
    (Document.getElementById (clearActive key doc) id).isSome
      = (doc.getElementById id).isSome := by
  unfold clearActive
  rw [Document.getElementById_map _ (by intro e; split <;> rfl),
    Document.getElementById_map _ (by intro e; split <;> rfl)]
  simp

/-- The two loops of `switchSection` keep every text. -/
theorem clearActive_text (key : JVal) (doc : Document) :
    (clearActive key doc).map Element.text = doc.map Element.text := by
  unfold clearActive
  simp only [List.map_map]
  apply List.map_congr_left
  intro e _
  simp only [Function.comp]
  split <;> split <;> rfl

/-- A key outside the title table is not `feedback` and has no loader. -/
theorem unknown_key (s : String) (hkey : titles.lookup s = none) :
    s ≠ "feedback" ∧ sectionLoaders.lookup s = none := by
  have hmem : ∀ (l : List (String × String)) (k : String),
      l.lookup k = none → ∀ p ∈ l, p.1 ≠ k := by
    intro l k
    induction l with
    | nil => intro _ p hp; cases hp
    | cons q qs ih =>
      intro hl p hp
      rw [show q :: qs = (q.1, q.2) :: qs from rfl, List.lookup_cons] at hl
      cases hq : (k == q.1) with
      | true => rw [hq] at hl; cases hl
      | false =>
        rw [hq] at hl
        rcases List.mem_cons.mp hp with rfl | hp1
        · intro hk
          rw [hk] at hq
          simp at hq
        · exact ih hl p hp1
  have hnone : ∀ (l : List (String × String)) (k : String),
      (∀ p ∈ l, p.1 ≠ k) → l.lookup k = none := by
    intro l k
    induction l with
    | nil => intro _; rfl
    | cons q qs ih =>
      intro hall
      rw [show q :: qs = (q.1, q.2) :: qs from rfl, List.lookup_cons]
      have hq : (k == q.1) = false := by
        simpa [beq_eq_false_iff_ne] using fun hh => hall q (List.mem_cons_self _ _) hh.symm
      rw [hq]
      exact ih fun p hp => hall p (List.mem_cons_of_mem _ hp)
  have hall := hmem titles s hkey
  constructor
  · intro hs
    exact hall ("feedback", "Kelola Feedback & Analisis Sentimen") (by simp [titles]) hs.symm
  · apply hnone
    intro p hp hk
    simp only [sectionLoaders, List.mem_cons, List.mem_singleton, List.not_mem_nil,
      or_false] at hp
    rcases hp with rfl | rfl | rfl | rfl | rfl | rfl | rfl | rfl | rfl
    · exact hall ("dashboard", "Dashboard") (by simp [titles]) hk
    · exact hall ("users", "Manajemen Pengguna") (by simp [titles]) hk
    · exact hall ("posts", "Manajemen Postingan") (by simp [titles]) hk
    · exact hall ("campaigns", "Manajemen Kampanye") (by simp [titles]) hk
    · exact hall ("donations", "Manajemen Donasi") (by simp [titles]) hk
    · exact hall ("comments", "Manajemen Komentar") (by simp [titles]) hk
    · exact hall ("volunteers", "Manajemen Relawan") (by simp [titles]) hk
    · exact hall ("notifications", "Manajemen Notifikasi") (by simp [titles]) hk
    · exact hall ("likes", "Analitik Likes") (by simp [titles]) hk

/-! ## Claims C11 to C20 -/

set_option maxRecDepth 100000 in
/-- C11 (code at the failing input): the row `updateFeedbackTable` renders for a
feedback record whose message is `<img src=x onerror=alert(1)>` escapes the message
in the `title` attribute only; the content of the message cell is the message
itself, with `<` and `>` as they came. -/
theorem feedback_message_cell_not_escaped :
    feedbackRow sampleHost sampleMarkupFeedback
      = some ("\n            <tr>\n                <td>1</td>\n"
          ++ "                <td>Sari</td>\n"
          ++ "                <td><span class=\"badge badge-info\">app</span></td>\n"
          ++ "                <td><span style=\"color: #f59e0b;\">★★★★☆</span></td>\n"
          ++ "                <td class=\"text-truncate\" "
          ++ "title=\"&lt;img src=x onerror=alert(1)&gt;\">"
          ++ "<img src=x onerror=alert(1)></td>\n"
          ++ "                <td><span class=\"badge badge-danger\">😟 Negatif</span></td>\n"
          ++ "                <td>\n                    <span class=\"badge badge-success\">\n"
          ++ "                        +0.50\n                    </span>\n"
          ++ "                </td>\n                <td>5 Nov 2026</td>\n"
          ++ "            </tr>\n        ") := by
  rfl

/-- Setting the active class of the first element with an id keeps every element
findable. -/
theorem Document.getElementById_activate_isSome (target : String) (doc : Document)
    (id : String) :
    (Document.getElementById
        (Document.updateFirst target (fun e => { e with active := true }) doc) id).isSome
      = (doc.getElementById id).isSome := by
  apply Document.getElementById_updateFirst_isSome
  intro _
  rfl

/-- Setting the text of the first element with an id keeps every element findable. -/
theorem Document.getElementById_setText_isSome (target text : String) (doc : Document)
    (id : String) :
    (Document.getElementById
        (Document.updateFirst target (fun e => { e with text := text }) doc) id).isSome
      = (doc.getElementById id).isSome := by
  apply Document.getElementById_updateFirst_isSome
  intro _
  rfl

/-- After its text is set, the first element with the id carries the text. -/
theorem Document.getElementById_setText_self (target text : String) (doc : Document) :
    Document.getElementById
        (Document.updateFirst target (fun e => { e with text := text }) doc) target
      = (doc.getElementById target).map (fun e => { e with text := text }) := by
  apply Document.getElementById_updateFirst_self
  intro _
  rfl

/-- Without the target section, `switchSection` only runs its two loops. -/
theorem switchSection_without_target (h : Host) (g : Globals) (key : JVal) (doc : Document)
    (ht : doc.getElementById (JVal.toStr h key ++ "-section") = none) :
    switchSection h g key doc = ((clearActive key doc, []), true) := by
  have h1 : Document.getElementById (clearActive key doc) (JVal.toStr h key ++ "-section")
      = none := by
    have := clearActive_getElementById_isSome key doc (JVal.toStr h key ++ "-section")
    rw [ht] at this
    exact Option.not_isSome_iff_eq_none.mp (by rw [this]; simp)
  simp only [switchSection, h1]

/-- The page `switchSection` leaves has the elements the page had. -/
theorem switchedDocument_getElementById_isSome (h : Host) (key : JVal) (doc : Document)
    (id : String) :
    (Document.getElementById (switchedDocument h key doc) id).isSome
      = (doc.getElementById id).isSome := by
  unfold switchedDocument
  rw [Document.getElementById_setText_isSome, Document.getElementById_activate_isSome,
    clearActive_getElementById_isSome]

/-- With the target section and the title element, `switchSection` activates the
section, sets the title and calls `loadSectionData`. -/
theorem switchSection_with_target (h : Host) (g : Globals) (key : JVal) (doc : Document)
    (binding : LoadBinding)
    (ht : (doc.getElementById (JVal.toStr h key ++ "-section")).isSome = true)
    (hp : (doc.getElementById "pageTitle").isSome = true)
    (hg : g.loadSectionData = some binding) :
    switchSection h g key doc = ((switchedDocument h key doc, binding.call g key), true) := by
  have h1 : (Document.getElementById (clearActive key doc)
      (JVal.toStr h key ++ "-section")).isSome = true := by
    rw [clearActive_getElementById_isSome]; exact ht
  obtain ⟨e1, he1⟩ := Option.isSome_iff_exists.mp h1
  have h2 : (Document.getElementById
      (Document.updateFirst (JVal.toStr h key ++ "-section")
        (fun e => { e with active := true }) (clearActive key doc)) "pageTitle").isSome
      = true := by
    rw [Document.getElementById_activate_isSome, clearActive_getElementById_isSome]
    exact hp
  obtain ⟨e2, he2⟩ := Option.isSome_iff_exists.mp h2
  simp only [switchSection, he1, he2, hg, switchedDocument]

/-- A key outside the title table reaches no loader through `loadSectionData`. -/
theorem LoadBinding.call_unknown (g : Globals) (binding : LoadBinding) (s : String)
    (hkey : titles.lookup s = none) : binding.call g (.str s) = [] := by
  obtain ⟨hf, hl⟩ := unknown_key s hkey
  induction binding with
  | admin => simp [LoadBinding.call, loadSectionData, hf, hl]
  | hook original ih => simp [LoadBinding.call, JVal.isStr, hf, ih]
  | hookAlone => simp [LoadBinding.call, JVal.isStr, hf]

/-- C14 (amended): for every section key outside the ten keys of the title table, no
loader is invoked, whichever binding of `switchSection` is called; when the page
has no element `<key>-section`, `switchSection` only clears the active classes and
leaves every text, the page title included, as it was; when the element and the
title element exist, and the key is not a name every object inherits (such as
`constructor`), the page title is set to the default `Dashboard`. -/
theorem switchSection_unknown_key (h : Host) (g : Globals) (s : String) (doc : Document)
    (hkey : titles.lookup s = none) :
    (∀ binding : SwitchBinding, (binding.call h g (.str s) doc).1.2 = [])
    ∧ (doc.getElementById (s ++ "-section") = none →
        switchSection h g (.str s) doc = ((clearActive (.str s) doc, []), true)
          ∧ (clearActive (.str s) doc).map Element.text = doc.map Element.text)
    ∧ ((doc.getElementById (s ++ "-section")).isSome = true →
        (doc.getElementById "pageTitle").isSome = true → h.inherited s = none →
        ∃ e, (switchSection h g (.str s) doc).1.1.getElementById "pageTitle" = some e
          ∧ e.text = "Dashboard") := by
  have hadmin : (switchSection h g (.str s) doc).1.2 = [] := by
    unfold switchSection
    simp only
    split
    · rfl
    · split
      · rfl
      · split
        · rfl
        · exact LoadBinding.call_unknown g _ s hkey
  refine ⟨?_, ?_, ?_⟩
  · intro binding
    induction binding with
    | admin => exact hadmin
    | hook original ih =>
      have hf := (unknown_key s hkey).1
      unfold SwitchBinding.call
      split
      · rename_i doc1 effects heq
        rw [heq] at ih
        simp only [JVal.isStr, hf, decide_False, Bool.false_eq_true, if_false]
        exact ih
      · exact ih
  · intro ht
    exact ⟨switchSection_without_target h g (.str s) doc ht, clearActive_text _ doc⟩
  · intro ht hp hi
    have hdoc : (switchSection h g (.str s) doc).1.1 = switchedDocument h (.str s) doc := by
      cases hg : g.loadSectionData with
      | some binding => rw [switchSection_with_target h g (.str s) doc binding ht hp hg]
      | none =>
        have h1 : (Document.getElementById (clearActive (.str s) doc)
            (JVal.toStr h (.str s) ++ "-section")).isSome = true := by
          rw [clearActive_getElementById_isSome]; exact ht
        obtain ⟨e1, he1⟩ := Option.isSome_iff_exists.mp h1
        have h2 : (Document.getElementById
            (Document.updateFirst (JVal.toStr h (.str s) ++ "-section")
              (fun e => { e with active := true }) (clearActive (.str s) doc))
            "pageTitle").isSome = true := by
          rw [Document.getElementById_activate_isSome, clearActive_getElementById_isSome]
          exact hp
        obtain ⟨e2, he2⟩ := Option.isSome_iff_exists.mp h2
        simp only [switchSection, he1, he2, hg, switchedDocument]
    rw [hdoc]
    unfold switchedDocument
    rw [Document.getElementById_setText_self]
    have h2 : (Document.getElementById
        (Document.updateFirst (JVal.toStr h (.str s) ++ "-section")
          (fun e => { e with active := true }) (clearActive (.str s) doc))
        "pageTitle").isSome = true := by
      rw [Document.getElementById_activate_isSome, clearActive_getElementById_isSome]
      exact hp
    obtain ⟨e2, he2⟩ := Option.isSome_iff_exists.mp h2
    rw [he2]
    refine ⟨_, rfl, ?_⟩
    simp [lookupOr, JVal.toStr, hkey, hi]

/-- Witness of C14: the key `foo` on a page with the users section shown, and on the
same page with an element `foo-section` added. -/
theorem switchSection_unknown_key_witness :
    List.lookup "foo" titles = none
    ∧ (navigateTo sampleHost sampleGlobals (.str "foo") sampleUsersDocument).2 = []
    ∧ (switchSection sampleHost sampleGlobals (.str "foo") sampleUsersDocument).1.1.map
          Element.text
        = sampleUsersDocument.map Element.text
    ∧ ∃ e, (switchSection sampleHost sampleGlobals (.str "foo")
          (⟨some "foo-section", false, true, none, false, ""⟩ :: sampleUsersDocument)
        ).1.1.getElementById "pageTitle" = some e ∧ e.text = "Dashboard" :=
  ⟨by decide,
    (switchSection_unknown_key sampleHost sampleGlobals "foo" sampleUsersDocument
      (by decide)).1 (.hook .admin),
    by
      rw [((switchSection_unknown_key sampleHost sampleGlobals "foo" sampleUsersDocument
        (by decide)).2.1 (by decide)).1]
      exact ((switchSection_unknown_key sampleHost sampleGlobals "foo" sampleUsersDocument
        (by decide)).2.1 (by decide)).2,
    (switchSection_unknown_key sampleHost sampleGlobals "foo"
      (⟨some "foo-section", false, true, none, false, ""⟩ :: sampleUsersDocument)
      (by decide)).2.2 (by decide) (by decide) rfl⟩

/-- Counterexample to C14 as stated: on a page that shows the users section and has
no element `foo-section`, `switchSection('foo')` leaves the title
`Manajemen Pengguna` instead of setting `Dashboard`. -/
theorem switchSection_unknown_key_keeps_title :
    ((switchSection sampleHost sampleGlobals (.str "foo") sampleUsersDocument).1.1.getElementById
        "pageTitle").map Element.text
      = some "Manajemen Pengguna" := by
  decide

/-- C12 (what the code does): with `admin.js` run before
`feedback_dashboard.js` and the two sections and the title present, the switches to
`feedback` and back to `dashboard` call `initFeedbackDashboard` twice (once from
the replaced `loadSectionData`, once from the replaced `switchSection`) and
`loadDashboard` once; with the scripts run in the other order the first is called
once. -/
theorem feedback_initialised_twice (h : Host) (doc : Document)
    (hd : (doc.getElementById "dashboard-section").isSome = true)
    (hf : (doc.getElementById "feedback-section").isSome = true)
    (hp : (doc.getElementById "pageTitle").isSome = true) :
    (navigateAll h (loadFeedbackScript (loadAdminScript Globals.initial))
        [.str "feedback", .str "dashboard"] doc).2
      = [Effect.call "initFeedbackDashboard", Effect.call "initFeedbackDashboard",
          Effect.call "loadDashboard"]
    ∧ (navigateAll h (loadAdminScript (loadFeedbackScript Globals.initial))
        [.str "feedback", .str "dashboard"] doc).2
      = [Effect.call "initFeedbackDashboard", Effect.call "loadDashboard"] := by
  have hd1 : (Document.getElementById (switchedDocument h (.str "feedback") doc)
      (JVal.toStr h (.str "dashboard") ++ "-section")).isSome = true := by
    rw [switchedDocument_getElementById_isSome]; exact hd
  have hp1 : (Document.getElementById (switchedDocument h (.str "feedback") doc)
      "pageTitle").isSome = true := by
    rw [switchedDocument_getElementById_isSome]; exact hp
  constructor
  · have e1 := switchSection_with_target h (loadFeedbackScript (loadAdminScript Globals.initial))
      (.str "feedback") doc (.hook .admin) hf hp rfl
    have e2 := switchSection_with_target h (loadFeedbackScript (loadAdminScript Globals.initial))
      (.str "dashboard") (switchedDocument h (.str "feedback") doc) (.hook .admin) hd1 hp1 rfl
    simp only [navigateAll, navigateTo, loadFeedbackScript, loadAdminScript, Option.map_some',
      SwitchBinding.call] at e1 e2 ⊢
    rw [e1]
    simp only [JVal.isStr, decide_True, if_true]
    rw [e2]
    rfl
  · have e1 := switchSection_with_target h (loadAdminScript (loadFeedbackScript Globals.initial))
      (.str "feedback") doc .admin hf hp rfl
    have e2 := switchSection_with_target h (loadAdminScript (loadFeedbackScript Globals.initial))
      (.str "dashboard") (switchedDocument h (.str "feedback") doc) .admin hd1 hp1 rfl
    simp only [navigateAll, navigateTo, loadFeedbackScript, loadAdminScript, Globals.initial,
      SwitchBinding.call] at e1 e2 ⊢
    rw [e1, e2]
    rfl

/-- Witness of C12: the sample page. -/
theorem feedback_initialised_twice_witness :
    (navigateAll sampleHost sampleGlobals [.str "feedback", .str "dashboard"]
        sampleDocument).2
      = [Effect.call "initFeedbackDashboard", Effect.call "initFeedbackDashboard",
          Effect.call "loadDashboard"] :=
  (feedback_initialised_twice sampleHost sampleDocument (by decide) (by decide)
    (by decide)).1

/-- With the canvas missing a chart function returns at once. -/
theorem ChartId.update_without_canvas (c : ChartId) (h : Host) (arg : JVal) (p : Page)
    (hc : p.dom.getElementById c.canvas = none) : c.update h arg p = some p := by
  cases c <;>
    simp [ChartId.update, ChartId.canvas, updateSentimentChart, updateRatingChart,
      updateSentimentTrendChart, updateCategorySentimentChart] at hc ⊢ <;>
    simp [hc]

/-- A chart function that completes with the canvas present draws through
`drawChart` on its own handle and leaves the elements of the page alone. -/
theorem ChartId.update_spec (c : ChartId) (h : Host) (arg : JVal) (p p1 : Page)
    (hc : (p.dom.getElementById c.canvas).isSome = true) (hu : c.update h arg p = some p1) :
    (∃ labels series, c.handle p1 = some (drawChart (c.handle p) c.kind labels series))
      ∧ p1.constructed = noteConstructed (c.handle p) c.canvas p.constructed
      ∧ p1.dom = p.dom := by
  obtain ⟨el, hel⟩ := Option.isSome_iff_exists.mp hc
  cases c with
  | sentiment =>
    simp only [ChartId.canvas] at hel
    simp only [ChartId.update, updateSentimentChart, hel] at hu
    cases hd : arg.get "sentiment_distribution" with
    | none => simp [hd] at hu
    | some dist =>
      simp [hd] at hu
      subst hu
      exact ⟨⟨_, _, rfl⟩, rfl, rfl⟩
  | rating =>
    simp only [ChartId.canvas] at hel
    simp only [ChartId.update, updateRatingChart, hel] at hu
    cases arg <;> simp [JVal.get] at hu <;> subst hu <;> exact ⟨⟨_, _, rfl⟩, rfl, rfl⟩
  | trend =>
    simp only [ChartId.canvas] at hel
    simp only [ChartId.update, updateSentimentTrendChart, hel] at hu
    cases arg with
    | arr items =>
      simp only [Option.bind_eq_bind, Option.bind_eq_some, Option.pure_def,
        Option.some.injEq] at hu
      obtain ⟨labels, -, positive, -, negative, -, neutral, -, hp⟩ := hu
      subst hp
      exact ⟨⟨_, _, rfl⟩, rfl, rfl⟩
    | _ => simp at hu
  | category =>
    simp only [ChartId.canvas] at hel
    simp only [ChartId.update, updateCategorySentimentChart, hel] at hu
    cases arg with
    | arr items =>
      simp only [Option.bind_eq_bind, Option.bind_eq_some, Option.pure_def,
        Option.some.injEq] at hu
      obtain ⟨labels, -, positive, -, negative, -, neutral, -, hp⟩ := hu
      subst hp
      exact ⟨⟨_, _, rfl⟩, rfl, rfl⟩
    | _ => simp at hu

/-- C13: for each of the four chart functions (`updateSentimentChart`,
`updateRatingChart`, `updateSentimentTrendChart`, `updateCategorySentimentChart`)
with the canvas present: a call that finds the handle `null` constructs the chart
and sets the handle; a call that finds the handle set constructs nothing, keeps
the same chart, replaces its labels and series and calls `update()` once; over any
sequence of calls the handle, once set, stays set to a chart of the same type and
nothing more is constructed, so that at most one chart per canvas is ever
constructed. A call that throws changes nothing. -/
theorem chart_handles_reused (c : ChartId) (h : Host) :
    (∀ (arg : JVal) (p p1 : Page), (p.dom.getElementById c.canvas).isSome = true →
        c.handle p = none → c.update h arg p = some p1 →
        (∃ labels series, c.handle p1
            = some { kind := c.kind, labels := labels, series := series, updates := 0 })
          ∧ p1.constructed = p.constructed ++ [c.canvas])
    ∧ (∀ (arg : JVal) (p p1 : Page) (chart : Chart),
        (p.dom.getElementById c.canvas).isSome = true →
        c.handle p = some chart → c.update h arg p = some p1 →
        (∃ labels series, c.handle p1
            = some { chart with labels := labels, series := series,
                                updates := chart.updates + 1 })
          ∧ p1.constructed = p.constructed)
    ∧ (∀ (args : List JVal) (p : Page) (chart : Chart), c.handle p = some chart →
        (c.updateAll h args p).constructed = p.constructed
          ∧ ∃ chart1, c.handle (c.updateAll h args p) = some chart1
              ∧ chart1.kind = chart.kind)
    ∧ (∀ (args : List JVal) (p : Page), c.handle p = none →
        (c.updateAll h args p).constructed = p.constructed
          ∨ (c.updateAll h args p).constructed = p.constructed ++ [c.canvas]) := by
  have hstep : ∀ (arg : JVal) (p : Page) (chart : Chart), c.handle p = some chart →
      ((c.update h arg p).getD p).constructed = p.constructed
        ∧ ∃ chart1, c.handle ((c.update h arg p).getD p) = some chart1
            ∧ chart1.kind = chart.kind := by
    intro arg p chart hh
    cases hu : c.update h arg p with
    | none => exact ⟨rfl, chart, hh, rfl⟩
    | some p1 =>
      cases hc : p.dom.getElementById c.canvas with
      | none =>
        rw [c.update_without_canvas h arg p hc] at hu
        cases hu
        exact ⟨rfl, chart, hh, rfl⟩
      | some el =>
        obtain ⟨⟨labels, series, hh1⟩, hcon, -⟩ := c.update_spec h arg p p1 (by simp [hc]) hu
        rw [hh] at hh1 hcon
        exact ⟨hcon, _, hh1, rfl⟩
  have hseq : ∀ (args : List JVal) (p : Page) (chart : Chart), c.handle p = some chart →
      (c.updateAll h args p).constructed = p.constructed
        ∧ ∃ chart1, c.handle (c.updateAll h args p) = some chart1
            ∧ chart1.kind = chart.kind := by
    intro args
    induction args with
    | nil => intro p chart hh; exact ⟨rfl, chart, hh, rfl⟩
    | cons arg rest ih =>
      intro p chart hh
      obtain ⟨hcon, chart1, hh1, hk1⟩ := hstep arg p chart hh
      obtain ⟨hcon2, chart2, hh2, hk2⟩ := ih _ chart1 hh1
      exact ⟨by simp only [ChartId.updateAll]; rw [hcon2, hcon],
        chart2, hh2, hk2.trans hk1⟩
  refine ⟨?_, ?_, hseq, ?_⟩
  · intro arg p p1 hc hh hu
    obtain ⟨⟨labels, series, hh1⟩, hcon, -⟩ := c.update_spec h arg p p1 hc hu
    rw [hh] at hh1 hcon
    exact ⟨⟨labels, series, hh1⟩, hcon⟩
  · intro arg p p1 chart hc hh hu
    obtain ⟨⟨labels, series, hh1⟩, hcon, -⟩ := c.update_spec h arg p p1 hc hu
    rw [hh] at hh1 hcon
    exact ⟨⟨labels, series, hh1⟩, hcon⟩
  · intro args
    induction args with
    | nil => intro p _; exact Or.inl rfl
    | cons arg rest ih =>
      intro p hh
      simp only [ChartId.updateAll]
      cases hu : c.update h arg p with
      | none => exact ih p hh
      | some p1 =>
        cases hc : p.dom.getElementById c.canvas with
        | none =>
          rw [c.update_without_canvas h arg p hc] at hu
          cases hu
          exact ih p hh
        | some el =>
          obtain ⟨⟨labels, series, hh1⟩, hcon, -⟩ :=
            c.update_spec h arg p p1 (by simp [hc]) hu
          rw [hh] at hh1 hcon
          right
          simp only [Option.getD_some]
          rw [(hseq rest p1 _ hh1).1, hcon]
          rfl

/-- Witness of C13: two calls of `updateSentimentChart` on a page with the canvas and
no chart yet. -/
theorem chart_handles_reused_witness :
    ChartId.handle .sentiment (samplePage [("sentimentChart", "")]) = none
    ∧ ((ChartId.updateAll .sentiment sampleHost
          [.obj [("sentiment_distribution", .obj [("positive", .num (.fin 2 0))])],
           .obj [("sentiment_distribution", .obj [("positive", .num (.fin 3 0))])]]
          (samplePage [("sentimentChart", "")])).constructed
        = (samplePage [("sentimentChart", "")]).constructed
      ∨ (ChartId.updateAll .sentiment sampleHost
          [.obj [("sentiment_distribution", .obj [("positive", .num (.fin 2 0))])],
           .obj [("sentiment_distribution", .obj [("positive", .num (.fin 3 0))])]]
          (samplePage [("sentimentChart", "")])).constructed
        = (samplePage [("sentimentChart", "")]).constructed ++ [ChartId.canvas .sentiment])
    ∧ (ChartId.updateAll .sentiment sampleHost
          [.obj [("sentiment_distribution", .obj [("positive", .num (.fin 2 0))])],
           .obj [("sentiment_distribution", .obj [("positive", .num (.fin 3 0))])]]
          (samplePage [("sentimentChart", "")])).constructed = ["sentimentChart"] :=
  ⟨rfl,
    (chart_handles_reused .sentiment sampleHost).2.2.2
      [.obj [("sentiment_distribution", .obj [("positive", .num (.fin 2 0))])],
       .obj [("sentiment_distribution", .obj [("positive", .num (.fin 3 0))])]]
      (samplePage [("sentimentChart", "")]) rfl,
    rfl⟩

set_option maxRecDepth 100000 in
/-- C15 (code at the failing input): when the stats response has status `success`
and the sentiment response has status `error`, `loadFeedbackData` still writes the
`positive_percentage` of the sentiment response into the card `positivePercent`;
nothing is logged. -/
theorem stats_cards_use_ungated_sentiment :
    (loadFeedbackData sampleHost
        ⟨.resolved ⟨true, some (.obj [("status", .str "success"),
            ("stats", .obj [("total_feedback", .num (.fin 3 0))])])⟩,
          .resolved ⟨true, some (.obj [("status", .str "error"),
            ("summary", .obj [("positive_percentage", .num (.fin 99 0))])])⟩,
          sampleError, sampleError, sampleError⟩
        (samplePage [("positivePercent", "0%")])).1.dom
      = [("positivePercent", "99%")]
    ∧ (loadFeedbackData sampleHost
        ⟨.resolved ⟨true, some (.obj [("status", .str "success"),
            ("stats", .obj [("total_feedback", .num (.fin 3 0))])])⟩,
          .resolved ⟨true, some (.obj [("status", .str "error"),
            ("summary", .obj [("positive_percentage", .num (.fin 99 0))])])⟩,
          sampleError, sampleError, sampleError⟩
        (samplePage [("positivePercent", "0%")])).2.filter Effect.isFetch
      = (loadFeedbackData sampleHost
        ⟨.resolved ⟨true, some (.obj [("status", .str "success"),
            ("stats", .obj [("total_feedback", .num (.fin 3 0))])])⟩,
          .resolved ⟨true, some (.obj [("status", .str "error"),
            ("summary", .obj [("positive_percentage", .num (.fin 99 0))])])⟩,
          sampleError, sampleError, sampleError⟩
        (samplePage [("positivePercent", "0%")])).2 := by
  constructor <;> rfl

/-- C16: each delete handler (`deletePost`, `deleteUser`, `deleteComment`,
`deleteNotification`) sends its request, a DELETE to the path of the entity followed
by the id, exactly when `confirm` returned true; when the user declines, the only
effect is the confirmation dialog: no request, no alert, no loader. -/
theorem delete_handlers_confirmation_gated (h : Host) (d : DeleteHandler) (id : JVal)
    (confirmed : Bool) (res : FetchOutcome) :
    (d.run h id confirmed res).filter Effect.isFetch
        = (if confirmed then [Effect.fetch (d.path ++ JVal.toStr h id) "DELETE" none] else [])
      ∧ ∃ question, d.run h id false res = [Effect.confirm question] := by
  cases d <;> cases confirmed <;>
    simp [DeleteHandler.run, DeleteHandler.path, deletePost, deleteUser, deleteComment,
      deleteNotification, List.filter_cons]

/-- The shape every mutation has once its request went out: what came before holds
no alert and no call, and what follows is `tail`. -/
theorem sent_shape (pre : List Effect) (request : Effect) (tail : List Effect) (loader : String)
    (hpre1 : pre.filter Effect.isAlert = []) (hpre2 : pre.filter Effect.isAnyCall = [])
    (hreq1 : request.isAlert = false) (hreq2 : request.isAnyCall = false)
    (res : FetchOutcome)
    (hs : res.isSuccess = true → tail = [Effect.call loader])
    (hf : res.isSuccess = false →
      (tail.filter Effect.isAlert).length = 1 ∧ tail.filter Effect.isAnyCall = []) :
    (res.isSuccess = true →
        (pre ++ request :: tail).filter Effect.isAnyCall = [Effect.call loader]
          ∧ (pre ++ request :: tail).filter Effect.isAlert = [])
      ∧ (res.isSuccess = false →
        ((pre ++ request :: tail).filter Effect.isAlert).length = 1
          ∧ (pre ++ request :: tail).filter Effect.isAnyCall = []) := by
  constructor
  · intro h1
    rw [hs h1]
    simp [List.filter_append, List.filter_cons, hpre1, hpre2, hreq1, hreq2]
  · intro h1
    obtain ⟨ha, hc⟩ := hf h1
    simp [List.filter_append, List.filter_cons, hpre1, hpre2, hreq1, hreq2, ha, hc]

/-- C17: for each of the eight mutation handlers, whatever the answers of the user,
once the request has been sent: a response whose status is `'success'` makes the
handler call the loader of its section exactly once and show no alert; any other
outcome (another response shape, a body that is not JSON, a failed request) makes
it show exactly one alert and call no loader. -/
theorem mutation_reloads_or_alerts (m : Mutation) (h : Host) (id current hours : JVal)
    (a : Answers) (res : FetchOutcome)
    (hsent : (m.run h id current hours a res).filter Effect.isFetch ≠ []) :
    (res.isSuccess = true →
        (m.run h id current hours a res).filter Effect.isAnyCall = [Effect.call m.loader]
          ∧ (m.run h id current hours a res).filter Effect.isAlert = [])
      ∧ (res.isSuccess = false →
        ((m.run h id current hours a res).filter Effect.isAlert).length = 1
          ∧ (m.run h id current hours a res).filter Effect.isAnyCall = []) := by
  obtain ⟨first, second, confirmed⟩ := a
  cases m with
  | delete d =>
    cases confirmed with
    | false =>
      exfalso
      apply hsent
      cases d <;> simp [Mutation.run, DeleteHandler.run, deletePost, deleteUser, deleteComment,
        deleteNotification]
    | true =>
      cases d with
      | post =>
        exact sent_shape [Effect.confirm _] (Effect.fetch _ _ _) _ _ rfl rfl rfl rfl res
          (afterDeletePost_success res) (afterDeletePost_failure res)
      | user =>
        exact sent_shape [Effect.confirm _] (Effect.fetch _ _ _) _ _ rfl rfl rfl rfl res
          (afterRequest_success h _ _ res) (afterRequest_failure h _ _ res)
      | comment =>
        exact sent_shape [Effect.confirm _] (Effect.fetch _ _ _) _ _ rfl rfl rfl rfl res
          (afterRequest_success h _ _ res) (afterRequest_failure h _ _ res)
      | notification =>
        exact sent_shape [Effect.confirm _] (Effect.fetch _ _ _) _ _ rfl rfl rfl rfl res
          (afterRequest_success h _ _ res) (afterRequest_failure h _ _ res)
  | role =>
    cases first with
    | none => exact absurd (by simp [Mutation.run, updateUserRole]) hsent
    | some r =>
      by_cases he : r = ""
      · exact absurd (by simp [Mutation.run, updateUserRole, he]) hsent
      · by_cases hv : r = "user" ∨ r = "admin"
        · cases confirmed with
          | false =>
            exact absurd (by rcases hv with rfl | rfl <;> simp [Mutation.run, updateUserRole]) hsent
          | true =>
            have hrun : Mutation.role.run h id current hours ⟨some r, second, true⟩ res
                = [Effect.prompt "Role (user/admin):" current,
                    Effect.confirm ("Yakin ubah role user #" ++ JVal.toStr h id ++ " menjadi "
                      ++ r ++ "?")]
                  ++ Effect.fetch ("/admin/users/" ++ JVal.toStr h id) "PATCH"
                      (some (.obj [("role", .str r)]))
                    :: afterRequest h "loadUsers" "Gagal mengubah role" res := by
              rcases hv with rfl | rfl <;> simp [Mutation.run, updateUserRole, patchAndReload]
            rw [hrun]
            exact sent_shape [Effect.prompt _ _, Effect.confirm _] (Effect.fetch _ _ _) _ _
              rfl rfl rfl rfl res
              (afterRequest_success h _ _ res) (afterRequest_failure h _ _ res)
        · have h1 : r ≠ "user" := fun hr => hv (Or.inl hr)
          have h2 : r ≠ "admin" := fun hr => hv (Or.inr hr)
          exact absurd (by simp [Mutation.run, updateUserRole, he, h1, h2]) hsent
  | campaign =>
    cases first with
    | none => exact absurd (by simp [Mutation.run, updateCampaignStatus]) hsent
    | some r =>
      by_cases he : r = ""
      · exact absurd (by simp [Mutation.run, updateCampaignStatus, he]) hsent
      · by_cases hv : r = "active" ∨ r = "completed" ∨ r = "cancelled"
        · have hrun : Mutation.campaign.run h id current hours ⟨some r, second, confirmed⟩ res
              = [Effect.prompt "Status kampanye (active/completed/cancelled):" current]
                ++ Effect.fetch ("/admin/campaigns/" ++ JVal.toStr h id) "PATCH"
                    (some (.obj [("campaign_status", .str r)]))
                  :: afterRequest h "loadCampaigns" "Gagal update status kampanye" res := by
            rcases hv with rfl | rfl | rfl <;>
              simp [Mutation.run, updateCampaignStatus, patchAndReload]
          rw [hrun]
          exact sent_shape [Effect.prompt _ _] (Effect.fetch _ _ _) _ _ rfl rfl rfl rfl res
            (afterRequest_success h _ _ res) (afterRequest_failure h _ _ res)
        · have h1 : r ≠ "active" := fun hr => hv (Or.inl hr)
          have h2 : r ≠ "completed" := fun hr => hv (Or.inr (Or.inl hr))
          have h3 : r ≠ "cancelled" := fun hr => hv (Or.inr (Or.inr hr))
          exact absurd (by simp [Mutation.run, updateCampaignStatus, he, h1, h2, h3]) hsent
  | donation =>
    cases first with
    | none => exact absurd (by simp [Mutation.run, updateDonationStatus]) hsent
    | some r =>
      by_cases he : r = ""
      · exact absurd (by simp [Mutation.run, updateDonationStatus, he]) hsent
      · by_cases hv : r = "pending" ∨ r = "completed" ∨ r = "failed" ∨ r = "refunded"
        · have hrun : Mutation.donation.run h id current hours ⟨some r, second, confirmed⟩ res
              = [Effect.prompt "Status donasi (pending/completed/failed/refunded):" current]
                ++ Effect.fetch ("/admin/donations/" ++ JVal.toStr h id) "PATCH"
                    (some (.obj [("donation_status", .str r)]))
                  :: afterRequest h "loadDonations" "Gagal update status donasi" res := by
            rcases hv with rfl | rfl | rfl | rfl <;>
              simp [Mutation.run, updateDonationStatus, patchAndReload]
          rw [hrun]
          exact sent_shape [Effect.prompt _ _] (Effect.fetch _ _ _) _ _ rfl rfl rfl rfl res
            (afterRequest_success h _ _ res) (afterRequest_failure h _ _ res)
        · have h1 : r ≠ "pending" := fun hr => hv (Or.inl hr)
          have h2 : r ≠ "completed" := fun hr => hv (Or.inr (Or.inl hr))
          have h3 : r ≠ "failed" := fun hr => hv (Or.inr (Or.inr (Or.inl hr)))
          have h4 : r ≠ "refunded" := fun hr => hv (Or.inr (Or.inr (Or.inr hr)))
          exact absurd (by simp [Mutation.run, updateDonationStatus, he, h1, h2, h3, h4]) hsent
  | volunteer =>
    cases first with
    | none => exact absurd (by simp [Mutation.run, updateVolunteer]) hsent
    | some r =>
      by_cases he : r = ""
      · exact absurd (by simp [Mutation.run, updateVolunteer, he]) hsent
      · cases second with
        | none => exact absurd (by simp [Mutation.run, updateVolunteer, he]) hsent
        | some t =>
          cases hn : (stringToNumber t).isNaN with
          | true => exact absurd (by simp [Mutation.run, updateVolunteer, he, hn]) hsent
          | false =>
            cases hg : (stringToNumber t).isNegative with
            | true => exact absurd (by simp [Mutation.run, updateVolunteer, he, hn, hg]) hsent
            | false =>
              have hrun : Mutation.volunteer.run h id current hours
                    ⟨some r, some t, confirmed⟩ res
                  = [Effect.prompt
                        "Update status relawan (applied/accepted/rejected/completed):" current,
                      Effect.prompt "Update jam kontribusi (angka):"
                        (.str (JVal.toStr h (hours.nullish (.num (.fin 0 0)))))]
                    ++ Effect.fetch ("/admin/volunteers/" ++ JVal.toStr h id) "PATCH"
                        (some (.obj [("volunteer_status", .str r),
                          ("hours_contributed", .num (stringToNumber t))]))
                      :: afterRequest h "loadVolunteers" "Gagal update relawan" res := by
                simp [Mutation.run, updateVolunteer, he, hn, hg, patchAndReload]
              rw [hrun]
              exact sent_shape [Effect.prompt _ _, Effect.prompt _ _] (Effect.fetch _ _ _) _ _
                rfl rfl rfl rfl res
                (afterRequest_success h _ _ res) (afterRequest_failure h _ _ res)

/-- Witness of C17: `deleteUser(7)` confirmed, answered with status `success` and
with a failed request. -/
theorem mutation_reloads_or_alerts_witness :
    ((Mutation.run (.delete .user) sampleHost (.num (.fin 7 0)) .undefined .undefined
          ⟨none, none, true⟩ sampleSuccess).filter Effect.isAnyCall
        = [Effect.call "loadUsers"]
      ∧ (Mutation.run (.delete .user) sampleHost (.num (.fin 7 0)) .undefined .undefined
          ⟨none, none, true⟩ sampleSuccess).filter Effect.isAlert = [])
    ∧ (((Mutation.run (.delete .user) sampleHost (.num (.fin 7 0)) .undefined .undefined
          ⟨none, none, true⟩ .rejected).filter Effect.isAlert).length = 1
      ∧ (Mutation.run (.delete .user) sampleHost (.num (.fin 7 0)) .undefined .undefined
          ⟨none, none, true⟩ .rejected).filter Effect.isAnyCall = []) :=
  ⟨(mutation_reloads_or_alerts (.delete .user) sampleHost (.num (.fin 7 0)) .undefined
      .undefined ⟨none, none, true⟩ sampleSuccess (by intro hc; cases hc)).1 rfl,
    (mutation_reloads_or_alerts (.delete .user) sampleHost (.num (.fin 7 0)) .undefined
      .undefined ⟨none, none, true⟩ .rejected (by intro hc; cases hc)).2 rfl⟩

/-- A loader never looks at the status line of the response. -/
theorem loadTable_ignores_status (h : Host) (tbodyId field : String)
    (row : JVal → Option String) (emptyRow errorRow : String) (ok : Bool) (j : Option JVal)
    (dom : Dom) :
    loadTable h tbodyId field row emptyRow errorRow (.resolved ⟨ok, j⟩) dom
      = loadTable h tbodyId field row emptyRow errorRow (.resolved ⟨true, j⟩) dom := rfl

/-- C18 (amended): for each of the eight loaders of `admin.js`, a rejected request, a
body that is not JSON, a `null` body and a list field holding a non-empty string
each give the error row `Gagal memuat data`; the status line is never inspected, so
a response that is not OK is rendered like an OK one with the same body; a body
whose list field is absent or `null` gives the placeholder row `Tidak ada data`. -/
theorem loaders_network_failures (h : Host) (L : Loader) (dom : Dom) :
    L.run h .rejected dom = dom.assign L.tbodyId (errorRow L.colspan)
    ∧ (∀ ok : Bool,
        L.run h (.resolved ⟨ok, none⟩) dom = dom.assign L.tbodyId (errorRow L.colspan))
    ∧ (∀ ok : Bool,
        L.run h (.resolved ⟨ok, some .null⟩) dom = dom.assign L.tbodyId (errorRow L.colspan))
    ∧ (∀ (ok : Bool) (fields : List (String × JVal)) (s : String), s ≠ "" →
        fields.lookup L.field = some (.str s) →
        L.run h (.resolved ⟨ok, some (.obj fields)⟩) dom
          = dom.assign L.tbodyId (errorRow L.colspan))
    ∧ (∀ (ok : Bool) (j : Option JVal),
        L.run h (.resolved ⟨ok, j⟩) dom = L.run h (.resolved ⟨true, j⟩) dom)
    ∧ (∀ (ok : Bool) (fields : List (String × JVal)),
        fields.lookup L.field = none ∨ fields.lookup L.field = some .null →
        L.run h (.resolved ⟨ok, some (.obj fields)⟩) dom
          = dom.assign L.tbodyId (placeholderRow L.colspan L.emptyText)) := by
  refine ⟨?_, ?_, ?_, ?_, ?_, ?_⟩
  · rw [Loader.run_eq]
    exact loadTable_of_failure h _ _ _ _ _ .rejected dom (Or.inl rfl)
  · intro ok
    rw [Loader.run_eq]
    exact loadTable_of_failure h _ _ _ _ _ (.resolved ⟨ok, none⟩) dom (Or.inl rfl)
  · intro ok
    rw [Loader.run_eq]
    exact loadTable_of_failure h _ _ _ _ _ (.resolved ⟨ok, some .null⟩) dom
      (Or.inr ⟨.null, rfl, rfl⟩)
  · intro ok fields s hs hf
    rw [Loader.run_eq]
    refine loadTable_of_failure h _ _ _ _ _ (.resolved ⟨ok, some (.obj fields)⟩) dom
      (Or.inr ⟨.obj fields, rfl, ?_⟩)
    have hlen : utf16Length s ≠ 0 := fun h0 => hs ((utf16Length_eq_zero_iff s).mp h0)
    simp [tableMarkup, JVal.get, hf, JVal.truthy, hs, JVal.gt, JVal.toNumber, JSNum.lt,
      JSNum.ofInt, hlen]
  · intro ok j
    rw [Loader.run_eq]
    exact loadTable_ignores_status h _ _ _ _ _ ok j dom
  · intro ok fields hf
    rw [Loader.run_eq]
    refine loadTable_of_markup h _ _ _ _ _ (.resolved ⟨ok, some (.obj fields)⟩) dom
      (.obj fields) _ rfl ?_
    rcases hf with hf | hf <;> simp [tableMarkup, JVal.get, hf, JVal.truthy]

/-- Witness of C18: `loadUsers` on a rejected request, on a list field holding the
string `oops`, and on a body without the list field. -/
theorem loaders_network_failures_witness :
    loadUsers sampleHost .rejected [("usersTableBody", "")]
      = some [("usersTableBody", errorRow 6)]
    ∧ ("oops" ≠ ""
      ∧ loadUsers sampleHost (.resolved ⟨true, some (.obj [("users", .str "oops")])⟩)
          [("usersTableBody", "")]
        = some [("usersTableBody", errorRow 6)])
    ∧ loadUsers sampleHost (.resolved ⟨true, some (.obj [])⟩) [("usersTableBody", "")]
      = some [("usersTableBody", placeholderRow 6 "Tidak ada data pengguna")] :=
  ⟨(loaders_network_failures sampleHost Loader.users [("usersTableBody", "")]).1,
    ⟨by decide,
      (loaders_network_failures sampleHost Loader.users [("usersTableBody", "")]).2.2.2.1
        true [("users", .str "oops")] "oops" (by decide) rfl⟩,
    (loaders_network_failures sampleHost Loader.users [("usersTableBody", "")]).2.2.2.2.2
      true [] (Or.inl rfl)⟩

/-- Counterexample to C18 as stated: a response with status 401 and the JSON body
`{error: 'Unauthorized'}` makes `loadUsers` show the placeholder row
`Tidak ada data pengguna`, not the error row. -/
theorem loadUsers_error_status_shows_placeholder :
    loadUsers sampleHost
        (.resolved ⟨false, some (.obj [("error", .str "Unauthorized")])⟩)
        [("usersTableBody", "")]
      = some [("usersTableBody",
          "<tr><td colspan=\"6\" class=\"loading\">Tidak ada data pengguna</td></tr>")] := by
  rfl

/-- An assignment to an element that exists goes through. -/
theorem Dom.assign_isSome (d : Dom) (id v : String) (c : String)
    (hp : d.getElementById id = some c) : ∃ d1, d.assign id v = some d1 := by
  unfold Dom.getElementById at hp
  refine ⟨d.map fun p => if p.1 = id then (p.1, v) else p, ?_⟩
  simp [Dom.assign, hp]

/-- A guarded assignment whose value does not throw completes. -/
theorem guardedAssign_completes (id v : String) (d : Dom) :
    ∃ d1, guardedAssign id (some v) d = (d1, true) := by
  cases hg : d.getElementById id with
  | none => exact ⟨d, by simp [guardedAssign, Stmt.ofOption, hg]⟩
  | some c =>
    obtain ⟨d1, h1⟩ := Dom.assign_isSome d id v c hg
    exact ⟨d1, by simp [guardedAssign, Stmt.ofOption, hg, h1]⟩

/-- The function `updateUserInfo` completes when the name is textual. -/
theorem updateUserInfo_completes (h : Host) (user : JVal) (dom : Dom)
    (hu : user.truthy = true) (hn : hasTextualName user = true) :
    (updateUserInfo h user dom).2 = true := by
  have hget : ∀ key, user.get key = some (user.getOpt key) := by
    intro key
    cases user <;> simp [JVal.truthy] at hu <;> simp [JVal.get, JVal.getOpt]
  obtain ⟨s, hs⟩ : ∃ s, (user.getOpt "name").or (.str "A") = .str s := by
    unfold hasTextualName at hn
    split at hn
    · exact ⟨_, by assumption⟩
    · simp at hn
  obtain ⟨d1, h1⟩ := guardedAssign_completes "userName"
    (JVal.toStr h ((user.getOpt "name").or (.str "Admin"))) dom
  obtain ⟨d2, h2⟩ := guardedAssign_completes "userEmail"
    (JVal.toStr h ((user.getOpt "email").or (.str ""))) d1
  obtain ⟨d3, h3⟩ := guardedAssign_completes "userInitial"
    (h.toUpperCase (substring s 0 1)) d2
  simp only [updateUserInfo, Stmt.seq, hget, Option.map_some', Option.some_bind, hs, initialOf,
    h1, h2, h3]

/-- C19 (amended): `checkAuth` of `admin.js` redirects to `/admin/login` when the
request is rejected, when the response is not OK, and when the body of an OK
response is not JSON; for an OK response whose body is a JSON object it does not
redirect, and it calls `updateUserInfo` exactly when the body has a `user` (a
truthy field `user`, whose name is absent or text). -/
theorem checkAuth_redirect_and_user_info (h : Host) (dom : Dom) :
    checkAuth h .rejected dom
        = (dom, [getRequest "/admin/check-auth", Effect.consoleError,
            Effect.navigate "/admin/login"])
    ∧ (∀ j : Option JVal, checkAuth h (.resolved ⟨false, j⟩) dom
        = (dom, [getRequest "/admin/check-auth", Effect.navigate "/admin/login"]))
    ∧ checkAuth h (.resolved ⟨true, none⟩) dom
        = (dom, [getRequest "/admin/check-auth", Effect.consoleError,
            Effect.navigate "/admin/login"])
    ∧ (∀ fields : List (String × JVal),
        ((fields.lookup "user").getD .undefined).truthy = false →
        checkAuth h (.resolved ⟨true, some (.obj fields)⟩) dom
          = (dom, [getRequest "/admin/check-auth"]))
    ∧ (∀ (fields : List (String × JVal)) (user : JVal),
        fields.lookup "user" = some user → user.truthy = true →
        hasTextualName user = true →
        checkAuth h (.resolved ⟨true, some (.obj fields)⟩) dom
          = ((updateUserInfo h user dom).1,
              [getRequest "/admin/check-auth", Effect.call "updateUserInfo"])) := by
  refine ⟨rfl, fun j => rfl, rfl, ?_, ?_⟩
  · intro fields hf
    simp [checkAuth, JVal.get, hf]
  · intro fields user hf hu hn
    have hc := updateUserInfo_completes h user dom hu hn
    cases hr : updateUserInfo h user dom with
    | mk d b =>
      rw [hr] at hc
      simp only at hc
      subst hc
      simp [checkAuth, JVal.get, hf, hu, hr]

/-- Witness of C19: a body without user, and a body with the user `sari`. -/
theorem checkAuth_redirect_and_user_info_witness :
    checkAuth sampleHost (.resolved ⟨true, some (.obj [])⟩) [("userName", ""), ("userInitial", "")]
        = ([("userName", ""), ("userInitial", "")], [getRequest "/admin/check-auth"])
    ∧ checkAuth sampleHost
          (.resolved ⟨true, some (.obj [("user", .obj [("name", .str "sari")])])⟩)
          [("userName", ""), ("userInitial", "")]
        = ([("userName", "sari"), ("userInitial", "S")],
            [getRequest "/admin/check-auth", Effect.call "updateUserInfo"]) :=
  ⟨(checkAuth_redirect_and_user_info sampleHost _).2.2.2.1 [] rfl,
    (checkAuth_redirect_and_user_info sampleHost _).2.2.2.2
      [("user", .obj [("name", .str "sari")])] _ rfl rfl rfl⟩

/-- Counterexample to C19 as stated: a response with status 200 whose body is the
JSON value `null` is redirected to `/admin/login`, because reading `data.user`
throws inside the `try`. -/
theorem checkAuth_ok_null_body_redirects :
    checkAuth sampleHost (.resolved ⟨true, some .null⟩) [("userName", "")]
      = ([("userName", "")],
          [getRequest "/admin/check-auth", Effect.consoleError,
            Effect.navigate "/admin/login"]) := by
  rfl

/-- C20: the submit handler of the login form sends its request, a POST to
`/admin/login` with body `{email, password}` (the email trimmed), exactly when the
trimmed email and the password are both non-empty; it redirects to
`/admin/dashboard` exactly when the request was sent and the response is OK with
status `'success'`; after any other outcome of the request an error message is
shown, the loading state is cleared and there is no redirect. -/
theorem login_submit_handler (h : Host) (emailValue passwordValue : String)
    (r : FetchOutcome) (p : LoginPage) :
    ((jsTrim emailValue = "" ∨ passwordValue = "") →
        submitLogin h emailValue passwordValue r p
          = (showError "Email dan password harus diisi" p, []))
    ∧ (jsTrim emailValue ≠ "" → passwordValue ≠ "" →
        (submitLogin h emailValue passwordValue r p).2.filter Effect.isFetch
            = [Effect.fetch "/admin/login" "POST"
                (some (.obj [("email", .str (jsTrim emailValue)),
                  ("password", .str passwordValue)]))]
          ∧ (loginAccepted r = true →
              (submitLogin h emailValue passwordValue r p).2.filter Effect.isNavigate
                = [Effect.navigate "/admin/dashboard"])
          ∧ (loginAccepted r = false →
              (submitLogin h emailValue passwordValue r p).1.errorVisible = true
                ∧ (submitLogin h emailValue passwordValue r p).1.loading = false
                ∧ (submitLogin h emailValue passwordValue r p).2.filter Effect.isNavigate
                    = [])) := by
  constructor
  · intro hv
    simp [submitLogin, hv]
  · intro he hp
    have hv : ¬(jsTrim emailValue = "" ∨ passwordValue = "") := by
      rintro (h1 | h1)
      · exact he h1
      · exact hp h1
    cases r with
    | rejected =>
      simp [submitLogin, hv, loginFailed, loginAccepted, setLoading, showError, List.filter_cons]
    | resolved response =>
      obtain ⟨ok, json⟩ := response
      cases json with
      | none =>
        simp [submitLogin, hv, loginFailed, loginAccepted, FetchOutcome.isSuccess,
          FetchOutcome.data, setLoading, showError, List.filter_cons]
      | some data =>
        cases ok with
        | false =>
          cases hm : data.get "message" <;>
            simp [submitLogin, hv, loginFailed, loginRejected, loginAccepted, hm, setLoading,
              showError, List.filter_cons]
        | true =>
          cases hst : data.get "status" with
          | none =>
            simp [submitLogin, hv, loginFailed, loginAccepted, FetchOutcome.isSuccess,
              FetchOutcome.data, hst, setLoading, showError, List.filter_cons]
          | some st =>
            cases hs : st.isStr "success" with
            | true =>
              simp [submitLogin, hv, loginAccepted, FetchOutcome.isSuccess, FetchOutcome.data,
                hst, hs, List.filter_cons]
            | false =>
              cases hm : data.get "message" <;>
                simp [submitLogin, hv, loginFailed, loginRejected, loginAccepted,
                  FetchOutcome.isSuccess, FetchOutcome.data, hst, hs, hm, setLoading,
                  showError, List.filter_cons]

/-- Witness of C20: blank email, then a filled form with an accepted and with a
refused login. -/
theorem login_submit_handler_witness :
    ((jsTrim "   " = "" ∨ "rahasia" = "")
      ∧ submitLogin sampleHost "   " "rahasia" sampleSuccess ⟨"", false, false⟩
        = (⟨"Email dan password harus diisi", true, false⟩, []))
    ∧ ((jsTrim " admin@ruanghijau.id " ≠ "" ∧ "rahasia" ≠ ""
        ∧ loginAccepted sampleSuccess = true ∧ loginAccepted sampleError = false)
      ∧ (submitLogin sampleHost " admin@ruanghijau.id " "rahasia" sampleSuccess
            ⟨"", false, false⟩).2.filter Effect.isNavigate
          = [Effect.navigate "/admin/dashboard"]
      ∧ (submitLogin sampleHost " admin@ruanghijau.id " "rahasia" sampleError
            ⟨"", false, false⟩).1.errorVisible = true
      ∧ (submitLogin sampleHost " admin@ruanghijau.id " "rahasia" sampleError
            ⟨"", false, false⟩).1.loading = false) :=
  ⟨⟨by decide,
      (login_submit_handler sampleHost "   " "rahasia" sampleSuccess ⟨"", false, false⟩).1
        (by decide)⟩,
    ⟨by decide, by decide, by decide, by decide⟩,
    ((login_submit_handler sampleHost " admin@ruanghijau.id " "rahasia" sampleSuccess
      ⟨"", false, false⟩).2 (by decide) (by decide)).2.1 (by decide),
    (((login_submit_handler sampleHost " admin@ruanghijau.id " "rahasia" sampleError
      ⟨"", false, false⟩).2 (by decide) (by decide)).2.2 (by decide)).1,
    (((login_submit_handler sampleHost " admin@ruanghijau.id " "rahasia" sampleError
      ⟨"", false, false⟩).2 (by decide) (by decide)).2.2 (by decide)).2.1⟩

/-! ## Claims C21 to C29 -/

/-- C21: the click handler of the logout button, once the user has confirmed, sends
one POST to `/admin/logout` and then redirects to `/admin/login`, whether the
request resolves (with any response) or rejects; when the user declines, the only
effect is the confirmation dialog: no request and no redirect. -/
theorem logout_redirects_regardless (r : FetchOutcome) :
    (logoutClick true r).filter Effect.isFetch = [Effect.fetch "/admin/logout" "POST" none]
    ∧ (logoutClick true r).filter Effect.isNavigate = [Effect.navigate "/admin/login"]
    ∧ (logoutClick true r).getLast? = some (Effect.navigate "/admin/login")
    ∧ logoutClick false r = [Effect.confirm "Apakah Anda yakin ingin keluar?"] := by
  cases r <;> simp [logoutClick, List.filter_cons, Effect.isNavigate, Effect.isFetch]

/-- C24: `updateCampaignStatus` and `updateDonationStatus` send a request, a PATCH
with the prompted status, exactly when the prompted status is in the allow-list of
the handler; every other non-empty answer gives the alert `Status tidak valid` and
nothing else. -/
theorem status_updates_allow_list (h : Host) (id current : JVal) (status : Option String)
    (res : FetchOutcome) :
    ((updateCampaignStatus h id current status res).filter Effect.isFetch ≠ []
        ↔ ∃ s, status = some s ∧ s ∈ ["active", "completed", "cancelled"])
    ∧ (∀ s, status = some s → s ∈ ["active", "completed", "cancelled"] →
        (updateCampaignStatus h id current status res).filter Effect.isFetch
          = [Effect.fetch ("/admin/campaigns/" ++ JVal.toStr h id) "PATCH"
              (some (.obj [("campaign_status", .str s)]))])
    ∧ (∀ s, status = some s → s ≠ "" → s ∉ ["active", "completed", "cancelled"] →
        updateCampaignStatus h id current status res
          = [Effect.prompt "Status kampanye (active/completed/cancelled):" current,
              Effect.alert "Status tidak valid"])
    ∧ ((updateDonationStatus h id current status res).filter Effect.isFetch ≠ []
        ↔ ∃ s, status = some s ∧ s ∈ ["pending", "completed", "failed", "refunded"])
    ∧ (∀ s, status = some s → s ∈ ["pending", "completed", "failed", "refunded"] →
        (updateDonationStatus h id current status res).filter Effect.isFetch
          = [Effect.fetch ("/admin/donations/" ++ JVal.toStr h id) "PATCH"
              (some (.obj [("donation_status", .str s)]))])
    ∧ (∀ s, status = some s → s ≠ "" → s ∉ ["pending", "completed", "failed", "refunded"] →
        updateDonationStatus h id current status res
          = [Effect.prompt "Status donasi (pending/completed/failed/refunded):" current,
              Effect.alert "Status tidak valid"]) := by
  have hc : ∀ s : String, s ∈ ["active", "completed", "cancelled"] → s ≠ "" := by
    intro s hs he
    subst he
    revert hs
    decide
  have hd : ∀ s : String, s ∈ ["pending", "completed", "failed", "refunded"] → s ≠ "" := by
    intro s hs he
    subst he
    revert hs
    decide
  have hcs : ∀ s : String, s ∈ ["active", "completed", "cancelled"] →
      (updateCampaignStatus h id current (some s) res).filter Effect.isFetch
        = [Effect.fetch ("/admin/campaigns/" ++ JVal.toStr h id) "PATCH"
            (some (.obj [("campaign_status", .str s)]))] := by
    intro s hs
    have hne := hc s hs
    have hin : ["active", "completed", "cancelled"].contains s = true := by
      simpa using hs
    simp only [updateCampaignStatus, hne, if_false, hin, Bool.not_true, Bool.false_eq_true,
      patchAndReload, List.filter_cons, Effect.isFetch_prompt, Effect.isFetch_fetch, if_true,
      afterRequest_no_fetch]
  have hds : ∀ s : String, s ∈ ["pending", "completed", "failed", "refunded"] →
      (updateDonationStatus h id current (some s) res).filter Effect.isFetch
        = [Effect.fetch ("/admin/donations/" ++ JVal.toStr h id) "PATCH"
            (some (.obj [("donation_status", .str s)]))] := by
    intro s hs
    have hne := hd s hs
    have hin : ["pending", "completed", "failed", "refunded"].contains s = true := by
      simpa using hs
    simp only [updateDonationStatus, hne, if_false, hin, Bool.not_true, Bool.false_eq_true,
      patchAndReload, List.filter_cons, Effect.isFetch_prompt, Effect.isFetch_fetch, if_true,
      afterRequest_no_fetch]
  have hcn : ∀ s : String, s ≠ "" → s ∉ ["active", "completed", "cancelled"] →
      updateCampaignStatus h id current (some s) res
        = [Effect.prompt "Status kampanye (active/completed/cancelled):" current,
            Effect.alert "Status tidak valid"] := by
    intro s hne hs
    have hin : ["active", "completed", "cancelled"].contains s = false := by
      simpa using hs
    simp only [updateCampaignStatus, hne, if_false, hin, Bool.not_false, if_true]
  have hdn : ∀ s : String, s ≠ "" → s ∉ ["pending", "completed", "failed", "refunded"] →
      updateDonationStatus h id current (some s) res
        = [Effect.prompt "Status donasi (pending/completed/failed/refunded):" current,
            Effect.alert "Status tidak valid"] := by
    intro s hne hs
    have hin : ["pending", "completed", "failed", "refunded"].contains s = false := by
      simpa using hs
    simp only [updateDonationStatus, hne, if_false, hin, Bool.not_false, if_true]
  refine ⟨?_, ?_, ?_, ?_, ?_, ?_⟩
  · constructor
    · intro hf
      cases status with
      | none => exact absurd rfl hf
      | some s =>
        refine ⟨s, rfl, ?_⟩
        by_contra hs
        by_cases hne : s = ""
        · subst hne
          exact hf rfl
        · rw [hcn s hne hs] at hf
          exact hf rfl
    · rintro ⟨s, rfl, hs⟩
      rw [hcs s hs]
      exact List.cons_ne_nil _ _
  · rintro s rfl hs
    exact hcs s hs
  · rintro s rfl hne hs
    exact hcn s hne hs
  · constructor
    · intro hf
      cases status with
      | none => exact absurd rfl hf
      | some s =>
        refine ⟨s, rfl, ?_⟩
        by_contra hs
        by_cases hne : s = ""
        · subst hne
          exact hf rfl
        · rw [hdn s hne hs] at hf
          exact hf rfl
    · rintro ⟨s, rfl, hs⟩
      rw [hds s hs]
      exact List.cons_ne_nil _ _
  · rintro s rfl hs
    exact hds s hs
  · rintro s rfl hne hs
    exact hdn s hne hs

/-- Witness of C24: the campaign statuses `upcoming` and `ongoing` and the donation
status `cancelled` are refused, `active` and `refunded` are sent. -/
theorem status_updates_allow_list_witness :
    (updateCampaignStatus sampleHost (.num (.fin 3 0)) (.str "active") (some "upcoming")
        sampleSuccess
      = [Effect.prompt "Status kampanye (active/completed/cancelled):" (.str "active"),
          Effect.alert "Status tidak valid"]
    ∧ updateCampaignStatus sampleHost (.num (.fin 3 0)) (.str "active") (some "ongoing")
        sampleSuccess
      = [Effect.prompt "Status kampanye (active/completed/cancelled):" (.str "active"),
          Effect.alert "Status tidak valid"])
    ∧ updateDonationStatus sampleHost (.num (.fin 3 0)) (.str "pending") (some "cancelled")
        sampleSuccess
      = [Effect.prompt "Status donasi (pending/completed/failed/refunded):" (.str "pending"),
          Effect.alert "Status tidak valid"]
    ∧ (updateCampaignStatus sampleHost (.num (.fin 3 0)) (.str "active") (some "completed")
        sampleSuccess).filter Effect.isFetch
      = [Effect.fetch "/admin/campaigns/3" "PATCH"
          (some (.obj [("campaign_status", .str "completed")]))]
    ∧ (updateDonationStatus sampleHost (.num (.fin 3 0)) (.str "pending") (some "refunded")
        sampleSuccess).filter Effect.isFetch
      = [Effect.fetch "/admin/donations/3" "PATCH"
          (some (.obj [("donation_status", .str "refunded")]))] :=
  ⟨⟨(status_updates_allow_list sampleHost (.num (.fin 3 0)) (.str "active")
        (some "upcoming") sampleSuccess).2.2.1 "upcoming" rfl (by decide) (by decide),
      (status_updates_allow_list sampleHost (.num (.fin 3 0)) (.str "active")
        (some "ongoing") sampleSuccess).2.2.1 "ongoing" rfl (by decide) (by decide)⟩,
    (status_updates_allow_list sampleHost (.num (.fin 3 0)) (.str "pending")
      (some "cancelled") sampleSuccess).2.2.2.2.2 "cancelled" rfl (by decide) (by decide),
    (status_updates_allow_list sampleHost (.num (.fin 3 0)) (.str "active")
      (some "completed") sampleSuccess).2.1 "completed" rfl (by decide),
    (status_updates_allow_list sampleHost (.num (.fin 3 0)) (.str "pending")
      (some "refunded") sampleSuccess).2.2.2.2.1 "refunded" rfl (by decide)⟩

/-- C26 (amended): `checkAuth` of `sidebar_component.js`, where a stored token counts
only when it is not the empty string: with a token on a path other than
`/admin/login` it returns true without redirecting; with a token on
`/admin/login` it redirects to `/admin` and returns false; without a token on a
path other than `/admin/login` it redirects to `/admin/login` and returns false;
without a token on `/admin/login` it returns true without redirecting. -/
theorem sidebar_checkAuth_cases (currentPath : String) :
    (∀ t : String, t ≠ "" → currentPath ≠ "/admin/login" →
        Sidebar.checkAuth (some t) currentPath = (true, []))
    ∧ (∀ t : String, t ≠ "" →
        Sidebar.checkAuth (some t) "/admin/login" = (false, [Effect.navigate "/admin"]))
    ∧ (currentPath ≠ "/admin/login" →
        Sidebar.checkAuth none currentPath = (false, [Effect.navigate "/admin/login"])
          ∧ Sidebar.checkAuth (some "") currentPath
              = (false, [Effect.navigate "/admin/login"]))
    ∧ Sidebar.checkAuth none "/admin/login" = (true, [])
    ∧ Sidebar.checkAuth (some "") "/admin/login" = (true, []) := by
  refine ⟨?_, ?_, ?_, rfl, rfl⟩
  · intro t ht hp
    simp [Sidebar.checkAuth, JVal.truthy, ht, hp]
  · intro t ht
    simp [Sidebar.checkAuth, JVal.truthy, ht]
  · intro hp
    constructor <;> simp [Sidebar.checkAuth, JVal.truthy, hp]

/-- Witness of C26: the token `abc` on `/admin/users` and on `/admin/login`, and no
token on `/admin/users`. -/
theorem sidebar_checkAuth_cases_witness :
    Sidebar.checkAuth (some "abc") "/admin/users" = (true, [])
    ∧ Sidebar.checkAuth (some "abc") "/admin/login" = (false, [Effect.navigate "/admin"])
    ∧ Sidebar.checkAuth none "/admin/users" = (false, [Effect.navigate "/admin/login"]) :=
  ⟨(sidebar_checkAuth_cases "/admin/users").1 "abc" (by decide) (by decide),
    (sidebar_checkAuth_cases "/admin/users").2.1 "abc" (by decide),
    ((sidebar_checkAuth_cases "/admin/users").2.2.1 (by decide)).1⟩

/-- Counterexample to C26 as stated: with no token stored, on `/admin/login`,
`checkAuth` returns true without redirecting, so a stored token on another path is
not the only case in which it does. -/
theorem sidebar_checkAuth_true_without_token :
    Sidebar.checkAuth none "/admin/login" = (true, [])
    ∧ Sidebar.checkAuth (some "") "/admin/users"
        = (false, [Effect.navigate "/admin/login"]) := by
  constructor <;> rfl

/-- Calls of `initFeedbackDashboard` only add listeners at the end. -/
theorem dispatchEvent_initFeedbackDashboardTimes (dom : Dom) (k : Nat)
    (listeners : List Listener)
    (hsel : (dom.getElementById "feedbackTimeRange").isSome = true) :
    dispatchEvent "feedbackTimeRange" "change" (initFeedbackDashboardTimes dom k listeners)
      = dispatchEvent "feedbackTimeRange" "change" listeners
          ++ List.replicate k (Effect.call "loadFeedbackData") := by
  obtain ⟨v, hv⟩ := Option.isSome_iff_exists.mp hsel
  induction k generalizing listeners with
  | zero => simp [initFeedbackDashboardTimes]
  | succ k ih =>
    rw [initFeedbackDashboardTimes, ih]
    simp [initFeedbackDashboard, hv, dispatchEvent, List.filter_append, List.replicate_succ]

/-- C29: with the time range selector present, each call of `initFeedbackDashboard`
calls `loadFeedbackData` once and leaves the listeners it found, followed by one
more `change` listener on the selector; after `k` calls on a page without
listeners, one `change` event of the selector calls `loadFeedbackData` `k` times. -/
theorem initFeedbackDashboard_listeners_accumulate (dom : Dom) (k : Nat)
    (hsel : (dom.getElementById "feedbackTimeRange").isSome = true) :
    (∀ listeners : List Listener,
        initFeedbackDashboard dom listeners
          = (listeners ++ [⟨"feedbackTimeRange", "change", "loadFeedbackData"⟩],
              [Effect.call "loadFeedbackData"]))
    ∧ dispatchEvent "feedbackTimeRange" "change" (initFeedbackDashboardTimes dom k [])
        = List.replicate k (Effect.call "loadFeedbackData") := by
  constructor
  · intro listeners
    obtain ⟨v, hv⟩ := Option.isSome_iff_exists.mp hsel
    simp [initFeedbackDashboard, hv]
  · rw [dispatchEvent_initFeedbackDashboardTimes dom k [] hsel]
    simp [dispatchEvent]

/-- Witness of C29: three calls, then one change of the selector. -/
theorem initFeedbackDashboard_listeners_accumulate_witness :
    (Dom.getElementById [("feedbackTimeRange", "30")] "feedbackTimeRange").isSome = true
    ∧ dispatchEvent "feedbackTimeRange" "change"
        (initFeedbackDashboardTimes [("feedbackTimeRange", "30")] 3 [])
      = [Effect.call "loadFeedbackData", Effect.call "loadFeedbackData",
          Effect.call "loadFeedbackData"] :=
  ⟨by decide,
    (initFeedbackDashboard_listeners_accumulate [("feedbackTimeRange", "30")] 3
      (by decide)).2⟩

/-- A callback that throws on one of the items makes `map` throw. -/
theorem mapThrowing_eq_none_of_mem {α β : Type} (f : α → Option β) (l : List α) (x : α)
    (hx : x ∈ l) (hf : f x = none) : mapThrowing f l = none := by
  induction l with
  | nil => cases hx
  | cons y ys ih =>
    rcases List.mem_cons.mp hx with rfl | hmem
    · simp [mapThrowing, hf]
    · cases hy : f y with
      | none => simp [mapThrowing, hy]
      | some z => simp [mapThrowing, hy, ih hmem]

/-- Reading a property of items none of which is `null` or `undefined` never
throws. -/
theorem mapThrowing_get (key : String) (l : List JVal)
    (hl : ∀ c ∈ l, c.isNullish = false) :
    mapThrowing (fun c => c.get key) l = some (l.map fun c => c.getOpt key) := by
  induction l with
  | nil => rfl
  | cons c cs ih =>
    have hc := hl c (List.mem_cons_self _ _)
    have hcs := ih fun d hd => hl d (List.mem_cons_of_mem _ hd)
    have hget : c.get key = some (c.getOpt key) := by
      cases c <;> simp [JVal.isNullish] at hc <;> simp [JVal.get, JVal.getOpt]
    simp only [mapThrowing, hget, hcs, List.map_cons]

/-- The star string of a rating from 0 to 5. -/
theorem ratingStars_of_le_five (h : Host) (r : Nat) (hr : r ≤ 5) :
    ratingStars h (.num (JSNum.ofInt r))
      = some (String.join (List.replicate r "★") ++ String.join (List.replicate (5 - r) "☆"))
    ∧ (String.join (List.replicate r "★")
        ++ String.join (List.replicate (5 - r) "☆")).length = 5 := by
  interval_cases r <;> exact ⟨rfl, rfl⟩

/-- The star string of an integer rating above 5 cannot be built. -/
theorem ratingStars_of_gt_five (h : Host) (r : Int) (hr : 5 < r) :
    ratingStars h (.num (JSNum.ofInt r)) = none := by
  have h1 : ¬ r < 0 := by omega
  have h2 : 5 - r < 0 := by omega
  simp [ratingStars, JVal.toNumber, JSNum.ofInt, JSNum.sub, JSNum.normalize, jsRepeat,
    JSNum.toIntegerOrInfinity, h1, h2]

/-- C28: in `updateFeedbackTable`, for an integer rating `r` from 0 to 5 the star
string is `r` filled stars followed by `5 - r` empty stars, five characters in
all; for an integer rating above 5 the star string cannot be built (negative
repeat count), the row throws, and so does `updateFeedbackTable` on any list
that holds such a record. -/
theorem rating_stars_five_or_failure (h : Host) :
    (∀ r : Nat, r ≤ 5 →
        ratingStars h (.num (JSNum.ofInt r))
          = some (String.join (List.replicate r "★")
              ++ String.join (List.replicate (5 - r) "☆"))
        ∧ (String.join (List.replicate r "★")
            ++ String.join (List.replicate (5 - r) "☆")).length = 5)
    ∧ (∀ (r : Int) (fields : List (String × JVal)), 5 < r →
        fields.lookup "rating" = some (.num (JSNum.ofInt r)) →
        ratingStars h (.num (JSNum.ofInt r)) = none
          ∧ feedbackRow h (.obj fields) = none
          ∧ ∀ (items : List JVal) (dom : Dom), JVal.obj fields ∈ items →
              (dom.getElementById "feedbackTableBody").isSome = true →
              updateFeedbackTable h (.arr items) dom = none) := by
  refine ⟨fun r hr => ratingStars_of_le_five h r hr, ?_⟩
  intro r fields hr hf
  have hs := ratingStars_of_gt_five h r hr
  have hrow : feedbackRow h (.obj fields) = none := by
    simp [feedbackRow, JVal.get, hf, hs]
  refine ⟨hs, hrow, ?_⟩
  intro items dom hmem hbody
  obtain ⟨v, hv⟩ := Option.isSome_iff_exists.mp hbody
  have hlen : items.length ≠ 0 := by
    intro h0
    rw [List.length_eq_zero] at h0
    subst h0
    cases hmem
  have hmap := mapThrowing_eq_none_of_mem (feedbackRow h) items _ hmem hrow
  simp [updateFeedbackTable, hv, JVal.truthy, JVal.get, JVal.isNum, JSNum.ofInt, hlen, hmap]

/-- Witness of C28: the ratings 3 and 6. -/
theorem rating_stars_five_or_failure_witness :
    ratingStars sampleHost (.num (.fin 3 0)) = some "★★★☆☆"
    ∧ ratingStars sampleHost (.num (.fin 6 0)) = none
    ∧ feedbackRow sampleHost (.obj [("rating", .num (.fin 6 0))]) = none :=
  ⟨((rating_stars_five_or_failure sampleHost).1 3 (by decide)).1,
    ((rating_stars_five_or_failure sampleHost).2 6 [("rating", .num (.fin 6 0))]
      (by decide) rfl).1,
    ((rating_stars_five_or_failure sampleHost).2 6 [("rating", .num (.fin 6 0))]
      (by decide) rfl).2.1⟩

/-- C27: `formatTime` on a date string that denotes a valid date, with
`d = now - date` in milliseconds: `d < 60000` (a future date included) gives
`Baru saja`; else `d < 3600000` gives `m menit yang lalu` with
`m = floor(d / 60000)` from 1 to 59; else `d < 86400000` gives `h jam yang lalu`
with `h = floor(d / 3600000)` from 1 to 23; else `d < 604800000` gives
`k hari yang lalu` with `k = floor(d / 86400000)` from 1 to 6; else the result is
`formatDate` of the input. -/
theorem formatTime_buckets (h : Host) (c : Clock) (dateString : JVal) (date : Int)
    (htruthy : dateString.truthy = true) (hdate : c.timeValue dateString = some date) :
    (c.now - date < 60000 → formatTime h c dateString = "Baru saja")
    ∧ (60000 ≤ c.now - date → c.now - date < 3600000 →
        formatTime h c dateString
            = toString (Int.fdiv (c.now - date) 60000) ++ " menit yang lalu"
          ∧ 1 ≤ Int.fdiv (c.now - date) 60000 ∧ Int.fdiv (c.now - date) 60000 ≤ 59)
    ∧ (3600000 ≤ c.now - date → c.now - date < 86400000 →
        formatTime h c dateString
            = toString (Int.fdiv (c.now - date) 3600000) ++ " jam yang lalu"
          ∧ 1 ≤ Int.fdiv (c.now - date) 3600000 ∧ Int.fdiv (c.now - date) 3600000 ≤ 23)
    ∧ (86400000 ≤ c.now - date → c.now - date < 604800000 →
        formatTime h c dateString
            = toString (Int.fdiv (c.now - date) 86400000) ++ " hari yang lalu"
          ∧ 1 ≤ Int.fdiv (c.now - date) 86400000 ∧ Int.fdiv (c.now - date) 86400000 ≤ 6)
    ∧ (604800000 ≤ c.now - date → formatTime h c dateString = formatDate h dateString) := by
  have e1 : Int.fdiv (c.now - date) 60000 = (c.now - date) / 60000 :=
    Int.fdiv_eq_ediv _ (by decide)
  have e2 : Int.fdiv (c.now - date) 3600000 = (c.now - date) / 3600000 :=
    Int.fdiv_eq_ediv _ (by decide)
  have e3 : Int.fdiv (c.now - date) 86400000 = (c.now - date) / 86400000 :=
    Int.fdiv_eq_ediv _ (by decide)
  have hstr : ∀ m : Int, 0 ≤ m → m ≤ 59 → JSNum.toStr h (JSNum.ofInt m) = toString m := by
    intro m h0 h1
    have : m.natAbs < 10 ^ 21 := by omega
    unfold JSNum.ofInt
    rw [JSNum.toStr]
    exact if_pos this
  simp only [formatTime, htruthy, hdate, Bool.not_true, Bool.false_eq_true, if_false, e1, e2, e3]
  refine ⟨?_, ?_, ?_, ?_, ?_⟩
  · intro hd
    have : (c.now - date) / 60000 < 1 := by omega
    simp [this]
  · intro h0 h1
    have a1 : ¬ (c.now - date) / 60000 < 1 := by omega
    have a2 : (c.now - date) / 60000 < 60 := by omega
    refine ⟨?_, by omega, by omega⟩
    simp only [a1, a2, if_false, if_true]
    rw [hstr _ (by omega) (by omega)]
  · intro h0 h1
    have a1 : ¬ (c.now - date) / 60000 < 1 := by omega
    have a2 : ¬ (c.now - date) / 60000 < 60 := by omega
    have a3 : (c.now - date) / 3600000 < 24 := by omega
    refine ⟨?_, by omega, by omega⟩
    simp only [a1, a2, a3, if_false, if_true]
    rw [hstr _ (by omega) (by omega)]
  · intro h0 h1
    have a1 : ¬ (c.now - date) / 60000 < 1 := by omega
    have a2 : ¬ (c.now - date) / 60000 < 60 := by omega
    have a3 : ¬ (c.now - date) / 3600000 < 24 := by omega
    have a4 : (c.now - date) / 86400000 < 7 := by omega
    refine ⟨?_, by omega, by omega⟩
    simp only [a1, a2, a3, a4, if_false, if_true]
    rw [hstr _ (by omega) (by omega)]
  · intro h0
    have a1 : ¬ (c.now - date) / 60000 < 1 := by omega
    have a2 : ¬ (c.now - date) / 60000 < 60 := by omega
    have a3 : ¬ (c.now - date) / 3600000 < 24 := by omega
    have a4 : ¬ (c.now - date) / 86400000 < 7 := by omega
    simp only [a1, a2, a3, a4, if_false]

/-- Witness of C27: a date one hour and a half before now. -/
theorem formatTime_buckets_witness :
    formatTime sampleHost sampleClock (.str "2026-11-05T10:30:00Z") = "1 jam yang lalu" :=
  ((formatTime_buckets sampleHost sampleClock (.str "2026-11-05T10:30:00Z") 1793874600000
    (by decide) rfl).2.2.1 (by decide) (by decide)).1

/-- The model of `includes` is the occurrence of the pattern as a contiguous part. -/
theorem jsIncludes_iff (s pattern : String) :
    jsIncludes s pattern = true ↔ pattern.data <:+: s.data := by
  simp only [jsIncludes, List.any_eq_true, List.mem_tails, List.isPrefixOf_iff_prefix]
  constructor
  · rintro ⟨t, ht, hp⟩
    exact List.infix_iff_prefix_suffix.mpr ⟨t, hp, ht⟩
  · intro hi
    obtain ⟨t, hp, ht⟩ := List.infix_iff_prefix_suffix.mp hi
    exact ⟨t, ht, hp⟩

/-- C22 (amended): in `loadMonthlyStats` the value of an entry is shown through
`formatCurrency` exactly when it is a number and its label contains `Donasi`;
every other value is shown as it is, also under a label that contains `Donasi`;
for a response whose `stats` is an object, the container holds one such row per
entry, in order. -/
theorem monthly_stats_currency_rule (h : Host) :
    (∀ (key : String) (n : JSNum), "Donasi".data <:+: key.data →
        monthlyStatRow h (key, .num n)
          = monthlyStatTemplate key (formatCurrency h (.num n)))
    ∧ (∀ (key : String) (value : JVal),
        value.isNumber = false ∨ ¬ "Donasi".data <:+: key.data →
        monthlyStatRow h (key, value) = monthlyStatTemplate key (value.toStr h))
    ∧ (∀ (ok : Bool) (fields stats : List (String × JVal)) (dom : Dom),
        fields.lookup "stats" = some (.obj stats) →
        loadMonthlyStats h (.resolved ⟨ok, some (.obj fields)⟩) dom
          = dom.assign "monthlyStats" (String.join (stats.map (monthlyStatRow h)))) := by
  refine ⟨?_, ?_, ?_⟩
  · intro key n hk
    have := (jsIncludes_iff key "Donasi").mpr hk
    simp [monthlyStatRow, JVal.isNumber, this]
  · intro key value hv
    rcases hv with hv | hv
    · simp [monthlyStatRow, hv]
    · have : jsIncludes key "Donasi" = false := by
        cases hj : jsIncludes key "Donasi" with
        | false => rfl
        | true => exact absurd ((jsIncludes_iff key "Donasi").mp hj) hv
      simp [monthlyStatRow, this]
  · intro ok fields stats dom hf
    cases ha : dom.assign "monthlyStats" (String.join (stats.map (monthlyStatRow h))) with
    | some d =>
      simp [loadMonthlyStats, FetchOutcome.data, monthlyStatsMarkup, JVal.get, hf, JVal.truthy,
        entries, ha]
    | none =>
      have hnone : ∀ v, dom.assign "monthlyStats" v = none :=
        fun v => Dom.assign_eq_none dom "monthlyStats" _ v ha
      simp [loadMonthlyStats, FetchOutcome.data, monthlyStatsMarkup, JVal.get, hf, JVal.truthy,
        entries, hnone]

/-- Witness of C22: a number under `Total Donasi`, and a number under `Pengguna Baru`. -/
theorem monthly_stats_currency_rule_witness :
    monthlyStatRow sampleHost ("Total Donasi", .num (.fin 1500000 0))
      = monthlyStatTemplate "Total Donasi" "Rp 0"
    ∧ monthlyStatRow sampleHost ("Pengguna Baru", .num (.fin 12 0))
      = monthlyStatTemplate "Pengguna Baru" "12" :=
  ⟨(monthly_stats_currency_rule sampleHost).1 "Total Donasi" (.fin 1500000 0)
      ((jsIncludes_iff "Total Donasi" "Donasi").mp (by decide)),
    (monthly_stats_currency_rule sampleHost).2.1 "Pengguna Baru" (.num (.fin 12 0))
      (Or.inr fun hi => absurd ((jsIncludes_iff "Pengguna Baru" "Donasi").mpr hi)
        (by decide))⟩

/-- Counterexample to C22 as stated: under the label `Total Donasi` the value
`'1500000'`, a string, is shown as it is and not through `formatCurrency`, which
on this host gives `Rp 0`. -/
theorem monthly_stats_donasi_string_not_formatted :
    loadMonthlyStats sampleHost
        (.resolved ⟨true, some (.obj [("stats", .obj [("Total Donasi", .str "1500000")])])⟩)
        [("monthlyStats", "")]
      = some [("monthlyStats", monthlyStatTemplate "Total Donasi" "1500000")]
    ∧ formatCurrency sampleHost (.str "1500000") = "Rp 0" := by
  constructor <;> rfl

/-- C23: `updateCategorySentimentChart`, with the canvas present and a list of
categories (none of the first six is `null`), returns with the chart holding the
labels and the three series of the first six categories of the list, in order:
each has `min(n, 6)` entries for a list of length `n`. -/
theorem category_chart_top_six (items : List JVal) (p : Page)
    (hcanvas : (p.dom.getElementById "categorySentimentChart").isSome = true)
    (hitems : ∀ c ∈ items.take 6, c.isNullish = false) :
    ∃ p1 chart, updateCategorySentimentChart (.arr items) p = some p1
      ∧ p1.categorySentimentChart = some chart
      ∧ chart.labels = (items.take 6).map (fun c => c.getOpt "category")
      ∧ chart.series
          = [("Positif", (items.take 6).map fun c => c.getOpt "positive"),
             ("Negatif", (items.take 6).map fun c => c.getOpt "negative"),
             ("Netral", (items.take 6).map fun c => c.getOpt "neutral")]
      ∧ chart.labels.length = min items.length 6
      ∧ ∀ s ∈ chart.series, s.2.length = min items.length 6 := by
  obtain ⟨v, hv⟩ := Option.isSome_iff_exists.mp hcanvas
  have hlen : (items.take 6).length = min items.length 6 := by
    rw [List.length_take, Nat.min_comm]
  refine ⟨{ p with
      categorySentimentChart := some (drawChart p.categorySentimentChart "bar"
        ((items.take 6).map fun c => c.getOpt "category")
        [("Positif", (items.take 6).map fun c => c.getOpt "positive"),
         ("Negatif", (items.take 6).map fun c => c.getOpt "negative"),
         ("Netral", (items.take 6).map fun c => c.getOpt "neutral")])
      constructed :=
        noteConstructed p.categorySentimentChart "categorySentimentChart" p.constructed },
    drawChart p.categorySentimentChart "bar"
      ((items.take 6).map fun c => c.getOpt "category")
      [("Positif", (items.take 6).map fun c => c.getOpt "positive"),
       ("Negatif", (items.take 6).map fun c => c.getOpt "negative"),
       ("Netral", (items.take 6).map fun c => c.getOpt "neutral")], ?_, rfl, ?_, ?_, ?_, ?_⟩
  · simp only [updateCategorySentimentChart, hv, mapThrowing_get _ _ hitems, Option.bind_eq_bind,
      Option.some_bind, Option.pure_def]
  · cases p.categorySentimentChart <;> rfl
  · cases p.categorySentimentChart <;> rfl
  · cases p.categorySentimentChart <;> simp [drawChart, Nat.min_comm]
  · intro s hs
    have hser : (drawChart p.categorySentimentChart "bar"
        ((items.take 6).map fun c => c.getOpt "category")
        [("Positif", (items.take 6).map fun c => c.getOpt "positive"),
         ("Negatif", (items.take 6).map fun c => c.getOpt "negative"),
         ("Netral", (items.take 6).map fun c => c.getOpt "neutral")]).series
        = [("Positif", (items.take 6).map fun c => c.getOpt "positive"),
           ("Negatif", (items.take 6).map fun c => c.getOpt "negative"),
           ("Netral", (items.take 6).map fun c => c.getOpt "neutral")] := by
      cases p.categorySentimentChart <;> rfl
    rw [hser] at hs
    simp only [List.mem_cons, List.mem_singleton, List.not_mem_nil, or_false] at hs
    rcases hs with rfl | rfl | rfl <;> simp [Nat.min_comm]

/-- Witness of C23: seven categories give six labels, those of the first six. -/
theorem category_chart_top_six_witness :
    ((updateCategorySentimentChart (.arr sampleCategories)
          (samplePage [("categorySentimentChart", "")])).bind
        fun p1 => p1.categorySentimentChart.map Chart.labels)
      = some [.str "c0", .str "c1", .str "c2", .str "c3", .str "c4", .str "c5"] := by
  obtain ⟨p1, chart, h1, h2, h3, -, -, -⟩ :=
    category_chart_top_six sampleCategories (samplePage [("categorySentimentChart", "")])
      (by decide) (by
        intro c hc
        have hmem := List.mem_of_mem_take hc
        simp only [sampleCategories, List.mem_map] at hmem
        obtain ⟨i, -, rfl⟩ := hmem
        rfl)
  rw [h1, Option.some_bind, h2, Option.map_some', h3]
  rfl

/-! ## Lemmas on the visual state -/

/-- The two loops of `switchSection` as one pass over the elements. -/
theorem clearActive_eq_map (key : JVal) (doc : Document) :
    clearActive key doc = doc.map (clearElement key) := by
  unfold clearActive
  rw [List.map_map]
  rfl

/-- The loops keep the id and the classes of an element. -/
theorem clearElement_id (key : JVal) (e : Element) : (clearElement key e).id = e.id := by
  rcases e with ⟨id, nav, content, ds, act, text⟩
  cases nav <;> cases content <;> rfl

/-- Running the loops twice is running them once. -/
theorem clearElement_idem (key : JVal) (e : Element) :
    clearElement key (clearElement key e) = clearElement key e := by
  rcases e with ⟨id, nav, content, ds, act, text⟩
  cases nav <;> cases content <;> simp [clearElement]

/-- Updating the first element with an id, after a pass over all elements, is
idempotent when it is so on each element. -/
theorem Document.updateFirst_map_idem (t : String) (f c : Element → Element)
    (hc : ∀ e, (c e).id = e.id) (hf : ∀ e, (f e).id = e.id)
    (h1 : ∀ e, c (c e) = c e) (h2 : ∀ e, f (c (f (c e))) = f (c e)) (l : Document) :
    Document.updateFirst t f (List.map c (Document.updateFirst t f (List.map c l)))
      = Document.updateFirst t f (List.map c l) := by
  induction l with
  | nil => rfl
  | cons e es ih =>
    have hmm : List.map c (List.map c es) = List.map c es := by
      rw [List.map_map]
      exact List.map_congr_left fun e _ => h1 e
    by_cases ht : e.id = some t
    · simp only [List.map_cons, Document.updateFirst, hc, hf, ht, if_true, h2, hmm]
    · simp only [List.map_cons, Document.updateFirst, hc, hf, ht, if_false, h1, ih]

/-- Two such updates after a pass over all elements are idempotent together. -/
theorem Document.updateFirst_updateFirst_map_idem (t p : String) (a s c : Element → Element)
    (hc : ∀ e, (c e).id = e.id) (ha : ∀ e, (a e).id = e.id) (hs : ∀ e, (s e).id = e.id)
    (h1 : ∀ e, c (c e) = c e) (h2 : ∀ e, a (c (a (c e))) = a (c e))
    (h3 : ∀ e, s (c (s (c e))) = s (c e))
    (h4 : ∀ e, s (a (c (s (a (c e))))) = s (a (c e))) (l : Document) :
    Document.updateFirst p s (Document.updateFirst t a (List.map c
        (Document.updateFirst p s (Document.updateFirst t a (List.map c l)))))
      = Document.updateFirst p s (Document.updateFirst t a (List.map c l)) := by
  induction l with
  | nil => rfl
  | cons e es ih =>
    have hmm : List.map c (List.map c es) = List.map c es := by
      rw [List.map_map]
      exact List.map_congr_left fun e _ => h1 e
    have it := Document.updateFirst_map_idem t a c hc ha h1 h2 es
    have ip := Document.updateFirst_map_idem p s c hc hs h1 h3 es
    by_cases ht : e.id = some t
    · by_cases hp : e.id = some p
      · have htp : some t = some p := ht.symm.trans hp
        simp only [List.map_cons, Document.updateFirst, hc, ha, hs, ht, htp, if_true, h4, hmm]
      · have htp : ¬ some t = some p := fun hh => hp (ht.trans hh)
        simp only [List.map_cons, Document.updateFirst, hc, ha, hs, ht, htp, if_true, if_false,
          h2, ip]
    · by_cases hp : e.id = some p
      · have hpt : ¬ some p = some t := fun hh => ht (hp.trans hh)
        simp only [List.map_cons, Document.updateFirst, hc, ha, hs, hp, hpt, if_true, if_false,
          h3, it]
      · simp only [List.map_cons, Document.updateFirst, hc, ha, hs, ht, hp, if_false, h1, ih]

/-- An element of the updated page is an element of the page, or the changed one. -/
theorem Document.mem_updateFirst (t : String) (f : Element → Element) (l : Document)
    (e : Element) (he : e ∈ Document.updateFirst t f l) :
    e ∈ l ∨ ∃ e0 ∈ l, e0.id = some t ∧ e = f e0 := by
  induction l with
  | nil => cases he
  | cons x xs ih =>
    by_cases ht : x.id = some t
    · rw [Document.updateFirst, if_pos ht] at he
      rcases List.mem_cons.mp he with rfl | hmem
      · exact Or.inr ⟨x, List.mem_cons_self _ _, ht, rfl⟩
      · exact Or.inl (List.mem_cons_of_mem _ hmem)
    · rw [Document.updateFirst, if_neg ht] at he
      rcases List.mem_cons.mp he with rfl | hmem
      · exact Or.inl (List.mem_cons_self _ _)
      · rcases ih hmem with h1 | ⟨e0, h0, h1, h2⟩
        · exact Or.inl (List.mem_cons_of_mem _ h1)
        · exact Or.inr ⟨e0, List.mem_cons_of_mem _ h0, h1, h2⟩

/-- A property of all elements that the change keeps holds after the update. -/
theorem Document.forall_updateFirst (P : Element → Prop) (t : String) (f : Element → Element)
    (l : Document) (hl : ∀ e ∈ l, P e) (hf : ∀ e ∈ l, e.id = some t → P (f e)) :
    ∀ e ∈ Document.updateFirst t f l, P e := by
  intro e he
  rcases Document.mem_updateFirst t f l e he with h1 | ⟨e0, h0, h1, rfl⟩
  · exact hl e h1
  · exact hf e0 h0 h1

/-- On a page without shown sections, an update shows at most the element it
changes. -/
theorem activeSections_updateFirst (t : String) (f : Element → Element) (l : Document)
    (hf : ∀ e, (f e).id = e.id) (hl : activeSections l = []) :
    (activeSections (Document.updateFirst t f l)).length ≤ 1
      ∧ ∀ e ∈ activeSections (Document.updateFirst t f l), e.id = some t := by
  induction l with
  | nil => simp [Document.updateFirst, activeSections]
  | cons x xs ih =>
    have hx : (x.isContentSection && x.active) = false := by
      cases hb : (x.isContentSection && x.active) with
      | false => rfl
      | true =>
        have : x ∈ activeSections (x :: xs) := by
          simp only [activeSections, List.mem_filter, List.mem_cons, true_or, true_and]
          exact hb
        rw [hl] at this
        cases this
    have hxs : activeSections xs = [] := by
      have := hl
      simp only [activeSections, List.filter_cons, hx] at this
      simpa [activeSections] using this
    by_cases ht : x.id = some t
    · rw [Document.updateFirst, if_pos ht]
      have hrest : List.filter (fun e => e.isContentSection && e.active) xs = [] := hxs
      cases hb : ((f x).isContentSection && (f x).active) with
      | false => simp [activeSections, List.filter_cons, hb, hrest]
      | true =>
        simp only [activeSections, List.filter_cons, hb, if_true, hrest, List.length_singleton,
          le_refl, List.mem_singleton, forall_eq, true_and]
        rw [hf, ht]
    · rw [Document.updateFirst, if_neg ht]
      have := ih hxs
      simpa [activeSections, List.filter_cons, hx] using this

/-- A change of the text of one element leaves the shown sections as many, with
the same ids. -/
theorem activeSections_setText (p text : String) (l : Document) :
    (activeSections (Document.updateFirst p (fun e => { e with text := text }) l)).map
        Element.id
      = (activeSections l).map Element.id := by
  induction l with
  | nil => rfl
  | cons x xs ih =>
    by_cases hp : x.id = some p
    · rw [Document.updateFirst, if_pos hp]
      cases hb : (x.isContentSection && x.active) <;>
        simp [activeSections, List.filter_cons, hb]
    · rw [Document.updateFirst, if_neg hp]
      have ih1 : List.map Element.id (List.filter (fun e => e.isContentSection && e.active)
            (Document.updateFirst p (fun e => { e with text := text }) xs))
          = List.map Element.id (List.filter (fun e => e.isContentSection && e.active) xs) := ih
      cases hb : (x.isContentSection && x.active) <;>
        simp [activeSections, List.filter_cons, hb, ih1]

/-- After the loops no content section is shown. -/
theorem activeSections_clearActive (key : JVal) (doc : Document) :
    activeSections (clearActive key doc) = [] := by
  rw [clearActive_eq_map]
  simp only [activeSections, List.filter_eq_nil_iff, List.mem_map]
  rintro e ⟨d, -, rfl⟩
  rcases d with ⟨id, nav, content, ds, act, text⟩
  cases nav <;> cases content <;> simp [clearElement]

/-- The page `switchSection` leaves, whatever the bindings: the loops alone when
the target section is missing, the loops and the activation when the title
element is missing, and all three steps otherwise. -/
theorem switchSection_document (h : Host) (g : Globals) (key : JVal) (doc : Document) :
    (switchSection h g key doc).1.1
      = if (doc.getElementById (JVal.toStr h key ++ "-section")).isSome = true then
          if (doc.getElementById "pageTitle").isSome = true then switchedDocument h key doc
          else Document.updateFirst (JVal.toStr h key ++ "-section")
            (fun e => { e with active := true }) (clearActive key doc)
        else clearActive key doc := by
  have ht := clearActive_getElementById_isSome key doc (JVal.toStr h key ++ "-section")
  have hp := (Document.getElementById_activate_isSome (JVal.toStr h key ++ "-section")
    (clearActive key doc) "pageTitle").trans
    (clearActive_getElementById_isSome key doc "pageTitle")
  cases h1 : Document.getElementById (clearActive key doc) (JVal.toStr h key ++ "-section") with
  | none =>
    rw [h1] at ht
    simp only [switchSection, h1, ← ht, Option.isSome_none, Bool.false_eq_true, if_false]
  | some e1 =>
    rw [h1] at ht
    cases h2 : Document.getElementById (Document.updateFirst (JVal.toStr h key ++ "-section")
        (fun e => { e with active := true }) (clearActive key doc)) "pageTitle" with
    | none =>
      rw [h2] at hp
      simp only [switchSection, h1, h2, ← ht, ← hp, Option.isSome_none, Option.isSome_some,
        Bool.false_eq_true, if_false, if_true]
    | some e2 =>
      rw [h2] at hp
      cases hg : g.loadSectionData <;>
        simp only [switchSection, h1, h2, hg, ← ht, ← hp, Option.isSome_some, if_true,
          switchedDocument]

/-- C25: `switchSection(s)` leaves the same page when it is called a second time
with the same key, so the active navigation items and the shown content sections
after two calls are those after one; after a call at most one content section is
shown, and a shown one has the id `<s>-section`; and on a page whose navigation
items are neither content sections nor the element `<s>-section`, the active
navigation items after a call are exactly those whose `data-section` is the key. -/
theorem switchSection_reentry_idempotent (h : Host) (g : Globals) (key : JVal)
    (doc : Document) :
    (switchSection h g key (switchSection h g key doc).1.1).1.1
        = (switchSection h g key doc).1.1
    ∧ activeNavItems (switchSection h g key (switchSection h g key doc).1.1).1.1
        = activeNavItems (switchSection h g key doc).1.1
    ∧ activeSections (switchSection h g key (switchSection h g key doc).1.1).1.1
        = activeSections (switchSection h g key doc).1.1
    ∧ (activeSections (switchSection h g key doc).1.1).length ≤ 1
    ∧ (∀ e ∈ activeSections (switchSection h g key doc).1.1,
        e.id = some (JVal.toStr h key ++ "-section"))
    ∧ ((∀ e ∈ doc, e.isNavItem = true →
          e.isContentSection = false ∧ e.id ≠ some (JVal.toStr h key ++ "-section")) →
        ∀ e ∈ (switchSection h g key doc).1.1, e.isNavItem = true →
          e.active = attributeIs e.dataSection key) := by
  have hidem : (switchSection h g key (switchSection h g key doc).1.1).1.1
      = (switchSection h g key doc).1.1 := by
    rw [switchSection_document h g key doc]
    cases ht : (doc.getElementById (JVal.toStr h key ++ "-section")).isSome with
    | false =>
      simp only [Bool.false_eq_true, if_false]
      rw [switchSection_document, clearActive_getElementById_isSome, ht]
      simp only [Bool.false_eq_true, if_false]
      simp only [clearActive_eq_map, List.map_map]
      exact List.map_congr_left fun e _ => clearElement_idem key e
    | true =>
      cases hp : (doc.getElementById "pageTitle").isSome with
      | false =>
        simp only [Bool.false_eq_true, if_false, if_true]
        rw [switchSection_document, Document.getElementById_activate_isSome,
          Document.getElementById_activate_isSome, clearActive_getElementById_isSome,
          clearActive_getElementById_isSome, ht, hp]
        simp only [Bool.false_eq_true, if_false, if_true]
        simp only [clearActive_eq_map]
        exact Document.updateFirst_map_idem (JVal.toStr h key ++ "-section")
          (fun e => { e with active := true }) (clearElement key) (clearElement_id key)
          (fun _ => rfl) (clearElement_idem key)
          (by
            intro e
            rcases e with ⟨id, nav, content, ds, act, text⟩
            cases nav <;> cases content <;> simp [clearElement]) doc
      | true =>
        simp only [if_true]
        rw [switchSection_document, switchedDocument_getElementById_isSome,
          switchedDocument_getElementById_isSome, ht, hp]
        simp only [if_true]
        unfold switchedDocument
        simp only [clearActive_eq_map]
        exact Document.updateFirst_updateFirst_map_idem (JVal.toStr h key ++ "-section")
          "pageTitle" (fun e => { e with active := true })
          (fun e => { e with text := lookupOr h titles key "Dashboard" }) (clearElement key)
          (clearElement_id key) (fun _ => rfl) (fun _ => rfl) (clearElement_idem key)
          (by
            intro e
            rcases e with ⟨id, nav, content, ds, act, text⟩
            cases nav <;> cases content <;> simp [clearElement])
          (by
            intro e
            rcases e with ⟨id, nav, content, ds, act, text⟩
            cases nav <;> cases content <;> simp [clearElement])
          (by
            intro e
            rcases e with ⟨id, nav, content, ds, act, text⟩
            cases nav <;> cases content <;> simp [clearElement]) doc
  have hsec : (activeSections (switchSection h g key doc).1.1).length ≤ 1
      ∧ ∀ e ∈ activeSections (switchSection h g key doc).1.1,
          e.id = some (JVal.toStr h key ++ "-section") := by
    have hact := activeSections_updateFirst (JVal.toStr h key ++ "-section")
      (fun e => { e with active := true }) (clearActive key doc) (fun _ => rfl)
      (activeSections_clearActive key doc)
    rw [switchSection_document h g key doc]
    split
    · split
      · have hids := activeSections_setText "pageTitle" (lookupOr h titles key "Dashboard")
          (Document.updateFirst (JVal.toStr h key ++ "-section")
            (fun e => { e with active := true }) (clearActive key doc))
        constructor
        · have hlen := congrArg List.length hids
          rw [List.length_map, List.length_map] at hlen
          unfold switchedDocument
          rw [hlen]
          exact hact.1
        · intro e he
          have hmem : e.id ∈ (activeSections (switchedDocument h key doc)).map Element.id :=
            List.mem_map_of_mem _ he
          unfold switchedDocument at hmem
          rw [hids] at hmem
          obtain ⟨e0, h0, h1⟩ := List.mem_map.mp hmem
          rw [← h1]
          exact hact.2 e0 h0
      · exact hact
    · rw [activeSections_clearActive]
      exact ⟨Nat.zero_le _, fun e he => by cases he⟩
  refine ⟨hidem, by rw [hidem], by rw [hidem], hsec.1, hsec.2, ?_⟩
  intro hpage
  have hclear : ∀ e ∈ clearActive key doc, e.isNavItem = true →
      e.active = attributeIs e.dataSection key
        ∧ e.id ≠ some (JVal.toStr h key ++ "-section") := by
    rw [clearActive_eq_map]
    intro e he hnav
    obtain ⟨d, hd, rfl⟩ := List.mem_map.mp he
    rcases d with ⟨id, nav, content, ds, act, text⟩
    have hnav1 : nav = true := by
      cases nav <;> cases content <;> simp [clearElement] at hnav ⊢
    subst hnav1
    obtain ⟨hcont, hid⟩ := hpage _ hd rfl
    simp only at hcont hid
    subst hcont
    exact ⟨by simp [clearElement], by simpa [clearElement] using hid⟩
  have hactivated : ∀ e ∈ Document.updateFirst (JVal.toStr h key ++ "-section")
      (fun e => { e with active := true }) (clearActive key doc), e.isNavItem = true →
      e.active = attributeIs e.dataSection key
        ∧ e.id ≠ some (JVal.toStr h key ++ "-section") := by
    apply Document.forall_updateFirst _ _ _ _ hclear
    intro e he hid hnav
    exact absurd hid (hclear e he hnav).2
  rw [switchSection_document h g key doc]
  split
  · split
    · unfold switchedDocument
      intro e he hnav
      have := Document.forall_updateFirst
        (fun e => e.isNavItem = true → e.active = attributeIs e.dataSection key
          ∧ e.id ≠ some (JVal.toStr h key ++ "-section")) "pageTitle"
        (fun e => { e with text := lookupOr h titles key "Dashboard" }) _ hactivated
        (fun e0 h0 _ hn => hactivated e0 h0 hn) e he hnav
      exact this.1
    · intro e he hnav
      exact (hactivated e he hnav).1
  · intro e he hnav
    exact (hclear e he hnav).1

/-- Witness of C25: the sample page, switched to `feedback` twice. -/
theorem switchSection_reentry_idempotent_witness :
    (activeNavItems (switchSection sampleHost sampleGlobals (.str "feedback")
        (switchSection sampleHost sampleGlobals (.str "feedback") sampleDocument).1.1).1.1
      = activeNavItems
          (switchSection sampleHost sampleGlobals (.str "feedback") sampleDocument).1.1)
    ∧ (activeNavItems
          (switchSection sampleHost sampleGlobals (.str "feedback") sampleDocument).1.1).map
        Element.dataSection = [some "feedback"]
    ∧ (activeSections
          (switchSection sampleHost sampleGlobals (.str "feedback") sampleDocument).1.1).map
        Element.id = [some "feedback-section"]
    ∧ (List.all (switchSection sampleHost sampleGlobals (.str "feedback") sampleDocument).1.1
        fun e => !e.isNavItem || (e.active == attributeIs e.dataSection (.str "feedback")))
      = true :=
  ⟨(switchSection_reentry_idempotent sampleHost sampleGlobals (.str "feedback")
      sampleDocument).2.1,
    by decide, by decide,
    by
      have hnav := (switchSection_reentry_idempotent sampleHost sampleGlobals
        (.str "feedback") sampleDocument).2.2.2.2.2 (by decide)
      rw [List.all_eq_true]
      intro e he
      cases hn : e.isNavItem with
      | false => rfl
      | true => simp [hnav e he hn]⟩

end RuangHijau
